import Mathlib

/-!
# Binding and validation layer of the WebGL rendering context

A shallow embedding of `src/webgl_rendering_context_callbacks.cc`.

* A handler invocation is modelled by its `Outcome`: the ordered list of
  effects it performs on the context and on the graphics driver
  (`set_gl_error` posts and native `gl*` calls) together with the value it
  hands back to the script host.
* A script argument is modelled by what the marshalling layer (declared in
  headers that are not part of this file) reports for it: one field of
  `V8Value` per decoder, `none` standing for `ok == false`.
* `int32_t` values are `Int`, `uint32_t` values are `Nat`; every conversion
  between them and every 32-bit unsigned operation is written with an
  explicit reduction modulo `2 ^ 32`.
-/

namespace v8_webgl

/-! ## Machine integers -/

/-- Conversion of an integer to `uint32_t`. -/
def toU32 (i : Int) : Nat := (i % 4294967296).toNat

/-- Conversion of an unsigned value to a 32-bit signed integer (`GLint`, `GLsizei`). -/
def toI32 (n : Nat) : Int :=
  if n % 4294967296 < 2147483648 then ((n % 4294967296 : Nat) : Int)
  else ((n % 4294967296 : Nat) : Int) - 4294967296

/-- Conversion of an unsigned value to `GLboolean` (`unsigned char`). -/
def toGLboolean (n : Nat) : Nat := n % 256

/-- Conversion of a C++ `bool` to `GLboolean`. -/
def GLboolean_of_bool (b : Bool) : Nat := if b then 1 else 0

/-- A `GLfloat` is only ever passed through by the binding layer; it is carried
as its 32-bit pattern. -/
structure GLfloat where
  bits : Nat
  deriving DecidableEq, Repr

/-! ## Constants of the graphics API (values of the Khronos `gl2.h` header and of
the WebGL 1.0 IDL) -/

abbrev GL_FALSE : Nat := 0
abbrev GL_INVALID_ENUM : Nat := 0x0500
abbrev GL_INVALID_VALUE : Nat := 0x0501
abbrev GL_INVALID_OPERATION : Nat := 0x0502
abbrev GL_BYTE : Nat := 0x1400
abbrev GL_UNSIGNED_BYTE : Nat := 0x1401
abbrev GL_SHORT : Nat := 0x1402
abbrev GL_UNSIGNED_SHORT : Nat := 0x1403
abbrev GL_INT : Nat := 0x1404
abbrev GL_UNSIGNED_INT : Nat := 0x1405
abbrev GL_FLOAT : Nat := 0x1406
abbrev GL_DEPTH_COMPONENT : Nat := 0x1902
abbrev GL_RGB : Nat := 0x1907
abbrev GL_RGBA : Nat := 0x1908
abbrev GL_UNPACK_ALIGNMENT : Nat := 0x0CF5
abbrev GL_PACK_ALIGNMENT : Nat := 0x0D05
abbrev GL_RGBA4 : Nat := 0x8056
abbrev GL_RGB5_A1 : Nat := 0x8057
abbrev GL_DEPTH_COMPONENT16 : Nat := 0x81A5
abbrev GL_DEPTH_STENCIL : Nat := 0x84F9
abbrev GL_DEPTH24_STENCIL8 : Nat := 0x88F0
abbrev GL_RENDERBUFFER : Nat := 0x8D41
abbrev GL_STENCIL_INDEX8 : Nat := 0x8D48
abbrev GL_RGB565 : Nat := 0x8D62
abbrev GL_UNPACK_FLIP_Y_WEBGL : Nat := 0x9240
abbrev GL_UNPACK_PREMULTIPLY_ALPHA_WEBGL : Nat := 0x9241
abbrev GL_UNPACK_COLORSPACE_CONVERSION_WEBGL : Nat := 0x9243

abbrev GL_ARRAY_BUFFER : Nat := 0x8892
abbrev GL_ELEMENT_ARRAY_BUFFER : Nat := 0x8893
abbrev GL_STREAM_DRAW : Nat := 0x88E0
abbrev GL_STATIC_DRAW : Nat := 0x88E4
abbrev GL_DYNAMIC_DRAW : Nat := 0x88E8
abbrev GL_SHADER_TYPE : Nat := 0x8B4F
abbrev GL_DELETE_STATUS : Nat := 0x8B80
abbrev GL_COMPILE_STATUS : Nat := 0x8B81
abbrev GL_LINK_STATUS : Nat := 0x8B82
abbrev GL_VALIDATE_STATUS : Nat := 0x8B83
abbrev GL_INFO_LOG_LENGTH : Nat := 0x8B84
abbrev GL_ATTACHED_SHADERS : Nat := 0x8B85
abbrev GL_ACTIVE_UNIFORMS : Nat := 0x8B86
abbrev GL_ACTIVE_UNIFORM_MAX_LENGTH : Nat := 0x8B87
abbrev GL_ACTIVE_ATTRIBUTES : Nat := 0x8B89
abbrev GL_RENDERBUFFER_WIDTH : Nat := 0x8D42
abbrev GL_RENDERBUFFER_HEIGHT : Nat := 0x8D43
abbrev GL_RENDERBUFFER_INTERNAL_FORMAT : Nat := 0x8D44
abbrev GL_RENDERBUFFER_RED_SIZE : Nat := 0x8D50
abbrev GL_RENDERBUFFER_GREEN_SIZE : Nat := 0x8D51
abbrev GL_RENDERBUFFER_BLUE_SIZE : Nat := 0x8D52
abbrev GL_RENDERBUFFER_ALPHA_SIZE : Nat := 0x8D53
abbrev GL_RENDERBUFFER_DEPTH_SIZE : Nat := 0x8D54
abbrev GL_RENDERBUFFER_STENCIL_SIZE : Nat := 0x8D55

abbrev GL_DEPTH_BUFFER_BIT : Nat := 0x00000100
abbrev GL_STENCIL_BUFFER_BIT : Nat := 0x00000400
abbrev GL_COLOR_BUFFER_BIT : Nat := 0x00004000
abbrev GL_FLOAT_VEC2 : Nat := 0x8B50
abbrev GL_FLOAT_VEC3 : Nat := 0x8B51
abbrev GL_FLOAT_VEC4 : Nat := 0x8B52
abbrev GL_INT_VEC2 : Nat := 0x8B53
abbrev GL_INT_VEC3 : Nat := 0x8B54
abbrev GL_INT_VEC4 : Nat := 0x8B55
abbrev GL_BOOL : Nat := 0x8B56
abbrev GL_BOOL_VEC2 : Nat := 0x8B57
abbrev GL_BOOL_VEC3 : Nat := 0x8B58
abbrev GL_BOOL_VEC4 : Nat := 0x8B59
abbrev GL_FLOAT_MAT2 : Nat := 0x8B5A
abbrev GL_FLOAT_MAT3 : Nat := 0x8B5B
abbrev GL_FLOAT_MAT4 : Nat := 0x8B5C
abbrev GL_SAMPLER_2D : Nat := 0x8B5E
abbrev GL_SAMPLER_CUBE : Nat := 0x8B60

/-! ### Parameter names of `getParameter` -/

abbrev GL_ACTIVE_TEXTURE : Nat := 0x84E0
abbrev GL_BLEND_DST_ALPHA : Nat := 0x80CA
abbrev GL_BLEND_DST_RGB : Nat := 0x80C8
abbrev GL_BLEND_EQUATION_ALPHA : Nat := 0x883D
abbrev GL_BLEND_EQUATION_RGB : Nat := 0x8009
abbrev GL_BLEND_SRC_ALPHA : Nat := 0x80CB
abbrev GL_BLEND_SRC_RGB : Nat := 0x80C9
abbrev GL_CULL_FACE_MODE : Nat := 0x0B45
abbrev GL_DEPTH_FUNC : Nat := 0x0B74
abbrev GL_FRONT_FACE : Nat := 0x0B46
abbrev GL_GENERATE_MIPMAP_HINT : Nat := 0x8192
abbrev GL_STENCIL_BACK_FAIL : Nat := 0x8801
abbrev GL_STENCIL_BACK_FUNC : Nat := 0x8800
abbrev GL_STENCIL_BACK_PASS_DEPTH_FAIL : Nat := 0x8802
abbrev GL_STENCIL_BACK_PASS_DEPTH_PASS : Nat := 0x8803
abbrev GL_STENCIL_BACK_VALUE_MASK : Nat := 0x8CA4
abbrev GL_STENCIL_BACK_WRITEMASK : Nat := 0x8CA5
abbrev GL_STENCIL_FAIL : Nat := 0x0B94
abbrev GL_STENCIL_FUNC : Nat := 0x0B92
abbrev GL_STENCIL_PASS_DEPTH_FAIL : Nat := 0x0B95
abbrev GL_STENCIL_PASS_DEPTH_PASS : Nat := 0x0B96
abbrev GL_STENCIL_VALUE_MASK : Nat := 0x0B93
abbrev GL_STENCIL_WRITEMASK : Nat := 0x0B98
abbrev GL_ALIASED_LINE_WIDTH_RANGE : Nat := 0x846E
abbrev GL_ALIASED_POINT_SIZE_RANGE : Nat := 0x846D
abbrev GL_DEPTH_RANGE : Nat := 0x0B70
abbrev GL_BLEND_COLOR : Nat := 0x8005
abbrev GL_COLOR_CLEAR_VALUE : Nat := 0x0C22
abbrev GL_MAX_VIEWPORT_DIMS : Nat := 0x0D3A
abbrev GL_SCISSOR_BOX : Nat := 0x0C10
abbrev GL_VIEWPORT : Nat := 0x0BA2
abbrev GL_ALPHA_BITS : Nat := 0x0D55
abbrev GL_BLUE_BITS : Nat := 0x0D54
abbrev GL_DEPTH_BITS : Nat := 0x0D56
abbrev GL_GREEN_BITS : Nat := 0x0D53
abbrev GL_MAX_COMBINED_TEXTURE_IMAGE_UNITS : Nat := 0x8B4D
abbrev GL_MAX_CUBE_MAP_TEXTURE_SIZE : Nat := 0x851C
abbrev GL_MAX_FRAGMENT_UNIFORM_VECTORS : Nat := 0x8DFD
abbrev GL_MAX_RENDERBUFFER_SIZE : Nat := 0x84E8
abbrev GL_MAX_TEXTURE_IMAGE_UNITS : Nat := 0x8872
abbrev GL_MAX_TEXTURE_SIZE : Nat := 0x0D33
abbrev GL_MAX_VARYING_VECTORS : Nat := 0x8DFC
abbrev GL_MAX_VERTEX_ATTRIBS : Nat := 0x8869
abbrev GL_MAX_VERTEX_TEXTURE_IMAGE_UNITS : Nat := 0x8B4C
abbrev GL_MAX_VERTEX_UNIFORM_VECTORS : Nat := 0x8DFB
abbrev GL_RED_BITS : Nat := 0x0D52
abbrev GL_SAMPLE_BUFFERS : Nat := 0x80A8
abbrev GL_SAMPLES : Nat := 0x80A9
abbrev GL_STENCIL_BACK_REF : Nat := 0x8CA3
abbrev GL_STENCIL_BITS : Nat := 0x0D57
abbrev GL_STENCIL_CLEAR_VALUE : Nat := 0x0B91
abbrev GL_STENCIL_REF : Nat := 0x0B97
abbrev GL_SUBPIXEL_BITS : Nat := 0x0D50
abbrev GL_COLOR_WRITEMASK : Nat := 0x0C23
abbrev GL_BLEND : Nat := 0x0BE2
abbrev GL_CULL_FACE : Nat := 0x0B44
abbrev GL_DEPTH_TEST : Nat := 0x0B71
abbrev GL_DEPTH_WRITEMASK : Nat := 0x0B72
abbrev GL_DITHER : Nat := 0x0BD0
abbrev GL_POLYGON_OFFSET_FILL : Nat := 0x8037
abbrev GL_SAMPLE_COVERAGE_INVERT : Nat := 0x80AB
abbrev GL_SCISSOR_TEST : Nat := 0x0C11
abbrev GL_STENCIL_TEST : Nat := 0x0B90
abbrev GL_DEPTH_CLEAR_VALUE : Nat := 0x0B73
abbrev GL_LINE_WIDTH : Nat := 0x0B21
abbrev GL_POLYGON_OFFSET_FACTOR : Nat := 0x8038
abbrev GL_POLYGON_OFFSET_UNITS : Nat := 0x2A00
abbrev GL_SAMPLE_COVERAGE_VALUE : Nat := 0x80AA
abbrev GL_ARRAY_BUFFER_BINDING : Nat := 0x8894
abbrev GL_ELEMENT_ARRAY_BUFFER_BINDING : Nat := 0x8895
abbrev GL_COMPRESSED_TEXTURE_FORMATS : Nat := 0x86A3
abbrev GL_CURRENT_PROGRAM : Nat := 0x8B8D
abbrev GL_FRAMEBUFFER_BINDING : Nat := 0x8CA6
abbrev GL_RENDERBUFFER_BINDING : Nat := 0x8CA7
abbrev GL_RENDERER : Nat := 0x1F01
abbrev GL_SHADING_LANGUAGE_VERSION : Nat := 0x8B8C
abbrev GL_TEXTURE_BINDING_2D : Nat := 0x8069
abbrev GL_TEXTURE_BINDING_CUBE_MAP : Nat := 0x8514
abbrev GL_VENDOR : Nat := 0x1F00
abbrev GL_VERSION : Nat := 0x1F02

/-- Byte sizes of the attribute element types (`sizeof(GLbyte)` and so on). -/
abbrev sizeof_GLbyte : Nat := 1
abbrev sizeof_GLubyte : Nat := 1
abbrev sizeof_GLshort : Nat := 2
abbrev sizeof_GLushort : Nat := 2
abbrev sizeof_GLfloat : Nat := 4

/-! ## Native calls, effects and outcomes -/

/-- The native graphics calls issued by the modelled handlers, with the
arguments they receive in parameter order. -/
inductive GLCall where
  | glUniform1fv (location : Nat) (count : Int) (v : List GLfloat)
  | glUniform2fv (location : Nat) (count : Int) (v : List GLfloat)
  | glUniform3fv (location : Nat) (count : Int) (v : List GLfloat)
  | glUniform4fv (location : Nat) (count : Int) (v : List GLfloat)
  | glUniform1iv (location : Nat) (count : Int) (v : List Int)
  | glUniform2iv (location : Nat) (count : Int) (v : List Int)
  | glUniform3iv (location : Nat) (count : Int) (v : List Int)
  | glUniform4iv (location : Nat) (count : Int) (v : List Int)
  | glUniformMatrix2fv (location : Nat) (count : Int) (transpose : Nat) (value : List GLfloat)
  | glUniformMatrix3fv (location : Nat) (count : Int) (transpose : Nat) (value : List GLfloat)
  | glUniformMatrix4fv (location : Nat) (count : Int) (transpose : Nat) (value : List GLfloat)
  | glVertexAttribPointer (indx : Nat) (size : Int) (type : Nat) (normalized : Nat)
      (stride : Int) (ptr : Int)
  | glPixelStorei (pname : Nat) (param : Int)
  | glReadPixels (x y width height : Int) (format type : Nat) (data : Nat)
  | glRenderbufferStorage (target internalformat : Nat) (width height : Int)
  | glBufferData (target : Nat) (size : Int) (data : Option Nat) (usage : Nat)
  | glBufferSubData (target : Nat) (offset size : Int) (data : Nat)
  | glGetShaderiv (shader pname : Nat)
  | glShaderSource (shader : Nat) (count : Int) (string : String)
  | glCompileShader (shader : Nat)
  | glGetShaderInfoLog (shader : Nat) (bufSize : Int)
  | glGetProgramiv (program pname : Nat)
  | glGetActiveUniform (program index : Nat) (bufSize : Int)
  | glGetRenderbufferParameteriv (target pname : Nat)
  | glGetFloatv (pname : Nat)
  | glGetBooleanv (pname : Nat)
  | glGetString (name : Nat)
  | glVertexAttrib1fv (indx : Nat) (values : List GLfloat)
  | glVertexAttrib2fv (indx : Nat) (values : List GLfloat)
  | glVertexAttrib3fv (indx : Nat) (values : List GLfloat)
  | glVertexAttrib4fv (indx : Nat) (values : List GLfloat)
  | glBindBuffer (target buffer : Nat)
  | glIsEnabled (cap : Nat)
  | glClear (mask : Nat)
  | glGetUniformLocation (program : Nat) (name : String)
  | glGetUniformfv (program : Nat) (location : Int)
  | glGetUniformiv (program : Nat) (location : Int)
  deriving DecidableEq, Repr

/-- One observable step of a handler. -/
inductive Effect where
  | set_gl_error (error : Nat)
  | gl (call : GLCall)
  deriving DecidableEq, Repr

/-- The state common to every wrapper entity: its native identifier, the
context that owns it (by that context's identity) and its deleted flag. -/
structure WebGLObject where
  webgl_id : Nat
  context : Nat
  deleted : Bool
  deriving DecidableEq, Repr

structure WebGLBuffer extends WebGLObject
  deriving DecidableEq, Repr

structure WebGLFramebuffer extends WebGLObject
  deriving DecidableEq, Repr

structure WebGLRenderbuffer extends WebGLObject
  deriving DecidableEq, Repr

structure WebGLProgram extends WebGLObject
  deriving DecidableEq, Repr

structure WebGLTexture extends WebGLObject
  deriving DecidableEq, Repr

/-- A shader wrapper: besides the common state, the original source, the
validity flag and the log recorded by `compileShader`. -/
structure WebGLShader extends WebGLObject where
  source : String
  is_valid : Bool
  log : String
  deriving DecidableEq, Repr

/-- A wrapper handed back to the script host, tagged with its variant. -/
inductive Wrapper where
  | buffer (b : WebGLBuffer)
  | program (p : WebGLProgram)
  | framebuffer (f : WebGLFramebuffer)
  | renderbuffer (r : WebGLRenderbuffer)
  | texture (t : WebGLTexture)
  deriving DecidableEq, Repr

/-- What a handler hands back to the script host. `U` is `undefined`; the
constructors after the two throws are the encodings `ToV8` and the typed-array
factories produce. -/
inductive Result where
  | U
  | ThrowObjectDisposed
  | ThrowTypeError
  | null
  | boolean (b : Bool)
  | int32 (i : Int)
  | uint32 (n : Nat)
  | number (x : GLfloat)
  | string (s : String)
  | float32Array (xs : List GLfloat)
  | int32Array (xs : List Int)
  | uint32Array (xs : List Nat)
  | booleanArray (xs : List Bool)
  | object (w : Wrapper)
  | activeInfo (size : Int) (type : Nat) (name : String)
  deriving DecidableEq, Repr

/-- The effects of one handler invocation, in program order, and its result. -/
structure Outcome where
  effects : List Effect
  result : Result
  deriving DecidableEq, Repr

/-- The native calls among a list of effects. -/
def nativeCalls : List Effect → List GLCall
  | [] => []
  | Effect.gl c :: es => c :: nativeCalls es
  | Effect.set_gl_error _ :: es => nativeCalls es

/-- The error codes posted among a list of effects. -/
def postedErrors : List Effect → List Nat
  | [] => []
  | Effect.set_gl_error e :: es => e :: postedErrors es
  | Effect.gl _ :: es => postedErrors es

/-- Native calls issued by a handler invocation. -/
def Outcome.calls (o : Outcome) : List GLCall := nativeCalls o.effects

/-- Error codes posted by a handler invocation. -/
def Outcome.errors (o : Outcome) : List Nat := postedErrors o.effects

/-! ## Script values as seen through the marshalling layer -/

/-- A uniform location wrapper; only its native identifier is read here. -/
structure WebGLUniformLocation where
  webgl_id : Nat
  deriving DecidableEq, Repr

/-- A uniform location wrapper as `NativeFromV8<WebGLUniformLocation>` yields
it: besides the native identifier, the id of the program it was queried from. -/
structure ProgramUniformLocation extends WebGLUniformLocation where
  program_id : Nat
  deriving DecidableEq, Repr

/-- A `Uint8Array` wrapper: element count and address of its storage. -/
structure Uint8Array where
  ArrayLength : Nat
  ArrayData : Nat
  deriving DecidableEq, Repr

/-- The four-way classification `UVAHelper::Process` makes of its array
argument. `array none` is a plain sequence whose `ArrayFromV8` decoding failed,
`typedArray none` a typed-array object whose native part is gone. -/
inductive ArrayValue (α : Type) where
  | undefinedOrNull
  | array (vector : Option (List α))
  | typedArray (data : Option (List α))
  | other
  deriving DecidableEq, Repr

/-- Modelled from the spec: the answer of the marshalling helper
`TypedArrayToData(value, &data, &length, &ok)`, which is declared outside this
file. For a typed-array view (or array buffer) it returns true and stores the
address of the raw bytes and their length in bytes; otherwise it returns false,
with `ok` still true when the value simply is not a typed array and `ok` false
on an error. -/
inductive TypedArrayData where
  | view (data : Nat) (length : Nat)
  | notTypedArray
  | failed
  deriving DecidableEq, Repr

/-- One script argument, described by the answer of each decoder applied to it.
`none` is a failed decode (`ok == false`); for the object decoders the inner
option is the returned pointer, `none` being `NULL`. -/
structure V8Value where
  FromV8_bool : Option Bool := none
  FromV8_int32 : Option Int := none
  FromV8_uint32 : Option Nat := none
  UniformLocationFromV8 : Option WebGLUniformLocation := none
  NativeFromV8_Uint8Array : Option (Option Uint8Array) := none
  floats : ArrayValue GLfloat := ArrayValue.other
  ints : ArrayValue Int := ArrayValue.other
  IsNull : Bool := false
  TypedArrayToData : TypedArrayData := TypedArrayData.notTypedArray
  NativeFromV8_WebGLShader : Option (Option WebGLShader) := none
  NativeFromV8_WebGLProgram : Option (Option WebGLProgram) := none
  NativeFromV8_WebGLBuffer : Option (Option WebGLBuffer) := none
  NativeFromV8_WebGLUniformLocation : Option (Option ProgramUniformLocation) := none
  deriving DecidableEq, Repr

/-- The argument list of a call: `args i` is `args[i]`. -/
abbrev Arguments := Nat → V8Value

/-- Modelled from the spec: the validator `RequireObject` of the rendering
context (defined outside this file) accepts a non-null wrapper and posts
INVALID_VALUE otherwise. The pair is (effects, accepted). -/
def RequireObject {β : Type} (object : Option β) : List Effect × Bool :=
  match object with
  | some _ => ([], true)
  | none => ([Effect.set_gl_error GL_INVALID_VALUE], false)

/-- The parts of the rendering context the modelled handlers consult: its
identity, the per-variant registries behind `IdToBuffer` and its siblings, and
the shader translator `shader_compiler_`, which maps a source and a shader type
to (is_valid, translated_source, shader_log). -/
structure WebGLRenderingContext where
  id : Nat
  IdToBuffer : Int → Option WebGLBuffer
  IdToProgram : Int → Option WebGLProgram
  IdToFramebuffer : Int → Option WebGLFramebuffer
  IdToRenderbuffer : Int → Option WebGLRenderbuffer
  IdToTexture : Int → Option WebGLTexture
  TranslateShaderSource : String → Int → Bool × String × String

/-- What one `glGetActiveUniform` call stores through its out-parameters;
`name_vec` is the whole name buffer after the call. -/
structure ActiveUniform where
  name_length : Int
  size : Int
  type : Nat
  name_vec : List Char
  deriving DecidableEq, Repr

/-- The answers of the graphics driver to the queries of the modelled handlers.
Each scalar answer is the value the out-parameter holds after the call (the
handlers initialise it to 0); for the vector queries the second argument is the
position in the out-array. `GetIntegerv` answers the context method of that
name; `glGetShaderInfoLog` gives the text left in the buffer. -/
structure Driver where
  GetIntegerv : Nat → Nat → Int
  glGetFloatv : Nat → Nat → GLfloat
  glGetBooleanv : Nat → Nat → Nat
  glGetString : Nat → String
  glGetShaderiv : Nat → Nat → Int
  glGetShaderInfoLog : Nat → Int → String
  glGetProgramiv : Nat → Nat → Int
  glGetRenderbufferParameteriv : Nat → Nat → Int
  glGetActiveUniform : Nat → Nat → Int → ActiveUniform
  glGetUniformLocation : Nat → String → Int := fun _ _ => -1
  glGetUniformfv : Nat → Int → Nat → GLfloat := fun _ _ _ => ⟨0⟩
  glGetUniformiv : Nat → Int → Nat → Int := fun _ _ _ => 0

/-- Modelled from the spec: the validator `ValidateObject` of the rendering
context (defined outside this file) accepts a null wrapper and a wrapper that
belongs to this context and is not deleted, and posts INVALID_OPERATION
otherwise. The pair is (effects, accepted). -/
def ValidateObject (this : WebGLRenderingContext) (object : Option WebGLObject) :
    List Effect × Bool :=
  match object with
  | none => ([], true)
  | some o =>
    if o.context = this.id ∧ o.deleted = false then ([], true)
    else ([Effect.set_gl_error GL_INVALID_OPERATION], false)

/-- Modelled from the spec: the validator `ValidateBufferDataParameters` of the
rendering context (defined outside this file) accepts a target in ARRAY_BUFFER,
ELEMENT_ARRAY_BUFFER together with a usage in STATIC_DRAW, DYNAMIC_DRAW,
STREAM_DRAW, and posts INVALID_ENUM otherwise. The pair is (effects, accepted). -/
def ValidateBufferDataParameters (target usage : Nat) : List Effect × Bool :=
  if (target = GL_ARRAY_BUFFER ∨ target = GL_ELEMENT_ARRAY_BUFFER)
      ∧ (usage = GL_STATIC_DRAW ∨ usage = GL_DYNAMIC_DRAW ∨ usage = GL_STREAM_DRAW) then
    ([], true)
  else ([Effect.set_gl_error GL_INVALID_ENUM], false)

/-! ## Helper for the `glUniform..v` and `glVertexAttrib..v` callbacks -/

/-- Embedding of `UVAHelper<TNative>::Process`. `view` selects the typed reading
of the array argument that matches `TNative`; `ProcessArgs` yields the effects it posted, the
index of the array argument (negative on error) and the members it captured;
`InvokeGL` receives those members, `array_length` and the array data. -/
def UVAHelper.Process {α σ : Type} (view : V8Value → ArrayValue α)
    (ProcessArgs : Arguments → List Effect × Int × σ)
    (InvokeGL : σ → Nat → List α → List Effect) (args : Arguments) : Outcome :=
  match ProcessArgs args with
  | (posted, index, self) =>
    if index < 0 then ⟨posted, Result.U⟩
    else
      match view (args index.toNat) with
      | ArrayValue.undefinedOrNull =>
          ⟨posted ++ [Effect.set_gl_error GL_INVALID_VALUE], Result.U⟩
      | ArrayValue.array none => ⟨posted, Result.U⟩
      | ArrayValue.array (some vector) =>
          ⟨posted ++ InvokeGL self (vector.length % 4294967296) vector, Result.U⟩
      | ArrayValue.typedArray none => ⟨posted, Result.ThrowObjectDisposed⟩
      | ArrayValue.typedArray (some data) =>
          ⟨posted ++ InvokeGL self (data.length % 4294967296) data, Result.U⟩
      | ArrayValue.other => ⟨posted, Result.ThrowTypeError⟩

/-- Embedding of `UniformHelper::ProcessArgs`: captures `location_id_`. -/
def UniformHelper.ProcessArgs (args : Arguments) : List Effect × Int × Nat :=
  match (args 0).UniformLocationFromV8 with
  | none => ([], -1, 0)
  | some location => ([], 1, location.webgl_id)

/-- Embedding of `UniformHelper::InvokeGL`. -/
def UniformHelper.InvokeGL {α : Type} (gl_callback : Nat → Int → List α → GLCall)
    (min_size : Nat) (location_id : Nat) (array_length : Nat) (array_data : List α) :
    List Effect :=
  if array_length < min_size ∨ array_length % min_size ≠ 0 then
    [Effect.set_gl_error GL_INVALID_VALUE]
  else
    [Effect.gl (gl_callback location_id (toI32 (array_length / min_size)) array_data)]

/-- Embedding of `UniformHelper<TNative> h(gl_callback, min_size);` followed by
`h.Process(this, args)`. -/
def UniformHelper.Process {α : Type} (view : V8Value → ArrayValue α)
    (gl_callback : Nat → Int → List α → GLCall) (min_size : Nat) (args : Arguments) :
    Outcome :=
  UVAHelper.Process view UniformHelper.ProcessArgs
    (UniformHelper.InvokeGL gl_callback min_size) args

/-- Embedding of `UniformMatrixHelper::ProcessArgs`: captures `location_id_`. -/
def UniformMatrixHelper.ProcessArgs (args : Arguments) : List Effect × Int × Nat :=
  match (args 0).UniformLocationFromV8 with
  | none => ([], -1, 0)
  | some location =>
    match (args 1).FromV8_bool with
    | none => ([], -1, location.webgl_id)
    | some transpose =>
      if transpose then ([Effect.set_gl_error GL_INVALID_VALUE], -1, location.webgl_id)
      else ([], 2, location.webgl_id)

/-- Embedding of `UniformMatrixHelper::InvokeGL`. The callback type is
`(GLint, GLsizei, GLboolean, const TNative*)` and it is applied to
`(location_id_, GL_FALSE, array_length / min_size_, array_data)`. -/
def UniformMatrixHelper.InvokeGL {α : Type}
    (gl_callback : Nat → Int → Nat → List α → GLCall)
    (min_size : Nat) (location_id : Nat) (array_length : Nat) (array_data : List α) :
    List Effect :=
  if array_length < min_size ∨ array_length % min_size ≠ 0 then
    [Effect.set_gl_error GL_INVALID_VALUE]
  else
    [Effect.gl (gl_callback location_id (toI32 GL_FALSE)
      (toGLboolean (array_length / min_size)) array_data)]

/-- Embedding of `UniformMatrixHelper<TNative> h(gl_callback, min_size);`
followed by `h.Process(this, args)`. -/
def UniformMatrixHelper.Process {α : Type} (view : V8Value → ArrayValue α)
    (gl_callback : Nat → Int → Nat → List α → GLCall) (min_size : Nat)
    (args : Arguments) : Outcome :=
  UVAHelper.Process view UniformMatrixHelper.ProcessArgs
    (UniformMatrixHelper.InvokeGL gl_callback min_size) args

/-! ## Entry points of the uniform families -/

def Callback_uniform1fv (args : Arguments) : Outcome :=
  UniformHelper.Process V8Value.floats GLCall.glUniform1fv 1 args

def Callback_uniform1iv (args : Arguments) : Outcome :=
  UniformHelper.Process V8Value.ints GLCall.glUniform1iv 1 args

def Callback_uniform2fv (args : Arguments) : Outcome :=
  UniformHelper.Process V8Value.floats GLCall.glUniform2fv 2 args

def Callback_uniform2iv (args : Arguments) : Outcome :=
  UniformHelper.Process V8Value.ints GLCall.glUniform2iv 2 args

def Callback_uniform3fv (args : Arguments) : Outcome :=
  UniformHelper.Process V8Value.floats GLCall.glUniform3fv 3 args

def Callback_uniform3iv (args : Arguments) : Outcome :=
  UniformHelper.Process V8Value.ints GLCall.glUniform3iv 3 args

def Callback_uniform4fv (args : Arguments) : Outcome :=
  UniformHelper.Process V8Value.floats GLCall.glUniform4fv 4 args

def Callback_uniform4iv (args : Arguments) : Outcome :=
  UniformHelper.Process V8Value.ints GLCall.glUniform4iv 4 args

def Callback_uniformMatrix2fv (args : Arguments) : Outcome :=
  UniformMatrixHelper.Process V8Value.floats GLCall.glUniformMatrix2fv (2 * 2) args

def Callback_uniformMatrix3fv (args : Arguments) : Outcome :=
  UniformMatrixHelper.Process V8Value.floats GLCall.glUniformMatrix3fv (3 * 3) args

def Callback_uniformMatrix4fv (args : Arguments) : Outcome :=
  UniformMatrixHelper.Process V8Value.floats GLCall.glUniformMatrix4fv (4 * 4) args

/-! ## Scalar entry points -/

/-- The `switch (type)` of `Callback_vertexAttribPointer`: the byte size of the
attribute element type, `none` on the `default` branch. -/
def vertexAttribPointer_type_size (type : Nat) : Option Nat :=
  if type = GL_BYTE then some sizeof_GLbyte
  else if type = GL_UNSIGNED_BYTE then some sizeof_GLubyte
  else if type = GL_SHORT then some sizeof_GLshort
  else if type = GL_UNSIGNED_SHORT then some sizeof_GLushort
  else if type = GL_FLOAT then some sizeof_GLfloat
  else none

/-- Embedding of `WebGLRenderingContext::Callback_vertexAttribPointer`. `stride` is a
`GLsizei` and is converted to unsigned for `stride % type_size`; `offset` is a
`GLintptr` and `offset % type_size` is the signed remainder. -/
def Callback_vertexAttribPointer (args : Arguments) : Outcome :=
  match (args 0).FromV8_uint32 with
  | none => ⟨[], Result.U⟩
  | some indx =>
  match (args 1).FromV8_int32 with
  | none => ⟨[], Result.U⟩
  | some size =>
  match (args 2).FromV8_uint32 with
  | none => ⟨[], Result.U⟩
  | some type =>
  match vertexAttribPointer_type_size type with
  | none => ⟨[Effect.set_gl_error GL_INVALID_ENUM], Result.U⟩
  | some type_size =>
  match (args 3).FromV8_bool with
  | none => ⟨[], Result.U⟩
  | some normalized =>
  match (args 4).FromV8_int32 with
  | none => ⟨[], Result.U⟩
  | some stride =>
  match (args 5).FromV8_int32 with
  | none => ⟨[], Result.U⟩
  | some offset =>
  if size < 1 ∨ size > 4 ∨ stride < 0 ∨ stride > 255 ∨ offset < 0 then
    ⟨[Effect.set_gl_error GL_INVALID_VALUE], Result.U⟩
  else if toU32 stride % type_size ≠ 0 ∨ Int.tmod offset type_size ≠ 0 then
    ⟨[Effect.set_gl_error GL_INVALID_OPERATION], Result.U⟩
  else
    ⟨[Effect.gl (GLCall.glVertexAttribPointer indx size type
        (GLboolean_of_bool normalized) stride offset)], Result.U⟩

/-- Embedding of `WebGLRenderingContext::Callback_pixelStorei`. -/
def Callback_pixelStorei (args : Arguments) : Outcome :=
  match (args 0).FromV8_uint32 with
  | none => ⟨[], Result.U⟩
  | some pname =>
  match (args 1).FromV8_int32 with
  | none => ⟨[], Result.U⟩
  | some param =>
  if pname = GL_UNPACK_FLIP_Y_WEBGL ∨ pname = GL_UNPACK_PREMULTIPLY_ALPHA_WEBGL
      ∨ pname = GL_UNPACK_COLORSPACE_CONVERSION_WEBGL then
    ⟨[], Result.U⟩
  else if pname = GL_PACK_ALIGNMENT ∨ pname = GL_UNPACK_ALIGNMENT then
    if param = 1 ∨ param = 2 ∨ param = 4 ∨ param = 8 then
      ⟨[Effect.gl (GLCall.glPixelStorei pname param)], Result.U⟩
    else
      ⟨[Effect.set_gl_error GL_INVALID_VALUE], Result.U⟩
  else
    ⟨[Effect.set_gl_error GL_INVALID_ENUM], Result.U⟩

/-- The row stride computed by `Callback_readPixels`:
`uint32_t row_bytes = width * 4;` followed by the rounding up to `alignment`.
The product `width * 4` is taken on `int` operands and stored in a `uint32_t`:
it is modelled as the two-complement result, that is modulo `2 ^ 32`. The rest
is 32-bit unsigned arithmetic; `alignment` is a `GLint` converted to unsigned by
the usual arithmetic conversions. -/
def readPixels_row_bytes (width alignment : Int) : Nat :=
  let row_bytes := toU32 (width * 4)
  if row_bytes % toU32 alignment ≠ 0 then
    (row_bytes
      + (toU32 alignment + 4294967296 - row_bytes % toU32 alignment) % 4294967296)
      % 4294967296
  else row_bytes

/-- Embedding of `uint32_t length_required = row_bytes * height;` in
`Callback_readPixels`. -/
def readPixels_length_required (width height alignment : Int) : Nat :=
  (readPixels_row_bytes width alignment * toU32 height) % 4294967296

/-- Embedding of `WebGLRenderingContext::Callback_readPixels`. `pack_alignment` is the value
the driver query `GetIntegerv(GL_PACK_ALIGNMENT, &alignment)` stores. The branch
that meets a `NULL` array after `RequireObject` accepted it cannot be taken. -/
def Callback_readPixels (pack_alignment : Int) (args : Arguments) : Outcome :=
  match (args 0).FromV8_int32 with
  | none => ⟨[], Result.U⟩
  | some x =>
  match (args 1).FromV8_int32 with
  | none => ⟨[], Result.U⟩
  | some y =>
  match (args 2).FromV8_int32 with
  | none => ⟨[], Result.U⟩
  | some width =>
  match (args 3).FromV8_int32 with
  | none => ⟨[], Result.U⟩
  | some height =>
  match (args 4).FromV8_uint32 with
  | none => ⟨[], Result.U⟩
  | some format =>
  match (args 5).FromV8_uint32 with
  | none => ⟨[], Result.U⟩
  | some type =>
  if format ≠ GL_RGBA ∨ type ≠ GL_UNSIGNED_BYTE then
    ⟨[Effect.set_gl_error GL_INVALID_OPERATION], Result.U⟩
  else
    match (args 6).NativeFromV8_Uint8Array with
    | none => ⟨[], Result.U⟩
    | some array =>
      match RequireObject array with
      | (posted, false) => ⟨posted, Result.U⟩
      | (posted, true) =>
        match array with
        | none => ⟨posted, Result.U⟩
        | some array =>
          let length_required := readPixels_length_required width height pack_alignment
          let length := array.ArrayLength % 4294967296
          if length < length_required then
            ⟨posted ++ [Effect.set_gl_error GL_INVALID_OPERATION], Result.U⟩
          else
            ⟨posted ++ [Effect.gl (GLCall.glReadPixels x y width height format type
              array.ArrayData)], Result.U⟩

/-- The `switch (internalformat)` of `Callback_renderbufferStorage`: the format
handed to the driver, `none` on the `default` branch. -/
def renderbufferStorage_internalformat (internalformat : Nat) : Option Nat :=
  if internalformat = GL_DEPTH_STENCIL then some GL_DEPTH24_STENCIL8
  else if internalformat = GL_DEPTH_COMPONENT16 then some GL_DEPTH_COMPONENT
  else if internalformat = GL_RGBA4 ∨ internalformat = GL_RGB5_A1 then some GL_RGBA
  else if internalformat = GL_RGB565 then some GL_RGB
  else if internalformat = GL_STENCIL_INDEX8 then some internalformat
  else none

/-- Embedding of `WebGLRenderingContext::Callback_renderbufferStorage`. -/
def Callback_renderbufferStorage (args : Arguments) : Outcome :=
  match (args 0).FromV8_uint32 with
  | none => ⟨[], Result.U⟩
  | some target =>
  match (args 1).FromV8_uint32 with
  | none => ⟨[], Result.U⟩
  | some internalformat =>
  match (args 2).FromV8_int32 with
  | none => ⟨[], Result.U⟩
  | some width =>
  match (args 3).FromV8_int32 with
  | none => ⟨[], Result.U⟩
  | some height =>
  if target ≠ GL_RENDERBUFFER then
    ⟨[Effect.set_gl_error GL_INVALID_ENUM], Result.U⟩
  else
    match renderbufferStorage_internalformat internalformat with
    | none => ⟨[Effect.set_gl_error GL_INVALID_ENUM], Result.U⟩
    | some internalformat =>
      ⟨[Effect.gl (GLCall.glRenderbufferStorage target internalformat width height)],
        Result.U⟩

/-! ## The `vertexAttrib..fv` family -/

/-- Embedding of `VertexAttribHelper::ProcessArgs`: captures `index_`. -/
def VertexAttribHelper.ProcessArgs (args : Arguments) : List Effect × Int × Int :=
  match (args 0).FromV8_int32 with
  | none => ([], -1, 0)
  | some index => ([], 1, index)

/-- Embedding of `VertexAttribHelper::InvokeGL`. The callback takes a `GLuint`
index, so the `GLint index_` is converted to unsigned. -/
def VertexAttribHelper.InvokeGL {α : Type} (gl_callback : Nat → List α → GLCall)
    (required_array_length : Nat) (index : Int) (array_length : Nat)
    (array_data : List α) : List Effect :=
  if array_length < required_array_length then
    [Effect.set_gl_error GL_INVALID_VALUE]
  else
    [Effect.gl (gl_callback (toU32 index) array_data)]

/-- Embedding of `VertexAttribHelper<TNative> h(gl_callback, required_array_length);`
followed by `h.Process(this, args)`. -/
def VertexAttribHelper.Process {α : Type} (view : V8Value → ArrayValue α)
    (gl_callback : Nat → List α → GLCall) (required_array_length : Nat)
    (args : Arguments) : Outcome :=
  UVAHelper.Process view VertexAttribHelper.ProcessArgs
    (VertexAttribHelper.InvokeGL gl_callback required_array_length) args

def Callback_vertexAttrib1fv (args : Arguments) : Outcome :=
  VertexAttribHelper.Process V8Value.floats GLCall.glVertexAttrib1fv 1 args

def Callback_vertexAttrib2fv (args : Arguments) : Outcome :=
  VertexAttribHelper.Process V8Value.floats GLCall.glVertexAttrib2fv 2 args

def Callback_vertexAttrib3fv (args : Arguments) : Outcome :=
  VertexAttribHelper.Process V8Value.floats GLCall.glVertexAttrib3fv 3 args

def Callback_vertexAttrib4fv (args : Arguments) : Outcome :=
  VertexAttribHelper.Process V8Value.floats GLCall.glVertexAttrib4fv 4 args

/-- One entry point of the `vertexAttrib{1,2,3,4}fv` family: the required array
length and native function it hands to `VertexAttribHelper`, and the handler. -/
structure VertexAttribEntry where
  N : Nat
  native : Nat → List GLfloat → GLCall
  Callback : Arguments → Outcome

/-- The four `vertexAttribNfv` entry points. -/
def vertexAttribfv_entry_points : List VertexAttribEntry :=
  [⟨1, GLCall.glVertexAttrib1fv, Callback_vertexAttrib1fv⟩,
   ⟨2, GLCall.glVertexAttrib2fv, Callback_vertexAttrib2fv⟩,
   ⟨3, GLCall.glVertexAttrib3fv, Callback_vertexAttrib3fv⟩,
   ⟨4, GLCall.glVertexAttrib4fv, Callback_vertexAttrib4fv⟩]

/-! ## Buffer data -/

/-- Embedding of `WebGLRenderingContext::Callback_bufferData`. The pair computed
from argument 1 is (`size`, `data`), `data` being `none` for the `NULL` pointer;
`GLsizeiptr` is a 64-bit signed integer, so `size = length` is exact. -/
def Callback_bufferData (args : Arguments) : Outcome :=
  if (args 1).IsNull then ⟨[Effect.set_gl_error GL_INVALID_VALUE], Result.U⟩
  else
    match (args 0).FromV8_uint32 with
    | none => ⟨[], Result.U⟩
    | some target =>
      let size_data : Option (Int × Option Nat) :=
        match (args 1).TypedArrayToData with
        | TypedArrayData.view data length => some ((length : Int), some data)
        | TypedArrayData.failed => none
        | TypedArrayData.notTypedArray =>
          match (args 1).FromV8_int32 with
          | none => none
          | some size => some (size, none)
      match size_data with
      | none => ⟨[], Result.U⟩
      | some (size, data) =>
        match (args 2).FromV8_uint32 with
        | none => ⟨[], Result.U⟩
        | some usage =>
          match ValidateBufferDataParameters target usage with
          | (posted, false) => ⟨posted, Result.U⟩
          | (posted, true) =>
            ⟨posted ++ [Effect.gl (GLCall.glBufferData target size data usage)], Result.U⟩

/-- Embedding of `WebGLRenderingContext::Callback_bufferSubData`. -/
def Callback_bufferSubData (args : Arguments) : Outcome :=
  match (args 0).FromV8_uint32 with
  | none => ⟨[], Result.U⟩
  | some target =>
    match ValidateBufferDataParameters target GL_STATIC_DRAW with
    | (posted, false) => ⟨posted, Result.U⟩
    | (posted, true) =>
      match (args 1).FromV8_int32 with
      | none => ⟨posted, Result.U⟩
      | some offset =>
        match (args 2).TypedArrayToData with
        | TypedArrayData.view data length =>
          ⟨posted ++ [Effect.gl (GLCall.glBufferSubData target offset (length : Int) data)],
            Result.U⟩
        | _ => ⟨posted, Result.U⟩

/-! ## Handlers that take a wrapper -/

/-- The prologue shared by the handlers that take a wrapper:
`T* x = NativeFromV8<T>(args[i], &ok); if (!ok) return U();`
`if (!RequireObject(x)) return U(); if (!ValidateObject(x)) return U();`.
`bail` builds the early return from the effects posted so far, `k` continues
with the wrapper and those effects. -/
def withValidObject {β ρ : Type} (this : WebGLRenderingContext) (base : β → WebGLObject)
    (decoded : Option (Option β)) (bail : List Effect → ρ) (k : β → List Effect → ρ) : ρ :=
  match decoded with
  | none => bail []
  | some object =>
    match RequireObject object with
    | (posted, false) => bail posted
    | (posted, true) =>
      match ValidateObject this (object.map base) with
      | (posted2, false) => bail (posted ++ posted2)
      | (posted2, true) =>
        match object with
        | none => bail (posted ++ posted2)
        | some x => k x (posted ++ posted2)

/-- Embedding of `WebGLRenderingContext::Callback_compileShader`. The second
component is the shader wrapper as the call leaves it (`none` when argument 0
is not a non-null shader). -/
def Callback_compileShader (this : WebGLRenderingContext) (drv : Driver)
    (args : Arguments) : Outcome × Option WebGLShader :=
  withValidObject this WebGLShader.toWebGLObject (args 0).NativeFromV8_WebGLShader
    (fun posted => (⟨posted, Result.U⟩, none))
    (fun shader posted =>
      let shader_id := shader.webgl_id
      let shader_type := drv.glGetShaderiv shader_id GL_SHADER_TYPE
      let queried := posted ++ [Effect.gl (GLCall.glGetShaderiv shader_id GL_SHADER_TYPE)]
      if shader_type = 0 then (⟨queried, Result.U⟩, some shader)
      else
        match this.TranslateShaderSource shader.source shader_type with
        | (is_valid, translated_source, shader_log) =>
          let shader := { shader with is_valid := is_valid, log := shader_log }
          if !is_valid then (⟨queried, Result.U⟩, some shader)
          else
            (⟨queried ++ [Effect.gl (GLCall.glShaderSource shader_id 1 translated_source),
                Effect.gl (GLCall.glCompileShader shader_id)], Result.U⟩, some shader))

/-- Embedding of `WebGLRenderingContext::Callback_getShaderParameter`. -/
def Callback_getShaderParameter (this : WebGLRenderingContext) (drv : Driver)
    (args : Arguments) : Outcome :=
  withValidObject this WebGLShader.toWebGLObject (args 0).NativeFromV8_WebGLShader
    (fun posted => ⟨posted, Result.U⟩)
    (fun shader posted =>
      let shader_id := shader.webgl_id
      match (args 1).FromV8_uint32 with
      | none => ⟨posted, Result.U⟩
      | some pname =>
        if pname = GL_COMPILE_STATUS then ⟨posted, Result.boolean shader.is_valid⟩
        else if pname = GL_DELETE_STATUS then
          ⟨posted ++ [Effect.gl (GLCall.glGetShaderiv shader_id pname)],
            Result.boolean (drv.glGetShaderiv shader_id pname != 0)⟩
        else if pname = GL_SHADER_TYPE then
          ⟨posted ++ [Effect.gl (GLCall.glGetShaderiv shader_id pname)],
            Result.uint32 (toU32 (drv.glGetShaderiv shader_id pname))⟩
        else ⟨posted ++ [Effect.set_gl_error GL_INVALID_ENUM], Result.null⟩)

/-- Embedding of `WebGLRenderingContext::Callback_getShaderInfoLog`. -/
def Callback_getShaderInfoLog (this : WebGLRenderingContext) (drv : Driver)
    (args : Arguments) : Outcome :=
  withValidObject this WebGLShader.toWebGLObject (args 0).NativeFromV8_WebGLShader
    (fun posted => ⟨posted, Result.U⟩)
    (fun shader posted =>
      if !shader.is_valid then ⟨posted, Result.string shader.log⟩
      else
        let shader_id := shader.webgl_id
        let length := drv.glGetShaderiv shader_id GL_INFO_LOG_LENGTH
        let queried := posted ++ [Effect.gl (GLCall.glGetShaderiv shader_id GL_INFO_LOG_LENGTH)]
        if length = 0 then ⟨queried, Result.string ""⟩
        else
          ⟨queried ++ [Effect.gl (GLCall.glGetShaderInfoLog shader_id length)],
            Result.string (drv.glGetShaderInfoLog shader_id length)⟩)

/-- Embedding of `WebGLRenderingContext::Callback_getProgramParameter`. -/
def Callback_getProgramParameter (this : WebGLRenderingContext) (drv : Driver)
    (args : Arguments) : Outcome :=
  withValidObject this WebGLProgram.toWebGLObject (args 0).NativeFromV8_WebGLProgram
    (fun posted => ⟨posted, Result.U⟩)
    (fun program posted =>
      let program_id := program.webgl_id
      match (args 1).FromV8_uint32 with
      | none => ⟨posted, Result.U⟩
      | some pname =>
        let value := drv.glGetProgramiv program_id pname
        let queried := posted ++ [Effect.gl (GLCall.glGetProgramiv program_id pname)]
        if pname = GL_DELETE_STATUS ∨ pname = GL_VALIDATE_STATUS ∨ pname = GL_LINK_STATUS then
          ⟨queried, Result.boolean (value != 0)⟩
        else if pname = GL_ATTACHED_SHADERS ∨ pname = GL_ACTIVE_ATTRIBUTES
            ∨ pname = GL_ACTIVE_UNIFORMS then
          ⟨queried, Result.int32 value⟩
        else ⟨queried ++ [Effect.set_gl_error GL_INVALID_ENUM], Result.null⟩)

/-- Embedding of `WebGLRenderingContext::Callback_getRenderbufferParameter`. -/
def Callback_getRenderbufferParameter (drv : Driver) (args : Arguments) : Outcome :=
  match (args 0).FromV8_uint32 with
  | none => ⟨[], Result.U⟩
  | some target =>
    if target ≠ GL_RENDERBUFFER then ⟨[Effect.set_gl_error GL_INVALID_ENUM], Result.null⟩
    else
      match (args 1).FromV8_uint32 with
      | none => ⟨[], Result.U⟩
      | some pname =>
        let value := drv.glGetRenderbufferParameteriv target pname
        let queried := [Effect.gl (GLCall.glGetRenderbufferParameteriv target pname)]
        if pname = GL_RENDERBUFFER_INTERNAL_FORMAT then ⟨queried, Result.uint32 (toU32 value)⟩
        else if pname = GL_RENDERBUFFER_WIDTH ∨ pname = GL_RENDERBUFFER_HEIGHT
            ∨ pname = GL_RENDERBUFFER_RED_SIZE ∨ pname = GL_RENDERBUFFER_GREEN_SIZE
            ∨ pname = GL_RENDERBUFFER_BLUE_SIZE ∨ pname = GL_RENDERBUFFER_ALPHA_SIZE
            ∨ pname = GL_RENDERBUFFER_DEPTH_SIZE ∨ pname = GL_RENDERBUFFER_STENCIL_SIZE then
          ⟨queried, Result.int32 value⟩
        else ⟨queried ++ [Effect.set_gl_error GL_INVALID_ENUM], Result.null⟩

/-! ## getActiveUniform -/

/-- The terminating character of a C string. -/
def NUL : Char := Char.ofNat 0

/-- Read of `name_vec[i]`; `none` when `i` is outside the buffer. -/
def name_vec_get (name_vec : List Char) (i : Int) : Option Char :=
  if 0 ≤ i ∧ i < (name_vec.length : Int) then name_vec.get? i.toNat else none

/-- Write of `name_vec[i] = c`; `none` when `i` is outside the buffer. -/
def name_vec_set (name_vec : List Char) (i : Int) (c : Char) : Option (List Char) :=
  if 0 ≤ i ∧ i < (name_vec.length : Int) then some (name_vec.set i.toNat c) else none

/-- The condition of the array-name repair in `Callback_getActiveUniform`,
`size > 1 && (name_length < 3 || (name_vec[name_length - 3] != '['`
`&& name_vec[name_length - 2] != '0' && name_vec[name_length - 1] != ']'))`,
with the short-circuit evaluation of `&&` and `||`; `none` when a read falls
outside the buffer. -/
def getActiveUniform_repair_condition (name_vec : List Char) (name_length size : Int) :
    Option Bool :=
  if size > 1 then
    if name_length < 3 then some true
    else
      match name_vec_get name_vec (name_length - 3) with
      | none => none
      | some c3 =>
        if c3 != '[' then
          match name_vec_get name_vec (name_length - 2) with
          | none => none
          | some c2 =>
            if c2 != '0' then
              match name_vec_get name_vec (name_length - 1) with
              | none => none
              | some c1 => some (c1 != ']')
            else some false
        else some false
  else some false

/-- The array-name repair of `Callback_getActiveUniform`: when the condition
holds, the four stores into `name_vec`; `none` when an access falls outside the
buffer. -/
def getActiveUniform_repair (name_vec : List Char) (name_length size : Int) :
    Option (List Char) :=
  match getActiveUniform_repair_condition name_vec name_length size with
  | none => none
  | some false => some name_vec
  | some true =>
    match name_vec_set name_vec (name_length - 3) '[' with
    | none => none
    | some v1 =>
      match name_vec_set v1 (name_length - 2) '0' with
      | none => none
      | some v2 =>
        match name_vec_set v2 (name_length - 1) ']' with
        | none => none
        | some v3 => name_vec_set v3 name_length NUL

/-- The C string that starts at `&name_vec[0]`: the characters before the first
NUL; `none` when the buffer holds no NUL. -/
def c_str (name_vec : List Char) : Option (List Char) :=
  if NUL ∈ name_vec then some (name_vec.takeWhile (fun c => c != NUL)) else none

/-- The buffer `std::vector<char> name_vec(max_name_length)` after the driver
call stored `written` at its start: zero-initialised, `max_name_length` long. -/
def name_vec_after (max_name_length : Int) (written : List Char) : List Char :=
  (written ++ List.replicate (max_name_length.toNat - written.length) NUL).take
    max_name_length.toNat

/-- Embedding of `WebGLRenderingContext::Callback_getActiveUniform`. The field
`name_vec` of the driver answer is what the call stores at the start of the name
buffer. The result is `none` when the handler accesses memory outside the name
buffer. -/
def Callback_getActiveUniform (this : WebGLRenderingContext) (drv : Driver)
    (args : Arguments) : Option Outcome :=
  withValidObject this WebGLProgram.toWebGLObject (args 0).NativeFromV8_WebGLProgram
    (fun posted => some ⟨posted, Result.U⟩)
    (fun program posted =>
      let program_id := program.webgl_id
      match (args 1).FromV8_uint32 with
      | none => some ⟨posted, Result.U⟩
      | some index =>
        let max_name_length := drv.glGetProgramiv program_id GL_ACTIVE_UNIFORM_MAX_LENGTH
        let answer := drv.glGetActiveUniform program_id index max_name_length
        let name_vec := name_vec_after max_name_length answer.name_vec
        match getActiveUniform_repair name_vec answer.name_length answer.size with
        | none => none
        | some name_vec =>
          match c_str name_vec with
          | none => none
          | some name =>
            some ⟨posted ++
              [Effect.gl (GLCall.glGetProgramiv program_id GL_ACTIVE_UNIFORM_MAX_LENGTH),
               Effect.gl (GLCall.glGetActiveUniform program_id index max_name_length)],
              Result.activeInfo answer.size answer.type (String.mk name)⟩)

/-! ## getParameter -/

/-- Labels of the first branch of the switch of `Callback_getParameter`
(`GetIntegerv`, returned as an unsigned integer). -/
def getParameter_enum_pnames : List Nat :=
  [GL_ACTIVE_TEXTURE, GL_BLEND_DST_ALPHA, GL_BLEND_DST_RGB, GL_BLEND_EQUATION_ALPHA,
   GL_BLEND_EQUATION_RGB, GL_BLEND_SRC_ALPHA, GL_BLEND_SRC_RGB, GL_CULL_FACE_MODE,
   GL_DEPTH_FUNC, GL_FRONT_FACE, GL_GENERATE_MIPMAP_HINT, GL_STENCIL_BACK_FAIL,
   GL_STENCIL_BACK_FUNC, GL_STENCIL_BACK_PASS_DEPTH_FAIL, GL_STENCIL_BACK_PASS_DEPTH_PASS,
   GL_STENCIL_BACK_VALUE_MASK, GL_STENCIL_BACK_WRITEMASK, GL_STENCIL_FAIL,
   GL_STENCIL_FUNC, GL_STENCIL_PASS_DEPTH_FAIL, GL_STENCIL_PASS_DEPTH_PASS,
   GL_STENCIL_VALUE_MASK, GL_STENCIL_WRITEMASK]

/-- Labels of the branch returning two floats. -/
def getParameter_float2_pnames : List Nat :=
  [GL_ALIASED_LINE_WIDTH_RANGE, GL_ALIASED_POINT_SIZE_RANGE, GL_DEPTH_RANGE]

/-- Labels of the branch returning four floats. -/
def getParameter_float4_pnames : List Nat := [GL_BLEND_COLOR, GL_COLOR_CLEAR_VALUE]

/-- Labels of the branch returning four integers. -/
def getParameter_int4_pnames : List Nat := [GL_SCISSOR_BOX, GL_VIEWPORT]

/-- Labels of the branch returning one signed integer. -/
def getParameter_int_pnames : List Nat :=
  [GL_ALPHA_BITS, GL_BLUE_BITS, GL_DEPTH_BITS, GL_GREEN_BITS,
   GL_MAX_COMBINED_TEXTURE_IMAGE_UNITS, GL_MAX_CUBE_MAP_TEXTURE_SIZE,
   GL_MAX_FRAGMENT_UNIFORM_VECTORS, GL_MAX_RENDERBUFFER_SIZE, GL_MAX_TEXTURE_IMAGE_UNITS,
   GL_MAX_TEXTURE_SIZE, GL_MAX_VARYING_VECTORS, GL_MAX_VERTEX_ATTRIBS,
   GL_MAX_VERTEX_TEXTURE_IMAGE_UNITS, GL_MAX_VERTEX_UNIFORM_VECTORS, GL_PACK_ALIGNMENT,
   GL_RED_BITS, GL_SAMPLE_BUFFERS, GL_SAMPLES, GL_STENCIL_BACK_REF, GL_STENCIL_BITS,
   GL_STENCIL_CLEAR_VALUE, GL_STENCIL_REF, GL_SUBPIXEL_BITS, GL_UNPACK_ALIGNMENT]

/-- Labels of the branch returning one boolean. -/
def getParameter_boolean_pnames : List Nat :=
  [GL_BLEND, GL_CULL_FACE, GL_DEPTH_TEST, GL_DEPTH_WRITEMASK, GL_DITHER,
   GL_POLYGON_OFFSET_FILL, GL_SAMPLE_COVERAGE_INVERT, GL_SCISSOR_TEST, GL_STENCIL_TEST]

/-- Labels of the branch returning one float. -/
def getParameter_float_pnames : List Nat :=
  [GL_DEPTH_CLEAR_VALUE, GL_LINE_WIDTH, GL_POLYGON_OFFSET_FACTOR, GL_POLYGON_OFFSET_UNITS,
   GL_SAMPLE_COVERAGE_VALUE]

/-- Embedding of `ToV8OrNull`: the wrapper object, or null for a `NULL` pointer. -/
def ToV8OrNull {β : Type} (wrap : β → Wrapper) (object : Option β) : Result :=
  match object with
  | some x => Result.object (wrap x)
  | none => Result.null

/-- Embedding of `WebGLRenderingContext::Callback_getParameter`: the switch over
`pname`, branch by branch in source order (the labels are pairwise distinct).
The warning written to the log on the `default` branch is not modelled. -/
def Callback_getParameter (this : WebGLRenderingContext) (drv : Driver)
    (args : Arguments) : Outcome :=
  match (args 0).FromV8_uint32 with
  | none => ⟨[], Result.U⟩
  | some pname =>
    if pname ∈ getParameter_enum_pnames then
      ⟨[], Result.uint32 (toU32 (drv.GetIntegerv pname 0))⟩
    else if pname ∈ getParameter_float2_pnames then
      ⟨[Effect.gl (GLCall.glGetFloatv pname)],
        Result.float32Array [drv.glGetFloatv pname 0, drv.glGetFloatv pname 1]⟩
    else if pname ∈ getParameter_float4_pnames then
      ⟨[Effect.gl (GLCall.glGetFloatv pname)],
        Result.float32Array [drv.glGetFloatv pname 0, drv.glGetFloatv pname 1,
          drv.glGetFloatv pname 2, drv.glGetFloatv pname 3]⟩
    else if pname = GL_MAX_VIEWPORT_DIMS then
      ⟨[], Result.int32Array [drv.GetIntegerv pname 0, drv.GetIntegerv pname 1]⟩
    else if pname ∈ getParameter_int4_pnames then
      ⟨[], Result.int32Array [drv.GetIntegerv pname 0, drv.GetIntegerv pname 1,
        drv.GetIntegerv pname 2, drv.GetIntegerv pname 3]⟩
    else if pname ∈ getParameter_int_pnames then
      ⟨[], Result.int32 (drv.GetIntegerv pname 0)⟩
    else if pname = GL_COLOR_WRITEMASK then
      ⟨[Effect.gl (GLCall.glGetBooleanv pname)],
        Result.booleanArray [drv.glGetBooleanv pname 0 != 0, drv.glGetBooleanv pname 1 != 0,
          drv.glGetBooleanv pname 2 != 0, drv.glGetBooleanv pname 3 != 0]⟩
    else if pname ∈ getParameter_boolean_pnames then
      ⟨[Effect.gl (GLCall.glGetBooleanv pname)],
        Result.boolean (drv.glGetBooleanv pname 0 != 0)⟩
    else if pname ∈ getParameter_float_pnames then
      ⟨[Effect.gl (GLCall.glGetFloatv pname)], Result.number (drv.glGetFloatv pname 0)⟩
    else if pname = GL_ARRAY_BUFFER_BINDING ∨ pname = GL_ELEMENT_ARRAY_BUFFER_BINDING then
      ⟨[], ToV8OrNull Wrapper.buffer (this.IdToBuffer (drv.GetIntegerv pname 0))⟩
    else if pname = GL_COMPRESSED_TEXTURE_FORMATS then
      ⟨[], Result.uint32Array []⟩
    else if pname = GL_CURRENT_PROGRAM then
      ⟨[], ToV8OrNull Wrapper.program (this.IdToProgram (drv.GetIntegerv pname 0))⟩
    else if pname = GL_FRAMEBUFFER_BINDING ∨ pname = GL_RENDERBUFFER_BINDING then
      ⟨[], ToV8OrNull Wrapper.framebuffer (this.IdToFramebuffer (drv.GetIntegerv pname 0))⟩
    else if pname = GL_RENDERER then
      ⟨[], Result.string "v8-webgl"⟩
    else if pname = GL_SHADING_LANGUAGE_VERSION then
      ⟨[Effect.gl (GLCall.glGetString pname)],
        Result.string ("WebGL GLSL ES 1.0 (" ++ drv.glGetString pname ++ ")")⟩
    else if pname = GL_TEXTURE_BINDING_2D ∨ pname = GL_TEXTURE_BINDING_CUBE_MAP then
      ⟨[], ToV8OrNull Wrapper.texture (this.IdToTexture (drv.GetIntegerv pname 0))⟩
    else if pname = GL_VENDOR then
      ⟨[], Result.string "rectalogic"⟩
    else if pname = GL_VERSION then
      ⟨[Effect.gl (GLCall.glGetString pname)],
        Result.string ("WebGL 1.0 (" ++ drv.glGetString pname ++ ")")⟩
    else
      ⟨[Effect.set_gl_error GL_INVALID_ENUM], Result.U⟩

/-- Every label of the switch of `Callback_getParameter`, in source order. -/
def getParameter_handled_pnames : List Nat :=
  getParameter_enum_pnames ++ getParameter_float2_pnames ++ getParameter_float4_pnames
    ++ [GL_MAX_VIEWPORT_DIMS] ++ getParameter_int4_pnames ++ getParameter_int_pnames
    ++ [GL_COLOR_WRITEMASK] ++ getParameter_boolean_pnames ++ getParameter_float_pnames
    ++ [GL_ARRAY_BUFFER_BINDING, GL_ELEMENT_ARRAY_BUFFER_BINDING, GL_COMPRESSED_TEXTURE_FORMATS,
        GL_CURRENT_PROGRAM, GL_FRAMEBUFFER_BINDING, GL_RENDERBUFFER_BINDING, GL_RENDERER,
        GL_SHADING_LANGUAGE_VERSION, GL_TEXTURE_BINDING_2D, GL_TEXTURE_BINDING_CUBE_MAP,
        GL_VENDOR, GL_VERSION]

/-- The script value `null`. -/
def nullArg : V8Value :=
  { IsNull := true, floats := ArrayValue.undefinedOrNull, ints := ArrayValue.undefinedOrNull }

/-- Modelled from the spec: a `Float32Array` holding `xs` in storage at address
`storage`. The element decoders see `xs`, and `TypedArrayToData` reports the
storage and the length in bytes, four bytes per element. -/
def float32ArrayArg (storage : Nat) (xs : List GLfloat) : V8Value :=
  { floats := ArrayValue.typedArray (some xs)
    TypedArrayToData := TypedArrayData.view storage (sizeof_GLfloat * xs.length) }

/-- An argument on which `NativeFromV8<WebGLShader>` yields the shader. -/
def shaderArg (shader : WebGLShader) : V8Value :=
  { NativeFromV8_WebGLShader := some (some shader) }

/-- An argument on which `NativeFromV8<WebGLProgram>` yields the program. -/
def programArg (program : WebGLProgram) : V8Value :=
  { NativeFromV8_WebGLProgram := some (some program) }

/-- A driver that answers 0, the empty text and the empty name to every query. -/
def silentDriver : Driver :=
  { GetIntegerv := fun _ _ => 0
    glGetFloatv := fun _ _ => ⟨0⟩
    glGetBooleanv := fun _ _ => 0
    glGetString := fun _ => ""
    glGetShaderiv := fun _ _ => 0
    glGetShaderInfoLog := fun _ _ => ""
    glGetProgramiv := fun _ _ => 0
    glGetRenderbufferParameteriv := fun _ _ => 0
    glGetActiveUniform := fun _ _ _ => ⟨0, 0, 0, []⟩ }

/-- A context with identity `id`, empty registries and a translator that
rejects every source with an empty log. -/
def emptyContext (id : Nat) : WebGLRenderingContext :=
  { id := id
    IdToBuffer := fun _ => none
    IdToProgram := fun _ => none
    IdToFramebuffer := fun _ => none
    IdToRenderbuffer := fun _ => none
    IdToTexture := fun _ => none
    TranslateShaderSource := fun _ _ => (false, "", "") }

/-- A context with identity 1 whose translator rejects the source `"bad"` with
a one-line log and accepts every other source, putting a version line before it. -/
def sampleContext : WebGLRenderingContext :=
  { emptyContext 1 with
    TranslateShaderSource := fun source _ =>
      if source = "bad" then (false, "", "ERROR: 0:1: syntax error")
      else (true, "#version 120 " ++ source, "") }

/-- A driver that reports shader type 0x8B31 (VERTEX_SHADER) for every shader, an
info log of ten characters reading `"driver log"`, and 0 otherwise. -/
def sampleDriver : Driver :=
  { silentDriver with
    glGetShaderiv := fun _ pname =>
      if pname = GL_SHADER_TYPE then 0x8B31
      else if pname = GL_INFO_LOG_LENGTH then 10 else 0
    glGetShaderInfoLog := fun _ _ => "driver log" }

/-- A driver whose programs have ACTIVE_UNIFORM_MAX_LENGTH 16 and whose active
uniform is the float array `colors` of 4 elements, reported under the name
`"colors"` (6 characters, followed by the terminating NUL). -/
def colorsDriver : Driver :=
  { silentDriver with
    glGetProgramiv := fun _ pname => if pname = GL_ACTIVE_UNIFORM_MAX_LENGTH then 16 else 0
    glGetActiveUniform := fun _ _ _ => ⟨6, 4, GL_FLOAT, "colors".toList ++ [NUL]⟩ }

/-- A context with identity 1 in which the only registered wrapper is the
renderbuffer with native identifier 5. -/
def renderbufferContext : WebGLRenderingContext :=
  { emptyContext 1 with
    IdToRenderbuffer := fun id => if id = 5 then some ⟨⟨5, 1, false⟩⟩ else none }

/-- A driver that reports 5 as the RENDERBUFFER_BINDING and 0 otherwise. -/
def renderbufferBindingDriver : Driver :=
  { silentDriver with
    GetIntegerv := fun pname _ => if pname = GL_RENDERBUFFER_BINDING then 5 else 0 }

/-! ## bindBuffer, isEnabled, clear -/

/-- Embedding of `WebGLRenderingContext::Callback_bindBuffer`. -/
def Callback_bindBuffer (this : WebGLRenderingContext) (args : Arguments) : Outcome :=
  match (args 0).FromV8_uint32 with
  | none => ⟨[], Result.U⟩
  | some target =>
    if target = GL_ARRAY_BUFFER ∨ target = GL_ELEMENT_ARRAY_BUFFER then
      match (args 1).NativeFromV8_WebGLBuffer with
      | none => ⟨[], Result.U⟩
      | some buffer =>
        match ValidateObject this (buffer.map WebGLBuffer.toWebGLObject) with
        | (posted, false) => ⟨posted, Result.U⟩
        | (posted, true) =>
          let buffer_id : Nat :=
            match buffer with
            | some b => b.webgl_id
            | none => 0
          ⟨posted ++ [Effect.gl (GLCall.glBindBuffer target buffer_id)], Result.U⟩
    else ⟨[Effect.set_gl_error GL_INVALID_ENUM], Result.U⟩

/-- Modelled from the spec: the validator `ValidateCapability` of the rendering
context (defined outside this file) accepts the fixed WebGL capability set and
posts INVALID_ENUM otherwise. The spec does not list the set; it is the
parameter `capabilities`. The pair is (effects, accepted). -/
def ValidateCapability (capabilities : List Nat) (cap : Nat) : List Effect × Bool :=
  if cap ∈ capabilities then ([], true)
  else ([Effect.set_gl_error GL_INVALID_ENUM], false)

/-- Embedding of `WebGLRenderingContext::Callback_isEnabled`; `capabilities` is
the set the capability validator accepts. -/
def Callback_isEnabled (capabilities : List Nat) (args : Arguments) : Outcome :=
  match (args 0).FromV8_uint32 with
  | none => ⟨[], Result.U⟩
  | some cap =>
    match ValidateCapability capabilities cap with
    | (posted, false) => ⟨posted, Result.boolean false⟩
    | (posted, true) => ⟨posted ++ [Effect.gl (GLCall.glIsEnabled cap)], Result.U⟩

/-- Embedding of `WebGLRenderingContext::Callback_clear`. The complement `~(...)`
is taken on 32 bits. -/
def Callback_clear (args : Arguments) : Outcome :=
  match (args 0).FromV8_uint32 with
  | none => ⟨[], Result.U⟩
  | some mask =>
    if mask &&& (4294967295
        - (GL_COLOR_BUFFER_BIT ||| GL_DEPTH_BUFFER_BIT ||| GL_STENCIL_BUFFER_BIT)) ≠ 0 then
      ⟨[Effect.set_gl_error GL_INVALID_VALUE], Result.U⟩
    else ⟨[Effect.gl (GLCall.glClear mask)], Result.U⟩

/-! ## getUniform -/

/-- Embedding of `UniformTypeToBaseLength`: `some (uniform_base_type, length)`
when it returns true, `none` when it returns false. -/
def UniformTypeToBaseLength (uniform_type : Nat) : Option (Nat × Nat) :=
  if uniform_type = GL_BOOL then some (GL_BOOL, 1)
  else if uniform_type = GL_BOOL_VEC2 then some (GL_BOOL, 2)
  else if uniform_type = GL_BOOL_VEC3 then some (GL_BOOL, 3)
  else if uniform_type = GL_BOOL_VEC4 then some (GL_BOOL, 4)
  else if uniform_type = GL_INT then some (GL_INT, 1)
  else if uniform_type = GL_INT_VEC2 then some (GL_INT, 2)
  else if uniform_type = GL_INT_VEC3 then some (GL_INT, 3)
  else if uniform_type = GL_INT_VEC4 then some (GL_INT, 4)
  else if uniform_type = GL_FLOAT then some (GL_FLOAT, 1)
  else if uniform_type = GL_FLOAT_VEC2 then some (GL_FLOAT, 2)
  else if uniform_type = GL_FLOAT_VEC3 then some (GL_FLOAT, 3)
  else if uniform_type = GL_FLOAT_VEC4 then some (GL_FLOAT, 4)
  else if uniform_type = GL_FLOAT_MAT2 then some (GL_FLOAT, 4)
  else if uniform_type = GL_FLOAT_MAT3 then some (GL_FLOAT, 9)
  else if uniform_type = GL_FLOAT_MAT4 then some (GL_FLOAT, 16)
  else if uniform_type = GL_SAMPLER_2D ∨ uniform_type = GL_SAMPLER_CUBE then some (GL_INT, 1)
  else none

/-- Modelled from the spec: the validator `ValidateLocationProgram` of the
rendering context (defined outside this file) accepts a uniform location whose
stored program id equals the supplied one and posts INVALID_OPERATION
otherwise. The pair is (effects, accepted). -/
def ValidateLocationProgram (location : ProgramUniformLocation) (program_id : Nat) :
    List Effect × Bool :=
  if location.program_id = program_id then ([], true)
  else ([Effect.set_gl_error GL_INVALID_OPERATION], false)

/-- Where a piece of a handler's loop leaves control: the handler returned, the
loop goes on (with the effects so far), or memory outside a buffer was
accessed. -/
inductive Step where
  | done (o : Outcome)
  | next (effects : List Effect)
  | fault
  deriving DecidableEq, Repr

/-- The first `length` elements of a fixed array of `capacity` elements whose
element at position `j` is `value j`; `none` when `length` exceeds the
capacity. -/
def value_prefix {α : Type} (capacity length : Nat) (value : Nat → α) : Option (List α) :=
  if length ≤ capacity then some ((List.range length).map value) else none

/-- The `switch (uniform_base_type)` of `Callback_getUniform`, reached once the
location is matched: the native get call on a fixed array (16 floats, 4 ints)
and the encoding of the result. `acc` holds the effects so far; when no case
matches, control leaves the switch and the loop goes on. -/
def getUniform_encode (drv : Driver) (program_id : Nat) (location_id : Int)
    (uniform_base_type length : Nat) (acc : List Effect) : Step :=
  if uniform_base_type = GL_FLOAT then
    let value := drv.glGetUniformfv program_id location_id
    let got := acc ++ [Effect.gl (GLCall.glGetUniformfv program_id location_id)]
    if length = 1 then Step.done ⟨got, Result.number (value 0)⟩
    else
      match value_prefix 16 length value with
      | some xs => Step.done ⟨got, Result.float32Array xs⟩
      | none => Step.fault
  else if uniform_base_type = GL_INT then
    let value := drv.glGetUniformiv program_id location_id
    let got := acc ++ [Effect.gl (GLCall.glGetUniformiv program_id location_id)]
    if length = 1 then Step.done ⟨got, Result.int32 (value 0)⟩
    else
      match value_prefix 4 length value with
      | some xs => Step.done ⟨got, Result.int32Array xs⟩
      | none => Step.fault
  else if uniform_base_type = GL_BOOL then
    let value := drv.glGetUniformiv program_id location_id
    let got := acc ++ [Effect.gl (GLCall.glGetUniformiv program_id location_id)]
    if length > 1 then
      match value_prefix 4 length value with
      | some xs => Step.done ⟨got, Result.booleanArray (xs.map (fun v => v != 0))⟩
      | none => Step.fault
    else Step.done ⟨got, Result.boolean (value 0 != 0)⟩
  else Step.next acc

/-- The contents of `std::stringstream ss(initial); ss << written; ss.str()`. A
string stream constructed from a string starts writing at position 0 (the open
mode is `in | out`, without `ate`), so the written characters replace the
leading characters of `initial`. -/
def stringstream_str (initial written : List Char) : List Char :=
  written ++ initial.drop written.length

/-- The name whose location `Callback_getUniform` looks up for element `index`
of an active uniform: `std::string name(uniform_name);` and, when
`uniform_size > 1 && index >= 1`, the string stream that receives `"["`, the
decimal digits of `index` and `"]"`. -/
def getUniform_element_name (uniform_name : List Char) (uniform_size : Int) (index : Nat) :
    List Char :=
  if uniform_size > 1 ∧ index ≥ 1 then
    stringstream_str uniform_name ("[".toList ++ (Nat.repr index).toList ++ "]".toList)
  else uniform_name

/-- The stripping of a trailing `"[0]"` in `Callback_getUniform`:
`uniform_size > 1 && uniform_name.length() > 3` and the last three characters
compare equal to `"[0]"`. -/
def getUniform_strip (uniform_name : List Char) (uniform_size : Int) : List Char :=
  if uniform_size > 1 ∧ uniform_name.length > 3
      ∧ uniform_name.drop (uniform_name.length - 3) = "[0]".toList then
    uniform_name.take (uniform_name.length - 3)
  else uniform_name

/-- The string `std::string uniform_name(&name_vec[0], name_length)`: the first
`name_length` characters of the buffer; `none` when that reads outside it. -/
def std_string_of_buffer (name_vec : List Char) (name_length : Int) : Option (List Char) :=
  if 0 ≤ name_length ∧ name_length ≤ (name_vec.length : Int) then
    some (name_vec.take name_length.toNat)
  else none

/-- The name buffer after a driver call stored `written` at its start: the rest
of the buffer keeps its contents and its size does not change. -/
def name_vec_store (name_vec written : List Char) : List Char :=
  (written ++ name_vec.drop written.length).take name_vec.length

/-- The characters of `name.c_str()`: those before the first NUL. -/
def c_str_of_string (name : List Char) : String :=
  String.mk (name.takeWhile (fun c => c != NUL))

/-- The inner loop of `Callback_getUniform`,
`for (GLint index = 0; index < uniform_size; index++)`, over the remaining
indices. -/
def getUniform_elements (drv : Driver) (program_id : Nat) (location_id : Int)
    (uniform_name : List Char) (uniform_size : Int) (uniform_type : Nat) :
    List Nat → List Effect → Step
  | [], acc => Step.next acc
  | index :: rest, acc =>
    let name := c_str_of_string (getUniform_element_name uniform_name uniform_size index)
    let looked := acc ++ [Effect.gl (GLCall.glGetUniformLocation program_id name)]
    if drv.glGetUniformLocation program_id name = location_id then
      match UniformTypeToBaseLength uniform_type with
      | none => Step.done ⟨looked ++ [Effect.set_gl_error GL_INVALID_VALUE], Result.null⟩
      | some (uniform_base_type, length) =>
        match getUniform_encode drv program_id location_id uniform_base_type length looked with
        | Step.next acc2 =>
          getUniform_elements drv program_id location_id uniform_name uniform_size
            uniform_type rest acc2
        | s => s
    else
      getUniform_elements drv program_id location_id uniform_name uniform_size uniform_type
        rest looked

/-- The outer loop of `Callback_getUniform`,
`for (GLint i = 0; i < active_uniforms; i++)`, over the remaining indices, with
the current contents of `name_vec`. -/
def getUniform_uniforms (drv : Driver) (program_id : Nat) (location_id : Int)
    (max_name_length : Int) : List Nat → List Char → List Effect → Step
  | [], _, acc => Step.next acc
  | i :: rest, name_vec, acc =>
    let answer := drv.glGetActiveUniform program_id i max_name_length
    let name_vec := name_vec_store name_vec answer.name_vec
    let queried := acc ++ [Effect.gl (GLCall.glGetActiveUniform program_id i max_name_length)]
    match std_string_of_buffer name_vec answer.name_length with
    | none => Step.fault
    | some uniform_name =>
      match getUniform_elements drv program_id location_id
          (getUniform_strip uniform_name answer.size) answer.size answer.type
          (List.range answer.size.toNat) queried with
      | Step.next acc2 =>
        getUniform_uniforms drv program_id location_id max_name_length rest name_vec acc2
      | s => s

/-- Embedding of `WebGLRenderingContext::Callback_getUniform`. The result is
`none` when the handler accesses memory outside one of its buffers. -/
def Callback_getUniform (this : WebGLRenderingContext) (drv : Driver)
    (args : Arguments) : Option Outcome :=
  withValidObject this WebGLProgram.toWebGLObject (args 0).NativeFromV8_WebGLProgram
    (fun posted => some ⟨posted, Result.U⟩)
    (fun program posted =>
      let program_id := program.webgl_id
      match (args 1).NativeFromV8_WebGLUniformLocation with
      | none => some ⟨posted, Result.U⟩
      | some location =>
        match RequireObject location with
        | (posted2, false) => some ⟨posted ++ posted2, Result.U⟩
        | (posted2, true) =>
          match location with
          | none => some ⟨posted ++ posted2, Result.U⟩
          | some location =>
            match ValidateLocationProgram location program_id with
            | (posted3, false) => some ⟨posted ++ posted2 ++ posted3, Result.U⟩
            | (posted3, true) =>
              let location_id := toI32 location.webgl_id
              let active_uniforms := drv.glGetProgramiv program_id GL_ACTIVE_UNIFORMS
              let max_name_length :=
                drv.glGetProgramiv program_id GL_ACTIVE_UNIFORM_MAX_LENGTH
              let queried := posted ++ posted2 ++ posted3 ++
                [Effect.gl (GLCall.glGetProgramiv program_id GL_ACTIVE_UNIFORMS),
                 Effect.gl (GLCall.glGetProgramiv program_id GL_ACTIVE_UNIFORM_MAX_LENGTH)]
              match getUniform_uniforms drv program_id location_id max_name_length
                  (List.range active_uniforms.toNat)
                  (List.replicate max_name_length.toNat NUL) queried with
              | Step.done o => some o
              | Step.next acc =>
                some ⟨acc ++ [Effect.set_gl_error GL_INVALID_VALUE], Result.null⟩
              | Step.fault => none)

/-- Whether a result is one of the scalar encodings of `getUniform`. -/
def Result.isScalar : Result → Bool
  | Result.number _ => true
  | Result.int32 _ => true
  | Result.boolean _ => true
  | _ => false

/-- The number of elements of a result that is an array. -/
def Result.elementCount : Result → Option Nat
  | Result.float32Array xs => some xs.length
  | Result.int32Array xs => some xs.length
  | Result.uint32Array xs => some xs.length
  | Result.booleanArray xs => some xs.length
  | _ => none

/-- The 17 uniform types that are labels of the switch of
`UniformTypeToBaseLength`. -/
def uniform_types : List Nat :=
  [GL_BOOL, GL_BOOL_VEC2, GL_BOOL_VEC3, GL_BOOL_VEC4, GL_INT, GL_INT_VEC2, GL_INT_VEC3,
   GL_INT_VEC4, GL_FLOAT, GL_FLOAT_VEC2, GL_FLOAT_VEC3, GL_FLOAT_VEC4, GL_FLOAT_MAT2,
   GL_FLOAT_MAT3, GL_FLOAT_MAT4, GL_SAMPLER_2D, GL_SAMPLER_CUBE]

/-- A driver whose programs have ACTIVE_UNIFORM_MAX_LENGTH 16 and whose active
uniform is the float array `ab` of 2 elements, reported under the name `"ab"`
(2 characters, followed by the terminating NUL). -/
def shortNameDriver : Driver :=
  { silentDriver with
    glGetProgramiv := fun _ pname => if pname = GL_ACTIVE_UNIFORM_MAX_LENGTH then 16 else 0
    glGetActiveUniform := fun _ _ _ => ⟨2, 2, GL_FLOAT, "ab".toList ++ [NUL]⟩ }

/-- A driver whose programs have one active uniform, the float array `colors` of
4 elements, reported as `"colors[0]"`, with ACTIVE_UNIFORM_MAX_LENGTH 16; the
locations of `colors[0]` .. `colors[3]` are 6 .. 9 (`colors` names element 0)
and every other name has location -1. -/
def colorsArrayDriver : Driver :=
  { silentDriver with
    glGetProgramiv := fun _ pname =>
      if pname = GL_ACTIVE_UNIFORMS then 1
      else if pname = GL_ACTIVE_UNIFORM_MAX_LENGTH then 16 else 0
    glGetActiveUniform := fun _ _ _ => ⟨9, 4, GL_FLOAT, "colors[0]".toList ++ [NUL]⟩
    glGetUniformLocation := fun _ name =>
      if name = "colors" ∨ name = "colors[0]" then 6
      else if name = "colors[1]" then 7
      else if name = "colors[2]" then 8
      else if name = "colors[3]" then 9 else -1 }

/-- The contents of `name_vec` in `Callback_getUniform` once the outer loop has
made its `glGetActiveUniform` call for each of the uniforms `0 .. i - 1`: the
vector starts as `max_name_length` NUL characters and every call stores its
answer from the start of the vector. -/
def getUniform_name_vec (drv : Driver) (program_id : Nat) (max_name_length : Int) :
    Nat → List Char
  | 0 => List.replicate max_name_length.toNat NUL
  | i + 1 =>
    name_vec_store (getUniform_name_vec drv program_id max_name_length i)
      (drv.glGetActiveUniform program_id i max_name_length).name_vec

/-- The string `uniform_name` of iteration `i` of the outer loop of
`Callback_getUniform`, after the strip of a trailing `"[0]"`; `none` when its
construction reads outside `name_vec`. -/
def getUniform_uniform_name (drv : Driver) (program_id : Nat) (max_name_length : Int)
    (i : Nat) : Option (List Char) :=
  match std_string_of_buffer (getUniform_name_vec drv program_id max_name_length (i + 1))
      (drv.glGetActiveUniform program_id i max_name_length).name_length with
  | none => none
  | some uniform_name =>
    some (getUniform_strip uniform_name
      (drv.glGetActiveUniform program_id i max_name_length).size)

/-- The answer `uniform_location_id` of `glGetUniformLocation` in iteration
`index` of the inner loop for uniform `i`; `none` when `uniform_name` could not
be built. -/
def getUniform_element_location (drv : Driver) (program_id : Nat) (max_name_length : Int)
    (i index : Nat) : Option Int :=
  match getUniform_uniform_name drv program_id max_name_length i with
  | none => none
  | some uniform_name =>
    some (drv.glGetUniformLocation program_id
      (c_str_of_string (getUniform_element_name uniform_name
        (drv.glGetActiveUniform program_id i max_name_length).size index)))

/-- A driver whose programs have two active uniforms with
ACTIVE_UNIFORM_MAX_LENGTH 16: uniform 0 is the float `scale` at location 5,
uniform 1 is the `vec4` named `tint` (size 1, type FLOAT_VEC4) at location 6,
whose components read 1, 2, 3, 4 (as bit patterns). -/
def twoUniformDriver : Driver :=
  { silentDriver with
    glGetProgramiv := fun _ pname =>
      if pname = GL_ACTIVE_UNIFORMS then 2
      else if pname = GL_ACTIVE_UNIFORM_MAX_LENGTH then 16 else 0
    glGetActiveUniform := fun _ i _ =>
      if i = 0 then ⟨5, 1, GL_FLOAT, "scale".toList ++ [NUL]⟩
      else ⟨4, 1, GL_FLOAT_VEC4, "tint".toList ++ [NUL]⟩
    glGetUniformLocation := fun _ name =>
      if name = "scale" then 5 else if name = "tint" then 6 else -1
    glGetUniformfv := fun _ _ j => ⟨j + 1⟩ }

/-! ## The driver's pixel-store alignments -/

/-- The two alignments of the driver's pixel-store state. -/
structure PixelStore where
  PACK_ALIGNMENT : Int
  UNPACK_ALIGNMENT : Int
  deriving DecidableEq, Repr

/-- Both alignments start at 4. -/
def PixelStore.start : PixelStore := ⟨4, 4⟩

/-- The alignments change only through the native `glPixelStorei` call on
PACK_ALIGNMENT or UNPACK_ALIGNMENT, which stores its parameter. -/
def PixelStore.apply (s : PixelStore) : Effect → PixelStore
  | Effect.gl (GLCall.glPixelStorei pname param) =>
    if pname = GL_PACK_ALIGNMENT then { s with PACK_ALIGNMENT := param }
    else if pname = GL_UNPACK_ALIGNMENT then { s with UNPACK_ALIGNMENT := param }
    else s
  | _ => s

/-- The pixel-store state after a list of effects, in order. -/
def PixelStore.after (s : PixelStore) (effects : List Effect) : PixelStore :=
  effects.foldl PixelStore.apply s

/-- The pixel-store state after a sequence of `pixelStorei` handler
invocations, one argument list per invocation. -/
def pixelStorei_run (s : PixelStore) : List Arguments → PixelStore
  | [] => s
  | args :: rest => pixelStorei_run (s.after (Callback_pixelStorei args).effects) rest

/-- One entry point of the `uniform{1,2,3,4}{f,i}v` family: its element type,
the typed reading of the array argument, the `min_size` and native function it
hands to `UniformHelper`, and the handler itself. -/
structure UniformVEntry where
  TNative : Type
  view : V8Value → ArrayValue TNative
  N : Nat
  native : Nat → Int → List TNative → GLCall
  Callback : Arguments → Outcome

def uniform1fv_entry : UniformVEntry :=
  ⟨GLfloat, V8Value.floats, 1, GLCall.glUniform1fv, Callback_uniform1fv⟩

def uniform2fv_entry : UniformVEntry :=
  ⟨GLfloat, V8Value.floats, 2, GLCall.glUniform2fv, Callback_uniform2fv⟩

def uniform3fv_entry : UniformVEntry :=
  ⟨GLfloat, V8Value.floats, 3, GLCall.glUniform3fv, Callback_uniform3fv⟩

def uniform4fv_entry : UniformVEntry :=
  ⟨GLfloat, V8Value.floats, 4, GLCall.glUniform4fv, Callback_uniform4fv⟩

def uniform1iv_entry : UniformVEntry :=
  ⟨Int, V8Value.ints, 1, GLCall.glUniform1iv, Callback_uniform1iv⟩

def uniform2iv_entry : UniformVEntry :=
  ⟨Int, V8Value.ints, 2, GLCall.glUniform2iv, Callback_uniform2iv⟩

def uniform3iv_entry : UniformVEntry :=
  ⟨Int, V8Value.ints, 3, GLCall.glUniform3iv, Callback_uniform3iv⟩

def uniform4iv_entry : UniformVEntry :=
  ⟨Int, V8Value.ints, 4, GLCall.glUniform4iv, Callback_uniform4iv⟩

/-- The eight `uniformNfv` / `uniformNiv` entry points. -/
def uniformv_entry_points : List UniformVEntry :=
  [uniform1fv_entry, uniform2fv_entry, uniform3fv_entry, uniform4fv_entry,
   uniform1iv_entry, uniform2iv_entry, uniform3iv_entry, uniform4iv_entry]

/-- The three `uniformMatrixNfv` entry points. -/
def uniformMatrix_entry_points : List (Arguments → Outcome) :=
  [Callback_uniformMatrix2fv, Callback_uniformMatrix3fv, Callback_uniformMatrix4fv]

/-- An argument on which `FromV8<int32_t>` yields `i`. -/
def int32Arg (i : Int) : V8Value := { FromV8_int32 := some i }

/-- An argument on which `FromV8<uint32_t>` yields `n`. -/
def uint32Arg (n : Nat) : V8Value := { FromV8_uint32 := some n }

/-- An argument on which `FromV8<bool>` yields `b`. -/
def boolArg (b : Bool) : V8Value := { FromV8_bool := some b }

/-- Builds an argument list from the listed values; missing positions read as a
value no decoder accepts. -/
def mkArgs (vs : List V8Value) : Arguments := fun i => vs.getD i {}

end v8_webgl

/-! # Verified properties -/

namespace v8_webgl

/-! ## Shared lemmas -/

theorem toI32_of_lt {n : Nat} (h : n < 2147483648) : toI32 n = (n : Int) := by
  unfold toI32
  have h1 : n % 4294967296 = n := Nat.mod_eq_of_lt (by omega)
  rw [h1, if_pos h]

theorem toU32_of_nonneg_lt {i : Int} (h0 : 0 ≤ i) (h1 : i < 4294967296) :
    ((toU32 i : Nat) : Int) = i := by
  unfold toU32
  omega

theorem nativeCalls_singleton_gl (c : GLCall) : nativeCalls [Effect.gl c] = [c] := rfl

theorem nativeCalls_singleton_error (e : Nat) :
    nativeCalls [Effect.set_gl_error e] = [] := rfl

theorem postedErrors_singleton_error (e : Nat) :
    postedErrors [Effect.set_gl_error e] = [e] := rfl

/-- With a non-null location and an array argument that decodes, the uniform
helper's outcome is what `InvokeGL` does on the array's length and data. -/
theorem UniformHelper.Process_of_array {α : Type} (view : V8Value → ArrayValue α)
    (gl_callback : Nat → Int → List α → GLCall) (min_size : Nat) (args : Arguments)
    (location : WebGLUniformLocation) (v : List α)
    (hloc : (args 0).UniformLocationFromV8 = some location)
    (harr : view (args 1) = ArrayValue.array (some v)
      ∨ view (args 1) = ArrayValue.typedArray (some v)) :
    UniformHelper.Process view gl_callback min_size args
      = ⟨UniformHelper.InvokeGL gl_callback min_size location.webgl_id
          (v.length % 4294967296) v, Result.U⟩ := by
  unfold UniformHelper.Process UVAHelper.Process UniformHelper.ProcessArgs
  rcases harr with h | h <;> simp [hloc, h]

/-- The contract of `UniformHelper` for any positive `min_size`. -/
theorem UniformHelper.contract {α : Type} (view : V8Value → ArrayValue α)
    (gl_callback : Nat → Int → List α → GLCall) (min_size : Nat) (args : Arguments)
    (location : WebGLUniformLocation) (v : List α) (hN : 0 < min_size)
    (hloc : (args 0).UniformLocationFromV8 = some location)
    (harr : view (args 1) = ArrayValue.array (some v)
      ∨ view (args 1) = ArrayValue.typedArray (some v))
    (hlen : v.length < 2147483648) :
    ((UniformHelper.Process view gl_callback min_size args).calls ≠ []
        ↔ min_size ≤ v.length ∧ v.length % min_size = 0) ∧
    (min_size ≤ v.length ∧ v.length % min_size = 0 →
      UniformHelper.Process view gl_callback min_size args
        = ⟨[Effect.gl (gl_callback location.webgl_id ((v.length / min_size : Nat) : Int) v)],
            Result.U⟩
      ∧ 1 ≤ v.length / min_size ∧ v.length / min_size * min_size = v.length) ∧
    (¬ (min_size ≤ v.length ∧ v.length % min_size = 0) →
      UniformHelper.Process view gl_callback min_size args
        = ⟨[Effect.set_gl_error GL_INVALID_VALUE], Result.U⟩) := by
  have hmod : v.length % 4294967296 = v.length := Nat.mod_eq_of_lt (by omega)
  have hdiv : v.length / min_size < 2147483648 :=
    lt_of_le_of_lt (Nat.div_le_self _ _) hlen
  rw [UniformHelper.Process_of_array view gl_callback min_size args location v hloc harr,
    hmod]
  unfold UniformHelper.InvokeGL
  by_cases hc : min_size ≤ v.length ∧ v.length % min_size = 0
  · have hn : ¬ (v.length < min_size ∨ v.length % min_size ≠ 0) := by omega
    have h1 : 1 ≤ v.length / min_size := (Nat.one_le_div_iff hN).2 hc.1
    have h2 : v.length / min_size * min_size = v.length :=
      Nat.div_mul_cancel (Nat.dvd_of_mod_eq_zero hc.2)
    simp only [if_neg hn, toI32_of_lt hdiv, Outcome.calls, nativeCalls_singleton_gl]
    exact ⟨⟨fun _ => hc, fun _ => by simp⟩, fun _ => ⟨trivial, h1, h2⟩, fun h => absurd hc h⟩
  · have hp : v.length < min_size ∨ v.length % min_size ≠ 0 := by omega
    simp only [if_pos hp, Outcome.calls, nativeCalls_singleton_error]
    exact ⟨⟨fun h => absurd rfl h, fun h => absurd h hc⟩, fun h => absurd h hc, fun _ => trivial⟩

/-! ## C1 -/

/-- C1. For each of the eight `uniformNfv` / `uniformNiv` entry points, a non-null
uniform location and an array argument (plain sequence or typed-array view) that
decodes to `v` (host arrays hold fewer than 2^31 elements, the range of the
`GLsizei` count): `N` is 1, 2, 3 or 4; the native uniform call is issued iff
`N ≤ |v|` and `|v| mod N = 0`; when issued it is the only effect and receives the
location's id, `count = |v| / N` (so `count ≥ 1` and `count * N = |v|`) and the
array data; otherwise the only effect is the post of INVALID_VALUE. -/
theorem uniformv_native_call_iff_length_multiple (e : UniformVEntry)
    (he : e ∈ uniformv_entry_points) (args : Arguments)
    (location : WebGLUniformLocation) (v : List e.TNative)
    (hloc : (args 0).UniformLocationFromV8 = some location)
    (harr : e.view (args 1) = ArrayValue.array (some v)
      ∨ e.view (args 1) = ArrayValue.typedArray (some v))
    (hlen : v.length < 2147483648) :
    (e.N = 1 ∨ e.N = 2 ∨ e.N = 3 ∨ e.N = 4) ∧
    ((e.Callback args).calls ≠ [] ↔ e.N ≤ v.length ∧ v.length % e.N = 0) ∧
    (e.N ≤ v.length ∧ v.length % e.N = 0 →
      e.Callback args
        = ⟨[Effect.gl (e.native location.webgl_id ((v.length / e.N : Nat) : Int) v)],
            Result.U⟩
      ∧ 1 ≤ v.length / e.N ∧ v.length / e.N * e.N = v.length) ∧
    (¬ (e.N ≤ v.length ∧ v.length % e.N = 0) →
      e.Callback args = ⟨[Effect.set_gl_error GL_INVALID_VALUE], Result.U⟩) := by
  simp only [uniformv_entry_points, List.mem_cons, List.mem_singleton, List.not_mem_nil,
    or_false] at he
  rcases he with rfl | rfl | rfl | rfl | rfl | rfl | rfl | rfl
  · exact ⟨Or.inl rfl,
      UniformHelper.contract _ _ _ args location v (by decide) hloc harr hlen⟩
  · exact ⟨Or.inr (Or.inl rfl),
      UniformHelper.contract _ _ _ args location v (by decide) hloc harr hlen⟩
  · exact ⟨Or.inr (Or.inr (Or.inl rfl)),
      UniformHelper.contract _ _ _ args location v (by decide) hloc harr hlen⟩
  · exact ⟨Or.inr (Or.inr (Or.inr rfl)),
      UniformHelper.contract _ _ _ args location v (by decide) hloc harr hlen⟩
  · exact ⟨Or.inl rfl,
      UniformHelper.contract _ _ _ args location v (by decide) hloc harr hlen⟩
  · exact ⟨Or.inr (Or.inl rfl),
      UniformHelper.contract _ _ _ args location v (by decide) hloc harr hlen⟩
  · exact ⟨Or.inr (Or.inr (Or.inl rfl)),
      UniformHelper.contract _ _ _ args location v (by decide) hloc harr hlen⟩
  · exact ⟨Or.inr (Or.inr (Or.inr rfl)),
      UniformHelper.contract _ _ _ args location v (by decide) hloc harr hlen⟩

/-- Instance of C1: `uniform2fv(loc 5, [a, b, c, d])` issues `glUniform2fv(5, 2, data)`. -/
theorem uniformv_native_call_iff_length_multiple_witness :
    Callback_uniform2fv (mkArgs [{ UniformLocationFromV8 := some ⟨5⟩ },
        { floats := ArrayValue.array (some [⟨1⟩, ⟨2⟩, ⟨3⟩, ⟨4⟩]) }])
      = ⟨[Effect.gl (GLCall.glUniform2fv 5 2 [⟨1⟩, ⟨2⟩, ⟨3⟩, ⟨4⟩])], Result.U⟩ :=
  ((uniformv_native_call_iff_length_multiple uniform2fv_entry
      (List.mem_cons_of_mem _ (List.mem_cons_self _ _))
      (mkArgs [{ UniformLocationFromV8 := some ⟨5⟩ },
        { floats := ArrayValue.array (some [⟨1⟩, ⟨2⟩, ⟨3⟩, ⟨4⟩]) }])
      ⟨5⟩ [⟨1⟩, ⟨2⟩, ⟨3⟩, ⟨4⟩] rfl (Or.inl rfl) (by decide)).2.2.1
    ⟨by decide, by decide⟩).1

/-! ## C2 -/

/-- With a non-null location and a transpose argument decoding to true,
`UniformMatrixHelper::ProcessArgs` posts INVALID_VALUE and reports an error, so
`Process` returns before it looks at the array argument. -/
theorem UniformMatrixHelper.Process_of_transpose {α : Type}
    (view : V8Value → ArrayValue α) (gl_callback : Nat → Int → Nat → List α → GLCall)
    (min_size : Nat) (args : Arguments) (location : WebGLUniformLocation)
    (hloc : (args 0).UniformLocationFromV8 = some location)
    (htr : (args 1).FromV8_bool = some true) :
    UniformMatrixHelper.Process view gl_callback min_size args
      = ⟨[Effect.set_gl_error GL_INVALID_VALUE], Result.U⟩ := by
  unfold UniformMatrixHelper.Process UVAHelper.Process UniformMatrixHelper.ProcessArgs
  simp [hloc, htr]

/-- C2. For each `uniformMatrixNfv` entry point (N in 2, 3, 4), a non-null uniform
location and a transpose argument that decodes to true: the only effect is the
post of INVALID_VALUE and no native call is issued, whatever the third argument
is (it is left unconstrained). -/
theorem uniformMatrix_transpose_true_rejected (Callback : Arguments → Outcome)
    (hc : Callback ∈ uniformMatrix_entry_points) (args : Arguments)
    (location : WebGLUniformLocation)
    (hloc : (args 0).UniformLocationFromV8 = some location)
    (htr : (args 1).FromV8_bool = some true) :
    Callback args = ⟨[Effect.set_gl_error GL_INVALID_VALUE], Result.U⟩
      ∧ (Callback args).calls = [] ∧ (Callback args).errors = [GL_INVALID_VALUE] := by
  have key : Callback args = ⟨[Effect.set_gl_error GL_INVALID_VALUE], Result.U⟩ := by
    simp only [uniformMatrix_entry_points, List.mem_cons, List.mem_singleton,
      List.not_mem_nil, or_false] at hc
    rcases hc with rfl | rfl | rfl
    · exact UniformMatrixHelper.Process_of_transpose _ _ _ args location hloc htr
    · exact UniformMatrixHelper.Process_of_transpose _ _ _ args location hloc htr
    · exact UniformMatrixHelper.Process_of_transpose _ _ _ args location hloc htr
  rw [key]
  exact ⟨rfl, rfl, rfl⟩

/-- Instance of C2: `uniformMatrix2fv(loc 5, true, [a, b, c, d])` with a correctly
sized array is rejected. -/
theorem uniformMatrix_transpose_true_rejected_witness :
    Callback_uniformMatrix2fv (mkArgs [{ UniformLocationFromV8 := some ⟨5⟩ },
        { FromV8_bool := some true },
        { floats := ArrayValue.array (some [⟨1⟩, ⟨2⟩, ⟨3⟩, ⟨4⟩]) }])
      = ⟨[Effect.set_gl_error GL_INVALID_VALUE], Result.U⟩ :=
  (uniformMatrix_transpose_true_rejected Callback_uniformMatrix2fv
    (List.mem_cons_self _ _)
    (mkArgs [{ UniformLocationFromV8 := some ⟨5⟩ }, { FromV8_bool := some true },
      { floats := ArrayValue.array (some [⟨1⟩, ⟨2⟩, ⟨3⟩, ⟨4⟩]) }])
    ⟨5⟩ rfl rfl).1

/-! ## vertexAttribPointer: shared lemmas -/

/-- The type switch of `vertexAttribPointer`, case by case. -/
theorem vertexAttribPointer_type_size_cases (type : Nat) :
    (type = GL_BYTE ∧ vertexAttribPointer_type_size type = some 1)
    ∨ (type = GL_UNSIGNED_BYTE ∧ vertexAttribPointer_type_size type = some 1)
    ∨ (type = GL_SHORT ∧ vertexAttribPointer_type_size type = some 2)
    ∨ (type = GL_UNSIGNED_SHORT ∧ vertexAttribPointer_type_size type = some 2)
    ∨ (type = GL_FLOAT ∧ vertexAttribPointer_type_size type = some 4)
    ∨ ((type ≠ GL_BYTE ∧ type ≠ GL_UNSIGNED_BYTE ∧ type ≠ GL_SHORT
          ∧ type ≠ GL_UNSIGNED_SHORT ∧ type ≠ GL_FLOAT)
        ∧ vertexAttribPointer_type_size type = none) := by
  unfold vertexAttribPointer_type_size
  by_cases h1 : type = GL_BYTE
  · subst h1; simp
  by_cases h2 : type = GL_UNSIGNED_BYTE
  · subst h2; simp
  by_cases h3 : type = GL_SHORT
  · subst h3; simp
  by_cases h4 : type = GL_UNSIGNED_SHORT
  · subst h4; simp
  by_cases h5 : type = GL_FLOAT
  · subst h5; simp
  simp [h1, h2, h3, h4, h5]

/-- The handler on arguments that all decode, for an accepted type. -/
theorem Callback_vertexAttribPointer_of_accepted (args : Arguments) (indx : Nat)
    (size : Int) (type : Nat) (normalized : Bool) (stride offset : Int)
    (type_size : Nat)
    (h0 : (args 0).FromV8_uint32 = some indx) (h1 : (args 1).FromV8_int32 = some size)
    (h2 : (args 2).FromV8_uint32 = some type) (h3 : (args 3).FromV8_bool = some normalized)
    (h4 : (args 4).FromV8_int32 = some stride) (h5 : (args 5).FromV8_int32 = some offset)
    (hts : vertexAttribPointer_type_size type = some type_size) :
    Callback_vertexAttribPointer args =
      if size < 1 ∨ size > 4 ∨ stride < 0 ∨ stride > 255 ∨ offset < 0 then
        ⟨[Effect.set_gl_error GL_INVALID_VALUE], Result.U⟩
      else if toU32 stride % type_size ≠ 0 ∨ Int.tmod offset type_size ≠ 0 then
        ⟨[Effect.set_gl_error GL_INVALID_OPERATION], Result.U⟩
      else
        ⟨[Effect.gl (GLCall.glVertexAttribPointer indx size type
            (GLboolean_of_bool normalized) stride offset)], Result.U⟩ := by
  unfold Callback_vertexAttribPointer
  simp only [h0, h1, h2, h3, h4, h5, hts]

/-- The handler on a type the switch does not accept. -/
theorem Callback_vertexAttribPointer_of_rejected_type (args : Arguments) (indx : Nat)
    (size : Int) (type : Nat)
    (h0 : (args 0).FromV8_uint32 = some indx) (h1 : (args 1).FromV8_int32 = some size)
    (h2 : (args 2).FromV8_uint32 = some type)
    (hts : vertexAttribPointer_type_size type = none) :
    Callback_vertexAttribPointer args
      = ⟨[Effect.set_gl_error GL_INVALID_ENUM], Result.U⟩ := by
  unfold Callback_vertexAttribPointer
  simp only [h0, h1, h2, hts]

/-- For an in-range stride and offset and a positive literal size, the two
remainders of the handler vanish exactly when both values are multiples. -/
theorem vertexAttribPointer_multiple_iff (stride offset : Int) (type_size : Nat)
    (hpos : 0 < type_size) (hs0 : 0 ≤ stride) (hs1 : stride ≤ 255) (ho : 0 ≤ offset) :
    (toU32 stride % type_size ≠ 0 ∨ Int.tmod offset type_size ≠ 0)
      ↔ ¬ (stride % (type_size : Int) = 0 ∧ offset % (type_size : Int) = 0) := by
  have hu : ((toU32 stride : Nat) : Int) = stride :=
    toU32_of_nonneg_lt hs0 (by omega)
  have ht : Int.tmod offset type_size = offset % (type_size : Int) :=
    Int.tmod_eq_emod ho (by omega)
  have hm : ((toU32 stride % type_size : Nat) : Int) = stride % (type_size : Int) := by
    rw [Int.natCast_mod, hu]
  rw [ht]
  constructor
  · rintro (h | h) ⟨h1, h2⟩
    · apply h
      have : ((toU32 stride % type_size : Nat) : Int) = 0 := by rw [hm, h1]
      exact_mod_cast this
    · exact h h2
  · intro h
    by_cases h1 : stride % (type_size : Int) = 0
    · right
      intro h2
      exact h ⟨h1, h2⟩
    · left
      intro h2
      apply h1
      rw [← hm, h2]
      rfl

/-- The accepted types and their byte sizes are exactly the successes of the
type switch. -/
theorem vertexAttribPointer_type_size_eq_some_iff (type type_size : Nat) :
    vertexAttribPointer_type_size type = some type_size
      ↔ ((type = GL_BYTE ∧ type_size = 1) ∨ (type = GL_UNSIGNED_BYTE ∧ type_size = 1)
        ∨ (type = GL_SHORT ∧ type_size = 2) ∨ (type = GL_UNSIGNED_SHORT ∧ type_size = 2)
        ∨ (type = GL_FLOAT ∧ type_size = 4)) := by
  rcases vertexAttribPointer_type_size_cases type with
    ⟨h, hts⟩ | ⟨h, hts⟩ | ⟨h, hts⟩ | ⟨h, hts⟩ | ⟨h, hts⟩ | ⟨h, hts⟩
  all_goals rw [hts]
  all_goals first
    | (subst h; simp; omega)
    | (obtain ⟨h1, h2, h3, h4, h5⟩ := h; simp [h1, h2, h3, h4, h5])

/-- For an accepted type and arguments that all decode, the handler has one of
three outcomes, decided by the range check and then by the multiple check. -/
theorem Callback_vertexAttribPointer_trichotomy (args : Arguments) (indx : Nat)
    (size : Int) (type : Nat) (normalized : Bool) (stride offset : Int)
    (type_size : Nat)
    (h0 : (args 0).FromV8_uint32 = some indx) (h1 : (args 1).FromV8_int32 = some size)
    (h2 : (args 2).FromV8_uint32 = some type) (h3 : (args 3).FromV8_bool = some normalized)
    (h4 : (args 4).FromV8_int32 = some stride) (h5 : (args 5).FromV8_int32 = some offset)
    (hts : vertexAttribPointer_type_size type = some type_size) :
    (size < 1 ∨ 4 < size ∨ stride < 0 ∨ 255 < stride ∨ offset < 0 →
      Callback_vertexAttribPointer args
        = ⟨[Effect.set_gl_error GL_INVALID_VALUE], Result.U⟩) ∧
    (1 ≤ size ∧ size ≤ 4 ∧ 0 ≤ stride ∧ stride ≤ 255 ∧ 0 ≤ offset
        ∧ ¬ (stride % (type_size : Int) = 0 ∧ offset % (type_size : Int) = 0) →
      Callback_vertexAttribPointer args
        = ⟨[Effect.set_gl_error GL_INVALID_OPERATION], Result.U⟩) ∧
    (1 ≤ size ∧ size ≤ 4 ∧ 0 ≤ stride ∧ stride ≤ 255 ∧ 0 ≤ offset
        ∧ stride % (type_size : Int) = 0 ∧ offset % (type_size : Int) = 0 →
      Callback_vertexAttribPointer args
        = ⟨[Effect.gl (GLCall.glVertexAttribPointer indx size type
            (GLboolean_of_bool normalized) stride offset)], Result.U⟩) := by
  have hpos : 0 < type_size := by
    rcases (vertexAttribPointer_type_size_eq_some_iff type type_size).1 hts with
      h | h | h | h | h <;> omega
  rw [Callback_vertexAttribPointer_of_accepted args indx size type normalized stride
    offset type_size h0 h1 h2 h3 h4 h5 hts]
  refine ⟨fun h => ?_, fun h => ?_, fun h => ?_⟩
  · rw [if_pos (by omega)]
  · obtain ⟨a1, a2, a3, a4, a5, a6⟩ := h
    rw [if_neg (by omega),
      if_pos ((vertexAttribPointer_multiple_iff stride offset type_size hpos a3 a4 a5).2 a6)]
  · obtain ⟨a1, a2, a3, a4, a5, a6⟩ := h
    have hn := (not_congr
      (vertexAttribPointer_multiple_iff stride offset type_size hpos a3 a4 a5)).2
      (not_not.2 a6)
    rw [if_neg (by omega), if_neg hn]

/-! ## C3 -/

/-- C4, refuted as stated. `vertexAttribPointer(0, 3, INT, false, 0, 0)`: all six
arguments decode, the call is rejected (INT is not an accepted type), and the
error posted is INVALID_ENUM, which is neither INVALID_VALUE nor
INVALID_OPERATION. -/
theorem vertexAttribPointer_rejected_type_posts_invalid_enum :
    (Callback_vertexAttribPointer (mkArgs [uint32Arg 0, int32Arg 3, uint32Arg GL_INT,
        boolArg false, int32Arg 0, int32Arg 0])).calls = []
    ∧ (Callback_vertexAttribPointer (mkArgs [uint32Arg 0, int32Arg 3, uint32Arg GL_INT,
        boolArg false, int32Arg 0, int32Arg 0])).errors = [GL_INVALID_ENUM]
    ∧ GL_INVALID_VALUE ∉ (Callback_vertexAttribPointer (mkArgs [uint32Arg 0, int32Arg 3,
        uint32Arg GL_INT, boolArg false, int32Arg 0, int32Arg 0])).errors
    ∧ GL_INVALID_OPERATION ∉ (Callback_vertexAttribPointer (mkArgs [uint32Arg 0,
        int32Arg 3, uint32Arg GL_INT, boolArg false, int32Arg 0, int32Arg 0])).errors := by
  decide

/-- C4, amended. A `vertexAttribPointer` call whose arguments decode and that is
rejected posts exactly one error: INVALID_ENUM when the type is not one of the
five accepted numeric types, and INVALID_VALUE or INVALID_OPERATION when the type
is accepted. -/
theorem vertexAttribPointer_rejected_error_code (args : Arguments) (indx : Nat)
    (size : Int) (type : Nat) (normalized : Bool) (stride offset : Int)
    (h0 : (args 0).FromV8_uint32 = some indx) (h1 : (args 1).FromV8_int32 = some size)
    (h2 : (args 2).FromV8_uint32 = some type) (h3 : (args 3).FromV8_bool = some normalized)
    (h4 : (args 4).FromV8_int32 = some stride) (h5 : (args 5).FromV8_int32 = some offset) :
    (type ≠ GL_BYTE ∧ type ≠ GL_UNSIGNED_BYTE ∧ type ≠ GL_SHORT
        ∧ type ≠ GL_UNSIGNED_SHORT ∧ type ≠ GL_FLOAT →
      (Callback_vertexAttribPointer args).calls = []
        ∧ (Callback_vertexAttribPointer args).errors = [GL_INVALID_ENUM]) ∧
    (type = GL_BYTE ∨ type = GL_UNSIGNED_BYTE ∨ type = GL_SHORT
        ∨ type = GL_UNSIGNED_SHORT ∨ type = GL_FLOAT →
      (Callback_vertexAttribPointer args).calls = [] →
      (Callback_vertexAttribPointer args).errors = [GL_INVALID_VALUE]
        ∨ (Callback_vertexAttribPointer args).errors = [GL_INVALID_OPERATION]) := by
  cases hts : vertexAttribPointer_type_size type with
  | none =>
    rw [Callback_vertexAttribPointer_of_rejected_type args indx size type h0 h1 h2 hts]
    refine ⟨fun _ => ⟨rfl, rfl⟩, fun h => ?_⟩
    have hd : ∃ ts : Nat, vertexAttribPointer_type_size type = some ts := by
      rcases h with h | h | h | h | h
      · exact ⟨1, (vertexAttribPointer_type_size_eq_some_iff type 1).2 (by tauto)⟩
      · exact ⟨1, (vertexAttribPointer_type_size_eq_some_iff type 1).2 (by tauto)⟩
      · exact ⟨2, (vertexAttribPointer_type_size_eq_some_iff type 2).2 (by tauto)⟩
      · exact ⟨2, (vertexAttribPointer_type_size_eq_some_iff type 2).2 (by tauto)⟩
      · exact ⟨4, (vertexAttribPointer_type_size_eq_some_iff type 4).2 (by tauto)⟩
    obtain ⟨ts, hd⟩ := hd
    rw [hts] at hd
    exact absurd hd (by simp)
  | some ts =>
    obtain ⟨hv, ho, hc⟩ := Callback_vertexAttribPointer_trichotomy args indx size type
      normalized stride offset ts h0 h1 h2 h3 h4 h5 hts
    refine ⟨fun h => ?_, fun _ hrej => ?_⟩
    · rcases (vertexAttribPointer_type_size_eq_some_iff type ts).1 hts with
        d | d | d | d | d
      · exact absurd d.1 h.1
      · exact absurd d.1 h.2.1
      · exact absurd d.1 h.2.2.1
      · exact absurd d.1 h.2.2.2.1
      · exact absurd d.1 h.2.2.2.2
    · by_cases hr : size < 1 ∨ 4 < size ∨ stride < 0 ∨ 255 < stride ∨ offset < 0
      · rw [hv hr]
        exact Or.inl rfl
      · by_cases hm : stride % (ts : Int) = 0 ∧ offset % (ts : Int) = 0
        · rw [hc ⟨by omega, by omega, by omega, by omega, by omega, hm.1, hm.2⟩] at hrej
          simp [Outcome.calls, nativeCalls] at hrej
        · rw [ho ⟨by omega, by omega, by omega, by omega, by omega, hm⟩]
          exact Or.inr rfl

/-- Instance of amended C4: `vertexAttribPointer(1, 2, SHORT, true, 3, 0)` is
rejected with INVALID_OPERATION. -/
theorem vertexAttribPointer_rejected_error_code_witness :
    (Callback_vertexAttribPointer (mkArgs [uint32Arg 1, int32Arg 2, uint32Arg GL_SHORT,
        boolArg true, int32Arg 3, int32Arg 0])).errors = [GL_INVALID_VALUE]
    ∨ (Callback_vertexAttribPointer (mkArgs [uint32Arg 1, int32Arg 2, uint32Arg GL_SHORT,
        boolArg true, int32Arg 3, int32Arg 0])).errors = [GL_INVALID_OPERATION] :=
  (vertexAttribPointer_rejected_error_code
    (mkArgs [uint32Arg 1, int32Arg 2, uint32Arg GL_SHORT, boolArg true, int32Arg 3,
      int32Arg 0]) 1 2 GL_SHORT true 3 0 rfl rfl rfl rfl rfl rfl).2
    (Or.inr (Or.inr (Or.inl rfl))) (by decide)

/-! ## C5 -/

/-- C5. For `vertexAttribPointer` with an accepted type and arguments that
decode: if size, stride or offset is out of range the only effect is the post of
INVALID_VALUE, whether or not stride and offset are multiples of the element
byte size; if all three are in range and stride or offset is not a multiple of
the element byte size the only effect is the post of INVALID_OPERATION. -/
theorem vertexAttribPointer_range_check_precedes_multiple_check (args : Arguments)
    (indx : Nat) (size : Int) (type : Nat) (normalized : Bool) (stride offset : Int)
    (type_size : Nat)
    (h0 : (args 0).FromV8_uint32 = some indx) (h1 : (args 1).FromV8_int32 = some size)
    (h2 : (args 2).FromV8_uint32 = some type) (h3 : (args 3).FromV8_bool = some normalized)
    (h4 : (args 4).FromV8_int32 = some stride) (h5 : (args 5).FromV8_int32 = some offset)
    (hacc : (type = GL_BYTE ∧ type_size = 1) ∨ (type = GL_UNSIGNED_BYTE ∧ type_size = 1)
      ∨ (type = GL_SHORT ∧ type_size = 2) ∨ (type = GL_UNSIGNED_SHORT ∧ type_size = 2)
      ∨ (type = GL_FLOAT ∧ type_size = 4)) :
    (size < 1 ∨ 4 < size ∨ stride < 0 ∨ 255 < stride ∨ offset < 0 →
      Callback_vertexAttribPointer args
        = ⟨[Effect.set_gl_error GL_INVALID_VALUE], Result.U⟩) ∧
    (1 ≤ size ∧ size ≤ 4 ∧ 0 ≤ stride ∧ stride ≤ 255 ∧ 0 ≤ offset →
      stride % (type_size : Int) ≠ 0 ∨ offset % (type_size : Int) ≠ 0 →
      Callback_vertexAttribPointer args
        = ⟨[Effect.set_gl_error GL_INVALID_OPERATION], Result.U⟩) := by
  have hts := (vertexAttribPointer_type_size_eq_some_iff type type_size).2 hacc
  obtain ⟨hv, ho, -⟩ := Callback_vertexAttribPointer_trichotomy args indx size type
    normalized stride offset type_size h0 h1 h2 h3 h4 h5 hts
  refine ⟨hv, fun hr hm => ho ⟨hr.1, hr.2.1, hr.2.2.1, hr.2.2.2.1, hr.2.2.2.2, ?_⟩⟩
  rintro ⟨b1, b2⟩
  rcases hm with h | h
  · exact h b1
  · exact h b2

/-- The two scenarios of C5: `(0, 3, FLOAT, false, 7, 0)` posts INVALID_OPERATION,
`(0, 5, FLOAT, false, 0, 0)` posts INVALID_VALUE, and neither issues a native
call. -/
theorem vertexAttribPointer_range_check_precedes_multiple_check_witness :
    (Callback_vertexAttribPointer (mkArgs [uint32Arg 0, int32Arg 3, uint32Arg GL_FLOAT,
        boolArg false, int32Arg 7, int32Arg 0])
      = ⟨[Effect.set_gl_error GL_INVALID_OPERATION], Result.U⟩)
    ∧ (Callback_vertexAttribPointer (mkArgs [uint32Arg 0, int32Arg 5, uint32Arg GL_FLOAT,
        boolArg false, int32Arg 0, int32Arg 0])
      = ⟨[Effect.set_gl_error GL_INVALID_VALUE], Result.U⟩)
    ∧ (Callback_vertexAttribPointer (mkArgs [uint32Arg 0, int32Arg 3, uint32Arg GL_FLOAT,
        boolArg false, int32Arg 7, int32Arg 0])).calls = []
    ∧ (Callback_vertexAttribPointer (mkArgs [uint32Arg 0, int32Arg 5, uint32Arg GL_FLOAT,
        boolArg false, int32Arg 0, int32Arg 0])).calls = [] :=
  ⟨(vertexAttribPointer_range_check_precedes_multiple_check
      (mkArgs [uint32Arg 0, int32Arg 3, uint32Arg GL_FLOAT, boolArg false, int32Arg 7,
        int32Arg 0]) 0 3 GL_FLOAT false 7 0 4 rfl rfl rfl rfl rfl rfl
      (Or.inr (Or.inr (Or.inr (Or.inr ⟨rfl, rfl⟩))))).2
      ⟨by decide, by decide, by decide, by decide, by decide⟩ (Or.inl (by decide)),
    (vertexAttribPointer_range_check_precedes_multiple_check
      (mkArgs [uint32Arg 0, int32Arg 5, uint32Arg GL_FLOAT, boolArg false, int32Arg 0,
        int32Arg 0]) 0 5 GL_FLOAT false 0 0 4 rfl rfl rfl rfl rfl rfl
      (Or.inr (Or.inr (Or.inr (Or.inr ⟨rfl, rfl⟩))))).1 (Or.inr (Or.inl (by decide))),
    by decide, by decide⟩

/-! ## readPixels: shared lemmas -/

/-- The handler when its first six arguments decode and the format/type pair is
not (RGBA, UNSIGNED_BYTE). -/
theorem Callback_readPixels_of_bad_format (pack_alignment : Int) (args : Arguments)
    (x y width height : Int) (format type : Nat)
    (h0 : (args 0).FromV8_int32 = some x) (h1 : (args 1).FromV8_int32 = some y)
    (h2 : (args 2).FromV8_int32 = some width) (h3 : (args 3).FromV8_int32 = some height)
    (h4 : (args 4).FromV8_uint32 = some format) (h5 : (args 5).FromV8_uint32 = some type)
    (hft : ¬ (format = GL_RGBA ∧ type = GL_UNSIGNED_BYTE)) :
    Callback_readPixels pack_alignment args
      = ⟨[Effect.set_gl_error GL_INVALID_OPERATION], Result.U⟩ := by
  have hc : format ≠ GL_RGBA ∨ type ≠ GL_UNSIGNED_BYTE := by
    by_cases hf : format = GL_RGBA
    · exact Or.inr (fun ht => hft ⟨hf, ht⟩)
    · exact Or.inl hf
  unfold Callback_readPixels
  simp only [h0, h1, h2, h3, h4, h5]
  rw [if_pos hc]

/-- The handler on (RGBA, UNSIGNED_BYTE) and a non-null `Uint8Array`. -/
theorem Callback_readPixels_of_array (pack_alignment : Int) (args : Arguments)
    (x y width height : Int) (array : Uint8Array)
    (h0 : (args 0).FromV8_int32 = some x) (h1 : (args 1).FromV8_int32 = some y)
    (h2 : (args 2).FromV8_int32 = some width) (h3 : (args 3).FromV8_int32 = some height)
    (h4 : (args 4).FromV8_uint32 = some GL_RGBA)
    (h5 : (args 5).FromV8_uint32 = some GL_UNSIGNED_BYTE)
    (h6 : (args 6).NativeFromV8_Uint8Array = some (some array)) :
    Callback_readPixels pack_alignment args =
      if array.ArrayLength % 4294967296
          < readPixels_length_required width height pack_alignment then
        ⟨[Effect.set_gl_error GL_INVALID_OPERATION], Result.U⟩
      else
        ⟨[Effect.gl (GLCall.glReadPixels x y width height GL_RGBA GL_UNSIGNED_BYTE
            array.ArrayData)], Result.U⟩ := by
  unfold Callback_readPixels
  simp only [h0, h1, h2, h3, h4, h5, h6, RequireObject]
  simp

/-- Without wrap-around the computed row stride is the usual round-up of
`4 * width` to the alignment. -/
theorem readPixels_row_bytes_eq_round_up (width a : Int)
    (ha : a = 1 ∨ a = 2 ∨ a = 4 ∨ a = 8) (hw : 0 ≤ width)
    (hb : (4 * width + (a - 1)) / a * a < 4294967296) :
    ((readPixels_row_bytes width a : Nat) : Int) = (4 * width + (a - 1)) / a * a := by
  have e1 : toU32 1 = 1 := by decide
  have e2 : toU32 2 = 2 := by decide
  have e4 : toU32 4 = 4 := by decide
  have e8 : toU32 8 = 8 := by decide
  unfold readPixels_row_bytes
  rcases ha with rfl | rfl | rfl | rfl
  all_goals
    simp only [e1, e2, e4, e8]
    unfold toU32
    split_ifs <;> omega

/-- The least multiple of the alignment that is at least `m` is the round-up. -/
theorem least_multiple_eq_round_up (a m r : Int)
    (ha : a = 1 ∨ a = 2 ∨ a = 4 ∨ a = 8)
    (hdvd : a ∣ r) (hge : m ≤ r) (hleast : ∀ k : Int, a ∣ k → m ≤ k → r ≤ k) :
    r = (m + (a - 1)) / a * a := by
  have h1 : a ∣ (m + (a - 1)) / a * a := Dvd.intro_left _ rfl
  obtain ⟨q, hq⟩ := hdvd
  rcases ha with rfl | rfl | rfl | rfl
  all_goals
    have h2 := hleast _ h1 (by omega)
    omega

/-- The round-up is the least multiple of the alignment that is at least `m`. -/
theorem round_up_is_least_multiple (a m : Int) (ha : a = 1 ∨ a = 2 ∨ a = 4 ∨ a = 8) :
    a ∣ (m + (a - 1)) / a * a ∧ m ≤ (m + (a - 1)) / a * a
      ∧ ∀ k : Int, a ∣ k → m ≤ k → (m + (a - 1)) / a * a ≤ k := by
  refine ⟨Dvd.intro_left _ rfl, ?_, ?_⟩
  · rcases ha with rfl | rfl | rfl | rfl <;> omega
  · rintro k ⟨q, rfl⟩ hk
    rcases ha with rfl | rfl | rfl | rfl <;> omega

/-- Without wrap-around of the product, the required length computed by the
handler is `rowStride * height`. -/
theorem readPixels_length_required_eq (width height a : Int)
    (ha : a = 1 ∨ a = 2 ∨ a = 4 ∨ a = 8) (hw : 0 ≤ width) (hh : 0 ≤ height)
    (hb : (4 * width + (a - 1)) / a * a * height < 4294967296) :
    ((readPixels_length_required width height a : Nat) : Int)
      = (4 * width + (a - 1)) / a * a * height := by
  have hr0 : 0 ≤ (4 * width + (a - 1)) / a * a := by
    rcases ha with rfl | rfl | rfl | rfl <;> omega
  unfold readPixels_length_required
  rcases eq_or_lt_of_le hh with hz | hpos
  · subst hz
    simp [toU32]
  · have hle : (4 * width + (a - 1)) / a * a ≤ (4 * width + (a - 1)) / a * a * height :=
      le_mul_of_one_le_right hr0 (by omega)
    have hrb := readPixels_row_bytes_eq_round_up width a ha hw (by omega)
    rcases eq_or_lt_of_le hr0 with hz | hrpos
    · have hrb0 : readPixels_row_bytes width a = 0 := by
        have : ((readPixels_row_bytes width a : Nat) : Int) = 0 := by rw [hrb, ← hz]
        exact_mod_cast this
      rw [hrb0, ← hz]
      simp
    · have hhle : height ≤ (4 * width + (a - 1)) / a * a * height :=
        le_mul_of_one_le_left hh (by omega)
      have hth : ((toU32 height : Nat) : Int) = height :=
        toU32_of_nonneg_lt hh (by omega)
      have hprod : ((readPixels_row_bytes width a * toU32 height : Nat) : Int)
          = (4 * width + (a - 1)) / a * a * height := by
        rw [Nat.cast_mul, hrb, hth]
      have hlt : readPixels_row_bytes width a * toU32 height < 4294967296 := by
        have : ((readPixels_row_bytes width a * toU32 height : Nat) : Int)
            < 4294967296 := by rw [hprod]; exact hb
        exact_mod_cast this
      rw [Nat.mod_eq_of_lt hlt, hprod]

/-! ## C6 -/

/-- C6. For every `readPixels` call whose first six arguments decode: if
(format, type) is not exactly (RGBA, UNSIGNED_BYTE) the only effect is the post
of INVALID_OPERATION and no native call is issued; the pixels argument is not
examined, so the outcome is the same for every seventh argument. -/
theorem readPixels_format_type_checked_first (pack_alignment : Int) (args : Arguments)
    (x y width height : Int) (format type : Nat)
    (h0 : (args 0).FromV8_int32 = some x) (h1 : (args 1).FromV8_int32 = some y)
    (h2 : (args 2).FromV8_int32 = some width) (h3 : (args 3).FromV8_int32 = some height)
    (h4 : (args 4).FromV8_uint32 = some format) (h5 : (args 5).FromV8_uint32 = some type)
    (hft : ¬ (format = GL_RGBA ∧ type = GL_UNSIGNED_BYTE)) :
    Callback_readPixels pack_alignment args
        = ⟨[Effect.set_gl_error GL_INVALID_OPERATION], Result.U⟩
    ∧ (Callback_readPixels pack_alignment args).calls = []
    ∧ ∀ pixels : V8Value,
        Callback_readPixels pack_alignment (fun i => if i = 6 then pixels else args i)
          = ⟨[Effect.set_gl_error GL_INVALID_OPERATION], Result.U⟩ := by
  have key := Callback_readPixels_of_bad_format pack_alignment args x y width height
    format type h0 h1 h2 h3 h4 h5 hft
  refine ⟨key, by rw [key]; rfl, fun pixels => ?_⟩
  exact Callback_readPixels_of_bad_format pack_alignment _ x y width height format type
    (by simpa using h0) (by simpa using h1) (by simpa using h2) (by simpa using h3)
    (by simpa using h4) (by simpa using h5) hft

/-- Instance of C6: `readPixels(0, 0, 2, 2, RGB, UNSIGNED_BYTE, null)` posts
INVALID_OPERATION. -/
theorem readPixels_format_type_checked_first_witness :
    Callback_readPixels 4 (mkArgs [int32Arg 0, int32Arg 0, int32Arg 2, int32Arg 2,
        uint32Arg GL_RGB, uint32Arg GL_UNSIGNED_BYTE,
        { NativeFromV8_Uint8Array := some none }])
      = ⟨[Effect.set_gl_error GL_INVALID_OPERATION], Result.U⟩ :=
  (readPixels_format_type_checked_first 4
    (mkArgs [int32Arg 0, int32Arg 0, int32Arg 2, int32Arg 2, uint32Arg GL_RGB,
      uint32Arg GL_UNSIGNED_BYTE, { NativeFromV8_Uint8Array := some none }])
    0 0 2 2 GL_RGB GL_UNSIGNED_BYTE rfl rfl rfl rfl rfl rfl (by decide)).1

/-! ## C7 -/

/-- C7. For `readPixels` with (RGBA, UNSIGNED_BYTE), a non-null `Uint8Array` of
length `n < 2^32`, pack alignment `a` in 1, 2, 4, 8 and `width, height ≥ 0`, let
`rowStride` be the least multiple of `a` that is at least `4 * width`, and
suppose `rowStride * height < 2^32` (no wrap-around). Then the native
`glReadPixels` call is issued iff `n ≥ rowStride * height`; when issued it is the
only effect; otherwise the only effect is the post of INVALID_OPERATION. -/
theorem readPixels_native_call_iff_buffer_large_enough (a : Int) (args : Arguments)
    (x y width height : Int) (array : Uint8Array) (rowStride : Int)
    (h0 : (args 0).FromV8_int32 = some x) (h1 : (args 1).FromV8_int32 = some y)
    (h2 : (args 2).FromV8_int32 = some width) (h3 : (args 3).FromV8_int32 = some height)
    (h4 : (args 4).FromV8_uint32 = some GL_RGBA)
    (h5 : (args 5).FromV8_uint32 = some GL_UNSIGNED_BYTE)
    (h6 : (args 6).NativeFromV8_Uint8Array = some (some array))
    (ha : a = 1 ∨ a = 2 ∨ a = 4 ∨ a = 8) (hw : 0 ≤ width) (hh : 0 ≤ height)
    (hn : array.ArrayLength < 4294967296)
    (hdvd : a ∣ rowStride) (hge : 4 * width ≤ rowStride)
    (hleast : ∀ k : Int, a ∣ k → 4 * width ≤ k → rowStride ≤ k)
    (hwrap : rowStride * height < 4294967296) :
    ((Callback_readPixels a args).calls ≠ []
        ↔ rowStride * height ≤ (array.ArrayLength : Int)) ∧
    (rowStride * height ≤ (array.ArrayLength : Int) →
      Callback_readPixels a args
        = ⟨[Effect.gl (GLCall.glReadPixels x y width height GL_RGBA GL_UNSIGNED_BYTE
            array.ArrayData)], Result.U⟩) ∧
    ((array.ArrayLength : Int) < rowStride * height →
      Callback_readPixels a args
        = ⟨[Effect.set_gl_error GL_INVALID_OPERATION], Result.U⟩) := by
  have hrs := least_multiple_eq_round_up a (4 * width) rowStride ha hdvd hge hleast
  have hreq := readPixels_length_required_eq width height a ha hw hh (by rw [← hrs]; exact hwrap)
  rw [← hrs] at hreq
  rw [Callback_readPixels_of_array a args x y width height array h0 h1 h2 h3 h4 h5 h6,
    Nat.mod_eq_of_lt hn]
  by_cases hc : array.ArrayLength < readPixels_length_required width height a
  · have hlt : (array.ArrayLength : Int) < rowStride * height := by
      rw [← hreq]; exact_mod_cast hc
    rw [if_pos hc]
    exact ⟨⟨fun h => absurd rfl h, fun h => absurd hlt (not_lt.2 h)⟩,
      fun h => absurd hlt (not_lt.2 h), fun _ => rfl⟩
  · have hle : rowStride * height ≤ (array.ArrayLength : Int) := by
      rw [← hreq]; exact_mod_cast not_lt.1 hc
    rw [if_neg hc]
    exact ⟨⟨fun _ => hle, fun _ => by simp [Outcome.calls, nativeCalls]⟩,
      fun _ => rfl, fun h => absurd h (not_lt.2 hle)⟩

/-- The scenario of C7: with width = height = 2 and alignment 4 the row stride is
8 and 16 bytes are needed, so a buffer of 15 bytes is rejected with
INVALID_OPERATION and a buffer of 16 bytes is accepted. -/
theorem readPixels_native_call_iff_buffer_large_enough_witness :
    (Callback_readPixels 4 (mkArgs [int32Arg 0, int32Arg 0, int32Arg 2, int32Arg 2,
        uint32Arg GL_RGBA, uint32Arg GL_UNSIGNED_BYTE,
        { NativeFromV8_Uint8Array := some (some ⟨15, 7⟩) }])
      = ⟨[Effect.set_gl_error GL_INVALID_OPERATION], Result.U⟩)
    ∧ (Callback_readPixels 4 (mkArgs [int32Arg 0, int32Arg 0, int32Arg 2, int32Arg 2,
        uint32Arg GL_RGBA, uint32Arg GL_UNSIGNED_BYTE,
        { NativeFromV8_Uint8Array := some (some ⟨16, 7⟩) }])
      = ⟨[Effect.gl (GLCall.glReadPixels 0 0 2 2 GL_RGBA GL_UNSIGNED_BYTE 7)],
          Result.U⟩) :=
  ⟨(readPixels_native_call_iff_buffer_large_enough 4
      (mkArgs [int32Arg 0, int32Arg 0, int32Arg 2, int32Arg 2, uint32Arg GL_RGBA,
        uint32Arg GL_UNSIGNED_BYTE, { NativeFromV8_Uint8Array := some (some ⟨15, 7⟩) }])
      0 0 2 2 ⟨15, 7⟩ 8 rfl rfl rfl rfl rfl rfl rfl (by decide) (by decide) (by decide)
      (by decide) ⟨2, by decide⟩ (by decide) (fun _ _ h => h) (by decide)).2.2 (by decide),
    (readPixels_native_call_iff_buffer_large_enough 4
      (mkArgs [int32Arg 0, int32Arg 0, int32Arg 2, int32Arg 2, uint32Arg GL_RGBA,
        uint32Arg GL_UNSIGNED_BYTE, { NativeFromV8_Uint8Array := some (some ⟨16, 7⟩) }])
      0 0 2 2 ⟨16, 7⟩ 8 rfl rfl rfl rfl rfl rfl rfl (by decide) (by decide) (by decide)
      (by decide) ⟨2, by decide⟩ (by decide) (fun _ _ h => h) (by decide)).2.1 (by decide)⟩

/-! ## C8 -/

/-- C8. For every `width ≥ 0` with `4 * width + 8 < 2^32` and every alignment `a`
in 1, 2, 4, 8, the row stride computed by `readPixels` is the least multiple of
`a` that is at least `4 * width`: it is `4 * width` for `a` in 1, 2, 4, and for
`a = 8` it is `4 * width` when `width` is even and `4 * width + 4` when `width`
is odd. -/
theorem readPixels_row_bytes_least_multiple (width a : Int) (hw : 0 ≤ width)
    (hb : 4 * width + 8 < 4294967296) (ha : a = 1 ∨ a = 2 ∨ a = 4 ∨ a = 8) :
    (a ∣ ((readPixels_row_bytes width a : Nat) : Int)
      ∧ 4 * width ≤ ((readPixels_row_bytes width a : Nat) : Int)
      ∧ ∀ k : Int, a ∣ k → 4 * width ≤ k → ((readPixels_row_bytes width a : Nat) : Int) ≤ k) ∧
    (a = 1 ∨ a = 2 ∨ a = 4 → ((readPixels_row_bytes width a : Nat) : Int) = 4 * width) ∧
    (a = 8 →
      (width % 2 = 0 → ((readPixels_row_bytes width a : Nat) : Int) = 4 * width)
      ∧ (width % 2 = 1 → ((readPixels_row_bytes width a : Nat) : Int) = 4 * width + 4)) := by
  have hlt : (4 * width + (a - 1)) / a * a < 4294967296 := by
    rcases ha with rfl | rfl | rfl | rfl <;> omega
  rw [readPixels_row_bytes_eq_round_up width a ha hw hlt]
  refine ⟨round_up_is_least_multiple a (4 * width) ha, fun h => ?_, fun h => ⟨?_, ?_⟩⟩
  · rcases h with rfl | rfl | rfl <;> omega
  · subst h; omega
  · subst h; omega

/-- Instance of C8: width 3 with alignment 8 gives a row stride of 16 bytes. -/
theorem readPixels_row_bytes_least_multiple_witness :
    ((readPixels_row_bytes 3 8 : Nat) : Int) = 4 * 3 + 4 :=
  ((readPixels_row_bytes_least_multiple 3 8 (by decide) (by decide)
    (Or.inr (Or.inr (Or.inr rfl)))).2.2 rfl).2 (by decide)

/-! ## C9 -/

/-- The handler of `renderbufferStorage` on arguments that all decode. -/
theorem Callback_renderbufferStorage_of_decoded (args : Arguments)
    (target internalformat : Nat) (width height : Int)
    (h0 : (args 0).FromV8_uint32 = some target)
    (h1 : (args 1).FromV8_uint32 = some internalformat)
    (h2 : (args 2).FromV8_int32 = some width) (h3 : (args 3).FromV8_int32 = some height) :
    Callback_renderbufferStorage args =
      if target ≠ GL_RENDERBUFFER then ⟨[Effect.set_gl_error GL_INVALID_ENUM], Result.U⟩
      else
        match renderbufferStorage_internalformat internalformat with
        | none => ⟨[Effect.set_gl_error GL_INVALID_ENUM], Result.U⟩
        | some internalformat =>
          ⟨[Effect.gl (GLCall.glRenderbufferStorage target internalformat width height)],
            Result.U⟩ := by
  unfold Callback_renderbufferStorage
  simp only [h0, h1, h2, h3]

/-- C9. For every `renderbufferStorage` call whose four arguments decode: with
target RENDERBUFFER the native call is issued iff internalformat is one of
DEPTH_STENCIL, DEPTH_COMPONENT16, RGBA4, RGB5_A1, RGB565, STENCIL_INDEX8, and it
then receives DEPTH24_STENCIL8, DEPTH_COMPONENT, RGBA, RGBA, RGB, STENCIL_INDEX8
respectively, with target, width and height unchanged; for any other
internalformat, and for any other target, the only effect is the post of
INVALID_ENUM. -/
theorem renderbufferStorage_internalformat_remapped (args : Arguments)
    (target internalformat : Nat) (width height : Int)
    (h0 : (args 0).FromV8_uint32 = some target)
    (h1 : (args 1).FromV8_uint32 = some internalformat)
    (h2 : (args 2).FromV8_int32 = some width) (h3 : (args 3).FromV8_int32 = some height) :
    (target = GL_RENDERBUFFER →
      ((Callback_renderbufferStorage args).calls ≠ [] ↔
        internalformat = GL_DEPTH_STENCIL ∨ internalformat = GL_DEPTH_COMPONENT16
          ∨ internalformat = GL_RGBA4 ∨ internalformat = GL_RGB5_A1
          ∨ internalformat = GL_RGB565 ∨ internalformat = GL_STENCIL_INDEX8) ∧
      (internalformat = GL_DEPTH_STENCIL → Callback_renderbufferStorage args
        = ⟨[Effect.gl (GLCall.glRenderbufferStorage target GL_DEPTH24_STENCIL8 width
            height)], Result.U⟩) ∧
      (internalformat = GL_DEPTH_COMPONENT16 → Callback_renderbufferStorage args
        = ⟨[Effect.gl (GLCall.glRenderbufferStorage target GL_DEPTH_COMPONENT width
            height)], Result.U⟩) ∧
      (internalformat = GL_RGBA4 → Callback_renderbufferStorage args
        = ⟨[Effect.gl (GLCall.glRenderbufferStorage target GL_RGBA width height)],
            Result.U⟩) ∧
      (internalformat = GL_RGB5_A1 → Callback_renderbufferStorage args
        = ⟨[Effect.gl (GLCall.glRenderbufferStorage target GL_RGBA width height)],
            Result.U⟩) ∧
      (internalformat = GL_RGB565 → Callback_renderbufferStorage args
        = ⟨[Effect.gl (GLCall.glRenderbufferStorage target GL_RGB width height)],
            Result.U⟩) ∧
      (internalformat = GL_STENCIL_INDEX8 → Callback_renderbufferStorage args
        = ⟨[Effect.gl (GLCall.glRenderbufferStorage target GL_STENCIL_INDEX8 width
            height)], Result.U⟩) ∧
      (¬ (internalformat = GL_DEPTH_STENCIL ∨ internalformat = GL_DEPTH_COMPONENT16
          ∨ internalformat = GL_RGBA4 ∨ internalformat = GL_RGB5_A1
          ∨ internalformat = GL_RGB565 ∨ internalformat = GL_STENCIL_INDEX8) →
        Callback_renderbufferStorage args
          = ⟨[Effect.set_gl_error GL_INVALID_ENUM], Result.U⟩)) ∧
    (target ≠ GL_RENDERBUFFER →
      Callback_renderbufferStorage args
        = ⟨[Effect.set_gl_error GL_INVALID_ENUM], Result.U⟩) := by
  rw [Callback_renderbufferStorage_of_decoded args target internalformat width height
    h0 h1 h2 h3]
  refine ⟨fun ht => ?_, fun ht => by rw [if_pos ht]⟩
  rw [if_neg (not_not.2 ht)]
  unfold renderbufferStorage_internalformat
  by_cases c1 : internalformat = GL_DEPTH_STENCIL
  · subst c1; simp [Outcome.calls, nativeCalls]
  by_cases c2 : internalformat = GL_DEPTH_COMPONENT16
  · subst c2; simp [Outcome.calls, nativeCalls]
  by_cases c3 : internalformat = GL_RGBA4
  · subst c3; simp [Outcome.calls, nativeCalls]
  by_cases c4 : internalformat = GL_RGB5_A1
  · subst c4; simp [Outcome.calls, nativeCalls]
  by_cases c5 : internalformat = GL_RGB565
  · subst c5; simp [Outcome.calls, nativeCalls]
  by_cases c6 : internalformat = GL_STENCIL_INDEX8
  · subst c6; simp [Outcome.calls, nativeCalls]
  simp [c1, c2, c3, c4, c5, c6, Outcome.calls, nativeCalls]

/-- The scenario of C9: `renderbufferStorage(RENDERBUFFER, DEPTH_STENCIL, 4, 4)`
hands DEPTH24_STENCIL8 to the driver. -/
theorem renderbufferStorage_internalformat_remapped_witness :
    Callback_renderbufferStorage (mkArgs [uint32Arg GL_RENDERBUFFER,
        uint32Arg GL_DEPTH_STENCIL, int32Arg 4, int32Arg 4])
      = ⟨[Effect.gl (GLCall.glRenderbufferStorage GL_RENDERBUFFER GL_DEPTH24_STENCIL8 4 4)],
          Result.U⟩ :=
  ((renderbufferStorage_internalformat_remapped
    (mkArgs [uint32Arg GL_RENDERBUFFER, uint32Arg GL_DEPTH_STENCIL, int32Arg 4,
      int32Arg 4]) GL_RENDERBUFFER GL_DEPTH_STENCIL 4 4 rfl rfl rfl rfl).1 rfl).2.1 rfl

/-! ## C10 -/

/-- The handler of `pixelStorei` on arguments that decode. -/
theorem Callback_pixelStorei_of_decoded (args : Arguments) (pname : Nat) (param : Int)
    (h0 : (args 0).FromV8_uint32 = some pname) (h1 : (args 1).FromV8_int32 = some param) :
    Callback_pixelStorei args =
      if pname = GL_UNPACK_FLIP_Y_WEBGL ∨ pname = GL_UNPACK_PREMULTIPLY_ALPHA_WEBGL
          ∨ pname = GL_UNPACK_COLORSPACE_CONVERSION_WEBGL then
        ⟨[], Result.U⟩
      else if pname = GL_PACK_ALIGNMENT ∨ pname = GL_UNPACK_ALIGNMENT then
        if param = 1 ∨ param = 2 ∨ param = 4 ∨ param = 8 then
          ⟨[Effect.gl (GLCall.glPixelStorei pname param)], Result.U⟩
        else
          ⟨[Effect.set_gl_error GL_INVALID_VALUE], Result.U⟩
      else
        ⟨[Effect.set_gl_error GL_INVALID_ENUM], Result.U⟩ := by
  unfold Callback_pixelStorei
  simp only [h0, h1]

/-- C10. For every `pixelStorei(pname, param)` whose arguments decode: the native
`glPixelStorei(pname, param)` call is issued iff pname is PACK_ALIGNMENT or
UNPACK_ALIGNMENT and param is 1, 2, 4 or 8; for those two pnames any other param
posts INVALID_VALUE; for UNPACK_FLIP_Y_WEBGL, UNPACK_PREMULTIPLY_ALPHA_WEBGL and
UNPACK_COLORSPACE_CONVERSION_WEBGL the handler has no effect at all, for every
param; every other pname posts INVALID_ENUM. -/
theorem pixelStorei_contract (args : Arguments) (pname : Nat) (param : Int)
    (h0 : (args 0).FromV8_uint32 = some pname) (h1 : (args 1).FromV8_int32 = some param) :
    ((Callback_pixelStorei args).calls ≠ [] ↔
      (pname = GL_PACK_ALIGNMENT ∨ pname = GL_UNPACK_ALIGNMENT)
        ∧ (param = 1 ∨ param = 2 ∨ param = 4 ∨ param = 8)) ∧
    ((pname = GL_PACK_ALIGNMENT ∨ pname = GL_UNPACK_ALIGNMENT) →
      (param = 1 ∨ param = 2 ∨ param = 4 ∨ param = 8) →
      Callback_pixelStorei args
        = ⟨[Effect.gl (GLCall.glPixelStorei pname param)], Result.U⟩) ∧
    ((pname = GL_PACK_ALIGNMENT ∨ pname = GL_UNPACK_ALIGNMENT) →
      ¬ (param = 1 ∨ param = 2 ∨ param = 4 ∨ param = 8) →
      Callback_pixelStorei args = ⟨[Effect.set_gl_error GL_INVALID_VALUE], Result.U⟩) ∧
    ((pname = GL_UNPACK_FLIP_Y_WEBGL ∨ pname = GL_UNPACK_PREMULTIPLY_ALPHA_WEBGL
        ∨ pname = GL_UNPACK_COLORSPACE_CONVERSION_WEBGL) →
      Callback_pixelStorei args = ⟨[], Result.U⟩) ∧
    (¬ (pname = GL_PACK_ALIGNMENT ∨ pname = GL_UNPACK_ALIGNMENT
        ∨ pname = GL_UNPACK_FLIP_Y_WEBGL ∨ pname = GL_UNPACK_PREMULTIPLY_ALPHA_WEBGL
        ∨ pname = GL_UNPACK_COLORSPACE_CONVERSION_WEBGL) →
      Callback_pixelStorei args = ⟨[Effect.set_gl_error GL_INVALID_ENUM], Result.U⟩) := by
  rw [Callback_pixelStorei_of_decoded args pname param h0 h1]
  by_cases hw : pname = GL_UNPACK_FLIP_Y_WEBGL ∨ pname = GL_UNPACK_PREMULTIPLY_ALPHA_WEBGL
      ∨ pname = GL_UNPACK_COLORSPACE_CONVERSION_WEBGL
  · have hnp : ¬ (pname = GL_PACK_ALIGNMENT ∨ pname = GL_UNPACK_ALIGNMENT) := by
      simp only [GL_UNPACK_FLIP_Y_WEBGL, GL_UNPACK_PREMULTIPLY_ALPHA_WEBGL,
        GL_UNPACK_COLORSPACE_CONVERSION_WEBGL, GL_PACK_ALIGNMENT, GL_UNPACK_ALIGNMENT]
        at hw ⊢
      omega
    rw [if_pos hw]
    refine ⟨⟨fun h => absurd rfl h, fun h => absurd h.1 hnp⟩, fun h => absurd h hnp,
      fun h => absurd h hnp, fun _ => rfl, fun h => ?_⟩
    exact absurd (Or.inr (Or.inr hw)) h
  · rw [if_neg hw]
    by_cases hp : pname = GL_PACK_ALIGNMENT ∨ pname = GL_UNPACK_ALIGNMENT
    · rw [if_pos hp]
      by_cases hv : param = 1 ∨ param = 2 ∨ param = 4 ∨ param = 8
      · rw [if_pos hv]
        refine ⟨⟨fun _ => ⟨hp, hv⟩, fun _ => by simp [Outcome.calls, nativeCalls]⟩,
          fun _ _ => rfl, fun _ h => absurd hv h, fun h => absurd h hw, fun h => ?_⟩
        exact absurd (by tauto) h
      · rw [if_neg hv]
        refine ⟨⟨fun h => absurd rfl h, fun h => absurd h.2 hv⟩, fun _ h => absurd h hv,
          fun _ _ => rfl, fun h => absurd h hw, fun h => ?_⟩
        exact absurd (by tauto) h
    · rw [if_neg hp]
      exact ⟨⟨fun h => absurd rfl h, fun h => absurd h.1 hp⟩, fun h => absurd h hp,
        fun h => absurd h hp, fun h => absurd h hw, fun _ => rfl⟩

/-- Instance of C10: `pixelStorei(PACK_ALIGNMENT, 8)` reaches the driver. -/
theorem pixelStorei_contract_witness :
    Callback_pixelStorei (mkArgs [uint32Arg GL_PACK_ALIGNMENT, int32Arg 8])
      = ⟨[Effect.gl (GLCall.glPixelStorei GL_PACK_ALIGNMENT 8)], Result.U⟩ :=
  (pixelStorei_contract (mkArgs [uint32Arg GL_PACK_ALIGNMENT, int32Arg 8])
    GL_PACK_ALIGNMENT 8 rfl rfl).2.1 (Or.inl rfl) (by decide)

/-! ## C11 -/

/-- C11. For every `bufferData` call whose data argument (argument 1) is null,
the only effect is the post of INVALID_VALUE and no native call is issued; the
target and usage arguments are left unconstrained (they need not decode). -/
theorem bufferData_null_data_rejected (args : Arguments)
    (hnull : (args 1).IsNull = true) :
    Callback_bufferData args = ⟨[Effect.set_gl_error GL_INVALID_VALUE], Result.U⟩
      ∧ (Callback_bufferData args).calls = []
      ∧ (Callback_bufferData args).errors = [GL_INVALID_VALUE] := by
  have key : Callback_bufferData args
      = ⟨[Effect.set_gl_error GL_INVALID_VALUE], Result.U⟩ := by
    unfold Callback_bufferData
    rw [if_pos hnull]
  rw [key]
  exact ⟨rfl, rfl, rfl⟩

/-- The scenario of C11: `bufferData(ARRAY_BUFFER, null, STATIC_DRAW)`. -/
theorem bufferData_null_data_rejected_witness :
    Callback_bufferData (mkArgs [uint32Arg GL_ARRAY_BUFFER, nullArg, uint32Arg GL_STATIC_DRAW])
      = ⟨[Effect.set_gl_error GL_INVALID_VALUE], Result.U⟩ :=
  (bufferData_null_data_rejected
    (mkArgs [uint32Arg GL_ARRAY_BUFFER, nullArg, uint32Arg GL_STATIC_DRAW]) rfl).1

/-! ## C12 -/

/-- The buffer-data validator accepts the two targets with the three usages. -/
theorem ValidateBufferDataParameters_of_accepted (target usage : Nat)
    (ht : target = GL_ARRAY_BUFFER ∨ target = GL_ELEMENT_ARRAY_BUFFER)
    (hu : usage = GL_STATIC_DRAW ∨ usage = GL_DYNAMIC_DRAW ∨ usage = GL_STREAM_DRAW) :
    ValidateBufferDataParameters target usage = ([], true) := by
  unfold ValidateBufferDataParameters
  rw [if_pos ⟨ht, hu⟩]

/-- The buffer-data validator rejects every other target with INVALID_ENUM. -/
theorem ValidateBufferDataParameters_of_rejected_target (target usage : Nat)
    (ht : ¬ (target = GL_ARRAY_BUFFER ∨ target = GL_ELEMENT_ARRAY_BUFFER)) :
    ValidateBufferDataParameters target usage
      = ([Effect.set_gl_error GL_INVALID_ENUM], false) := by
  unfold ValidateBufferDataParameters
  rw [if_neg (fun h => ht h.1)]

/-- C12. For every `bufferData` call with a non-null data argument, a target in
ARRAY_BUFFER, ELEMENT_ARRAY_BUFFER and a usage in STATIC_DRAW, DYNAMIC_DRAW,
STREAM_DRAW: if the data argument is a typed-array view, the native
`glBufferData` receives size = the byte length of the view and data = its
backing storage; if it is an integer `n`, the native call receives size = `n`
and a null data pointer. In both cases the call is the only effect. -/
theorem bufferData_size_and_data (args : Arguments) (target usage : Nat)
    (hnull : (args 1).IsNull = false)
    (h0 : (args 0).FromV8_uint32 = some target) (h2 : (args 2).FromV8_uint32 = some usage)
    (ht : target = GL_ARRAY_BUFFER ∨ target = GL_ELEMENT_ARRAY_BUFFER)
    (hu : usage = GL_STATIC_DRAW ∨ usage = GL_DYNAMIC_DRAW ∨ usage = GL_STREAM_DRAW) :
    (∀ storage byteLength : Nat,
      (args 1).TypedArrayToData = TypedArrayData.view storage byteLength →
      Callback_bufferData args
        = ⟨[Effect.gl (GLCall.glBufferData target (byteLength : Int) (some storage) usage)],
            Result.U⟩) ∧
    (∀ n : Int,
      (args 1).TypedArrayToData = TypedArrayData.notTypedArray →
      (args 1).FromV8_int32 = some n →
      Callback_bufferData args
        = ⟨[Effect.gl (GLCall.glBufferData target n none usage)], Result.U⟩) := by
  have hv := ValidateBufferDataParameters_of_accepted target usage ht hu
  refine ⟨fun storage byteLength h1 => ?_, fun n h1 h1i => ?_⟩
  · unfold Callback_bufferData
    simp [hnull, h0, h1, h2, hv]
  · unfold Callback_bufferData
    simp [hnull, h0, h1, h1i, h2, hv]

/-- The two scenarios of C12: `bufferData(ARRAY_BUFFER, Float32Array([1,2,3,4]),
STATIC_DRAW)` hands size 16 and the backing storage to the driver, and
`bufferData(ARRAY_BUFFER, 64, STATIC_DRAW)` hands size 64 and a null pointer. -/
theorem bufferData_size_and_data_witness :
    (Callback_bufferData (mkArgs [uint32Arg GL_ARRAY_BUFFER,
        float32ArrayArg 4096 [⟨1⟩, ⟨2⟩, ⟨3⟩, ⟨4⟩], uint32Arg GL_STATIC_DRAW])
      = ⟨[Effect.gl (GLCall.glBufferData GL_ARRAY_BUFFER 16 (some 4096) GL_STATIC_DRAW)],
          Result.U⟩)
    ∧ (Callback_bufferData (mkArgs [uint32Arg GL_ARRAY_BUFFER, int32Arg 64,
        uint32Arg GL_STATIC_DRAW])
      = ⟨[Effect.gl (GLCall.glBufferData GL_ARRAY_BUFFER 64 none GL_STATIC_DRAW)],
          Result.U⟩) :=
  ⟨(bufferData_size_and_data
      (mkArgs [uint32Arg GL_ARRAY_BUFFER, float32ArrayArg 4096 [⟨1⟩, ⟨2⟩, ⟨3⟩, ⟨4⟩],
        uint32Arg GL_STATIC_DRAW]) GL_ARRAY_BUFFER GL_STATIC_DRAW rfl rfl rfl
      (Or.inl rfl) (Or.inl rfl)).1 4096 16 rfl,
    (bufferData_size_and_data
      (mkArgs [uint32Arg GL_ARRAY_BUFFER, int32Arg 64, uint32Arg GL_STATIC_DRAW])
      GL_ARRAY_BUFFER GL_STATIC_DRAW rfl rfl rfl (Or.inl rfl) (Or.inl rfl)).2 64 rfl rfl⟩

/-! ## C13 -/

/-- C13. For every `bufferSubData(target, offset, data)` call whose target and
offset decode: the native `glBufferSubData` call is issued iff the target passes
the buffer-target check (ARRAY_BUFFER or ELEMENT_ARRAY_BUFFER) and the data
argument is a typed-array view; it then is the only effect and receives target,
offset, size = the byte length of the view and its storage; when the data
argument is not a typed-array view the handler returns undefined and issues no
native call. -/
theorem bufferSubData_native_call_iff (args : Arguments) (target : Nat) (offset : Int)
    (h0 : (args 0).FromV8_uint32 = some target) (h1 : (args 1).FromV8_int32 = some offset) :
    ((Callback_bufferSubData args).calls ≠ [] ↔
      (target = GL_ARRAY_BUFFER ∨ target = GL_ELEMENT_ARRAY_BUFFER)
        ∧ ∃ storage byteLength : Nat,
            (args 2).TypedArrayToData = TypedArrayData.view storage byteLength) ∧
    (∀ storage byteLength : Nat,
      (target = GL_ARRAY_BUFFER ∨ target = GL_ELEMENT_ARRAY_BUFFER) →
      (args 2).TypedArrayToData = TypedArrayData.view storage byteLength →
      Callback_bufferSubData args
        = ⟨[Effect.gl (GLCall.glBufferSubData target offset (byteLength : Int) storage)],
            Result.U⟩) ∧
    ((∀ storage byteLength : Nat,
        (args 2).TypedArrayToData ≠ TypedArrayData.view storage byteLength) →
      (Callback_bufferSubData args).result = Result.U
        ∧ (Callback_bufferSubData args).calls = []) := by
  by_cases ht : target = GL_ARRAY_BUFFER ∨ target = GL_ELEMENT_ARRAY_BUFFER
  · have hv := ValidateBufferDataParameters_of_accepted target GL_STATIC_DRAW ht
      (Or.inl rfl)
    cases hd : (args 2).TypedArrayToData with
    | view storage byteLength =>
      have key : Callback_bufferSubData args
          = ⟨[Effect.gl (GLCall.glBufferSubData target offset (byteLength : Int) storage)],
              Result.U⟩ := by
        unfold Callback_bufferSubData
        simp [h0, h1, hv, hd]
      rw [key]
      refine ⟨⟨fun _ => ⟨ht, storage, byteLength, rfl⟩,
        fun _ => by simp [Outcome.calls, nativeCalls]⟩, ?_, ?_⟩
      · intro s b _ hsb
        cases hsb
        rfl
      · intro h
        exact absurd rfl (h storage byteLength)
    | notTypedArray =>
      have key : Callback_bufferSubData args = ⟨[], Result.U⟩ := by
        unfold Callback_bufferSubData
        simp [h0, h1, hv, hd]
      rw [key]
      refine ⟨⟨fun h => absurd rfl h, ?_⟩, ?_, fun _ => ⟨rfl, rfl⟩⟩
      · rintro ⟨-, s, b, hsb⟩
        cases hsb
      · intro s b _ hsb
        cases hsb
    | failed =>
      have key : Callback_bufferSubData args = ⟨[], Result.U⟩ := by
        unfold Callback_bufferSubData
        simp [h0, h1, hv, hd]
      rw [key]
      refine ⟨⟨fun h => absurd rfl h, ?_⟩, ?_, fun _ => ⟨rfl, rfl⟩⟩
      · rintro ⟨-, s, b, hsb⟩
        cases hsb
      · intro s b _ hsb
        cases hsb
  · have hv := ValidateBufferDataParameters_of_rejected_target target GL_STATIC_DRAW ht
    have key : Callback_bufferSubData args
        = ⟨[Effect.set_gl_error GL_INVALID_ENUM], Result.U⟩ := by
      unfold Callback_bufferSubData
      simp [h0, hv]
    rw [key]
    exact ⟨⟨fun h => absurd rfl h, fun h => absurd h.1 ht⟩,
      fun _ _ h _ => absurd h ht, fun _ => ⟨rfl, rfl⟩⟩

/-- Instance of C13: `bufferSubData(ARRAY_BUFFER, 8, Float32Array([1,2]))` reaches
the driver with size 8 and the storage of the view. -/
theorem bufferSubData_native_call_iff_witness :
    Callback_bufferSubData (mkArgs [uint32Arg GL_ARRAY_BUFFER, int32Arg 8,
        float32ArrayArg 4096 [⟨1⟩, ⟨2⟩]])
      = ⟨[Effect.gl (GLCall.glBufferSubData GL_ARRAY_BUFFER 8 8 4096)], Result.U⟩ :=
  (bufferSubData_native_call_iff
    (mkArgs [uint32Arg GL_ARRAY_BUFFER, int32Arg 8, float32ArrayArg 4096 [⟨1⟩, ⟨2⟩]])
    GL_ARRAY_BUFFER 8 rfl rfl).2.1 4096 8 (Or.inl rfl) rfl

/-! ## Shaders: shared lemmas -/

/-- On a non-null wrapper that belongs to this context and is not deleted, the
shared prologue posts nothing and continues with the wrapper. -/
theorem withValidObject_of_valid {β ρ : Type} (this : WebGLRenderingContext)
    (base : β → WebGLObject) (decoded : Option (Option β)) (bail : List Effect → ρ)
    (k : β → List Effect → ρ) (x : β) (hd : decoded = some (some x))
    (hctx : (base x).context = this.id) (hdel : (base x).deleted = false) :
    withValidObject this base decoded bail k = k x [] := by
  subst hd
  unfold withValidObject RequireObject ValidateObject
  simp [hctx, hdel]

/-- The handler `getShaderParameter` on COMPILE_STATUS for a valid shader. -/
theorem Callback_getShaderParameter_compile_status (this : WebGLRenderingContext)
    (drv : Driver) (args : Arguments) (shader : WebGLShader)
    (h0 : (args 0).NativeFromV8_WebGLShader = some (some shader))
    (hctx : shader.context = this.id) (hdel : shader.deleted = false)
    (h1 : (args 1).FromV8_uint32 = some GL_COMPILE_STATUS) :
    Callback_getShaderParameter this drv args = ⟨[], Result.boolean shader.is_valid⟩ := by
  unfold Callback_getShaderParameter
  rw [withValidObject_of_valid this _ _ _ _ shader h0 hctx hdel]
  simp [h1]

/-- The handler `getShaderInfoLog` for a valid shader whose cached flag is
false. -/
theorem Callback_getShaderInfoLog_of_invalid (this : WebGLRenderingContext)
    (drv : Driver) (args : Arguments) (shader : WebGLShader)
    (h0 : (args 0).NativeFromV8_WebGLShader = some (some shader))
    (hctx : shader.context = this.id) (hdel : shader.deleted = false)
    (hv : shader.is_valid = false) :
    Callback_getShaderInfoLog this drv args = ⟨[], Result.string shader.log⟩ := by
  unfold Callback_getShaderInfoLog
  rw [withValidObject_of_valid this _ _ _ _ shader h0 hctx hdel]
  simp [hv]

/-- The handler `getShaderInfoLog` for a valid shader whose cached flag is true:
it asks the driver for the length of its info log and, unless that is 0, for the
log itself. -/
theorem Callback_getShaderInfoLog_of_valid (this : WebGLRenderingContext)
    (drv : Driver) (args : Arguments) (shader : WebGLShader)
    (h0 : (args 0).NativeFromV8_WebGLShader = some (some shader))
    (hctx : shader.context = this.id) (hdel : shader.deleted = false)
    (hv : shader.is_valid = true) :
    Callback_getShaderInfoLog this drv args =
      if drv.glGetShaderiv shader.webgl_id GL_INFO_LOG_LENGTH = 0 then
        ⟨[Effect.gl (GLCall.glGetShaderiv shader.webgl_id GL_INFO_LOG_LENGTH)],
          Result.string ""⟩
      else
        ⟨[Effect.gl (GLCall.glGetShaderiv shader.webgl_id GL_INFO_LOG_LENGTH),
            Effect.gl (GLCall.glGetShaderInfoLog shader.webgl_id
              (drv.glGetShaderiv shader.webgl_id GL_INFO_LOG_LENGTH))],
          Result.string (drv.glGetShaderInfoLog shader.webgl_id
            (drv.glGetShaderiv shader.webgl_id GL_INFO_LOG_LENGTH))⟩ := by
  unfold Callback_getShaderInfoLog
  rw [withValidObject_of_valid this _ _ _ _ shader h0 hctx hdel]
  simp [hv]

/-! ## C14 -/

/-- C14. For every non-null, valid shader `s` whose driver-reported shader type
is non-zero. If the translator rejects the source of `s` with log `L`, then
`compileShader(s)` issues neither `glShaderSource` nor `glCompileShader` (its
only native call is the shader-type query), it leaves `s` with validity flag
false and log `L`, and on that shader `getShaderParameter(s, COMPILE_STATUS)`
returns false and `getShaderInfoLog(s)` returns `L`. If the translator accepts,
the driver receives the translated source, not the original one, followed by
the compile call. -/
theorem compileShader_translates_before_compiling (this : WebGLRenderingContext)
    (drv : Driver) (args : Arguments) (shader : WebGLShader)
    (h0 : (args 0).NativeFromV8_WebGLShader = some (some shader))
    (hctx : shader.context = this.id) (hdel : shader.deleted = false)
    (htype : drv.glGetShaderiv shader.webgl_id GL_SHADER_TYPE ≠ 0) :
    (∀ translated L : String,
      this.TranslateShaderSource shader.source
          (drv.glGetShaderiv shader.webgl_id GL_SHADER_TYPE) = (false, translated, L) →
      (Callback_compileShader this drv args).1
          = ⟨[Effect.gl (GLCall.glGetShaderiv shader.webgl_id GL_SHADER_TYPE)], Result.U⟩
        ∧ (Callback_compileShader this drv args).2
          = some { shader with is_valid := false, log := L }
        ∧ ∀ (drv2 : Driver) (args2 : Arguments),
            (args2 0).NativeFromV8_WebGLShader = (Callback_compileShader this drv args).2.map some →
            ((args2 1).FromV8_uint32 = some GL_COMPILE_STATUS →
              Callback_getShaderParameter this drv2 args2 = ⟨[], Result.boolean false⟩)
            ∧ Callback_getShaderInfoLog this drv2 args2 = ⟨[], Result.string L⟩) ∧
    (∀ translated L : String,
      this.TranslateShaderSource shader.source
          (drv.glGetShaderiv shader.webgl_id GL_SHADER_TYPE) = (true, translated, L) →
      (Callback_compileShader this drv args).1
          = ⟨[Effect.gl (GLCall.glGetShaderiv shader.webgl_id GL_SHADER_TYPE),
              Effect.gl (GLCall.glShaderSource shader.webgl_id 1 translated),
              Effect.gl (GLCall.glCompileShader shader.webgl_id)], Result.U⟩
        ∧ (Callback_compileShader this drv args).2
          = some { shader with is_valid := true, log := L }) := by
  refine ⟨fun translated L htr => ?_, fun translated L htr => ?_⟩
  · have key : Callback_compileShader this drv args
        = (⟨[Effect.gl (GLCall.glGetShaderiv shader.webgl_id GL_SHADER_TYPE)], Result.U⟩,
            some { shader with is_valid := false, log := L }) := by
      unfold Callback_compileShader
      rw [withValidObject_of_valid this _ _ _ _ shader h0 hctx hdel]
      simp [htype, htr]
    rw [key]
    refine ⟨rfl, rfl, fun drv2 args2 h2 => ⟨fun h1 => ?_, ?_⟩⟩
    · exact Callback_getShaderParameter_compile_status this drv2 args2
        { shader with is_valid := false, log := L } h2 hctx hdel h1
    · exact Callback_getShaderInfoLog_of_invalid this drv2 args2
        { shader with is_valid := false, log := L } h2 hctx hdel rfl
  · have key : Callback_compileShader this drv args
        = (⟨[Effect.gl (GLCall.glGetShaderiv shader.webgl_id GL_SHADER_TYPE),
              Effect.gl (GLCall.glShaderSource shader.webgl_id 1 translated),
              Effect.gl (GLCall.glCompileShader shader.webgl_id)], Result.U⟩,
            some { shader with is_valid := true, log := L }) := by
      unfold Callback_compileShader
      rw [withValidObject_of_valid this _ _ _ _ shader h0 hctx hdel]
      simp [htype, htr]
    rw [key]
    exact ⟨rfl, rfl⟩

/-- Instance of C14 in a context whose translator rejects `"bad"`: compiling a
shader with that source makes no `glShaderSource` / `glCompileShader` call and
leaves the flag false and the translator log on the shader; compiling a shader
with another source sends the translated text and the compile call. -/
theorem compileShader_translates_before_compiling_witness :
    ((Callback_compileShader sampleContext sampleDriver
        (mkArgs [shaderArg ⟨⟨3, 1, false⟩, "bad", true, ""⟩])).1
      = ⟨[Effect.gl (GLCall.glGetShaderiv 3 GL_SHADER_TYPE)], Result.U⟩
      ∧ (Callback_compileShader sampleContext sampleDriver
        (mkArgs [shaderArg ⟨⟨3, 1, false⟩, "bad", true, ""⟩])).2
      = some ⟨⟨3, 1, false⟩, "bad", false, "ERROR: 0:1: syntax error"⟩)
    ∧ ((Callback_compileShader sampleContext sampleDriver
        (mkArgs [shaderArg ⟨⟨3, 1, false⟩, "attribute vec4 p;", false, ""⟩])).1
      = ⟨[Effect.gl (GLCall.glGetShaderiv 3 GL_SHADER_TYPE),
          Effect.gl (GLCall.glShaderSource 3 1 "#version 120 attribute vec4 p;"),
          Effect.gl (GLCall.glCompileShader 3)], Result.U⟩) :=
  ⟨⟨((compileShader_translates_before_compiling sampleContext sampleDriver
        (mkArgs [shaderArg ⟨⟨3, 1, false⟩, "bad", true, ""⟩])
        ⟨⟨3, 1, false⟩, "bad", true, ""⟩ rfl rfl rfl (by decide)).1
        "" "ERROR: 0:1: syntax error" rfl).1,
    ((compileShader_translates_before_compiling sampleContext sampleDriver
        (mkArgs [shaderArg ⟨⟨3, 1, false⟩, "bad", true, ""⟩])
        ⟨⟨3, 1, false⟩, "bad", true, ""⟩ rfl rfl rfl (by decide)).1
        "" "ERROR: 0:1: syntax error" rfl).2.1⟩,
   ((compileShader_translates_before_compiling sampleContext sampleDriver
        (mkArgs [shaderArg ⟨⟨3, 1, false⟩, "attribute vec4 p;", false, ""⟩])
        ⟨⟨3, 1, false⟩, "attribute vec4 p;", false, ""⟩ rfl rfl rfl (by decide)).2
        "#version 120 attribute vec4 p;" "" (by decide)).1⟩

/-! ## C15 -/

/-- C15, refuted as stated. For a non-null valid shader whose cached validity
flag is true and whose cached translator log is `"translator log"`,
`getShaderInfoLog` queries the driver twice and returns the driver's info log
`"driver log"`, not the cached log. -/
theorem getShaderInfoLog_of_valid_shader_queries_driver :
    Callback_getShaderInfoLog sampleContext sampleDriver
        (mkArgs [shaderArg ⟨⟨3, 1, false⟩, "attribute vec4 p;", true, "translator log"⟩])
      = ⟨[Effect.gl (GLCall.glGetShaderiv 3 GL_INFO_LOG_LENGTH),
          Effect.gl (GLCall.glGetShaderInfoLog 3 10)], Result.string "driver log"⟩
    ∧ (Callback_getShaderInfoLog sampleContext sampleDriver
        (mkArgs [shaderArg ⟨⟨3, 1, false⟩, "attribute vec4 p;", true, "translator log"⟩])).calls
      ≠ []
    ∧ (Callback_getShaderInfoLog sampleContext sampleDriver
        (mkArgs [shaderArg ⟨⟨3, 1, false⟩, "attribute vec4 p;", true, "translator log"⟩])).result
      ≠ Result.string "translator log" := by
  decide

/-- C15, amended. For every non-null, valid shader `s`:
`getShaderParameter(s, COMPILE_STATUS)` returns the validity flag cached on `s`
without any native call, whether the flag is true or false; `getShaderInfoLog(s)`
returns the translator log cached on `s` without any native call when the cached
flag is false; when the cached flag is true it queries the driver for the length
of the info log and returns the driver's log (the empty string for length 0). -/
theorem shader_status_and_log_from_cache (this : WebGLRenderingContext) (drv : Driver)
    (args : Arguments) (shader : WebGLShader)
    (h0 : (args 0).NativeFromV8_WebGLShader = some (some shader))
    (hctx : shader.context = this.id) (hdel : shader.deleted = false) :
    ((args 1).FromV8_uint32 = some GL_COMPILE_STATUS →
      Callback_getShaderParameter this drv args = ⟨[], Result.boolean shader.is_valid⟩) ∧
    (shader.is_valid = false →
      Callback_getShaderInfoLog this drv args = ⟨[], Result.string shader.log⟩) ∧
    (shader.is_valid = true →
      Callback_getShaderInfoLog this drv args =
        if drv.glGetShaderiv shader.webgl_id GL_INFO_LOG_LENGTH = 0 then
          ⟨[Effect.gl (GLCall.glGetShaderiv shader.webgl_id GL_INFO_LOG_LENGTH)],
            Result.string ""⟩
        else
          ⟨[Effect.gl (GLCall.glGetShaderiv shader.webgl_id GL_INFO_LOG_LENGTH),
              Effect.gl (GLCall.glGetShaderInfoLog shader.webgl_id
                (drv.glGetShaderiv shader.webgl_id GL_INFO_LOG_LENGTH))],
            Result.string (drv.glGetShaderInfoLog shader.webgl_id
              (drv.glGetShaderiv shader.webgl_id GL_INFO_LOG_LENGTH))⟩) :=
  ⟨Callback_getShaderParameter_compile_status this drv args shader h0 hctx hdel,
   Callback_getShaderInfoLog_of_invalid this drv args shader h0 hctx hdel,
   Callback_getShaderInfoLog_of_valid this drv args shader h0 hctx hdel⟩

/-- Instance of amended C15: on a shader whose cached flag is false the log comes
from the cache and the status is false, with no native call. -/
theorem shader_status_and_log_from_cache_witness :
    Callback_getShaderParameter sampleContext sampleDriver
        (mkArgs [shaderArg ⟨⟨3, 1, false⟩, "bad", false, "ERROR: 0:1: syntax error"⟩,
          uint32Arg GL_COMPILE_STATUS])
      = ⟨[], Result.boolean false⟩
    ∧ Callback_getShaderInfoLog sampleContext sampleDriver
        (mkArgs [shaderArg ⟨⟨3, 1, false⟩, "bad", false, "ERROR: 0:1: syntax error"⟩,
          uint32Arg GL_COMPILE_STATUS])
      = ⟨[], Result.string "ERROR: 0:1: syntax error"⟩ :=
  ⟨(shader_status_and_log_from_cache sampleContext sampleDriver
      (mkArgs [shaderArg ⟨⟨3, 1, false⟩, "bad", false, "ERROR: 0:1: syntax error"⟩,
        uint32Arg GL_COMPILE_STATUS])
      ⟨⟨3, 1, false⟩, "bad", false, "ERROR: 0:1: syntax error"⟩ rfl rfl rfl).1 rfl,
   (shader_status_and_log_from_cache sampleContext sampleDriver
      (mkArgs [shaderArg ⟨⟨3, 1, false⟩, "bad", false, "ERROR: 0:1: syntax error"⟩,
        uint32Arg GL_COMPILE_STATUS])
      ⟨⟨3, 1, false⟩, "bad", false, "ERROR: 0:1: syntax error"⟩ rfl rfl rfl).2.1 rfl⟩

/-! ## C16 -/

/-- C16, evaluated where the code departs from it. The driver reports the array
uniform `colors` with size 4 under the name `"colors"`, which does not end with
`"[0]"`. The handler stores `[`, `0`, `]` at positions `name_length - 3` to
`name_length - 1`, over the last three characters of the name, so the
ActiveInfo is named `"col[0]"` and not `"colors[0]"`. -/
theorem getActiveUniform_overwrites_name_tail :
    Callback_getActiveUniform (emptyContext 1) colorsDriver
        (mkArgs [programArg ⟨⟨3, 1, false⟩⟩, uint32Arg 0])
      = some ⟨[Effect.gl (GLCall.glGetProgramiv 3 GL_ACTIVE_UNIFORM_MAX_LENGTH),
          Effect.gl (GLCall.glGetActiveUniform 3 0 16)],
          Result.activeInfo 4 GL_FLOAT "col[0]"⟩
    ∧ Callback_getActiveUniform (emptyContext 1) colorsDriver
        (mkArgs [programArg ⟨⟨3, 1, false⟩⟩, uint32Arg 0])
      ≠ some ⟨[Effect.gl (GLCall.glGetProgramiv 3 GL_ACTIVE_UNIFORM_MAX_LENGTH),
          Effect.gl (GLCall.glGetActiveUniform 3 0 16)],
          Result.activeInfo 4 GL_FLOAT "colors[0]"⟩ := by
  decide

/-! ## C17 -/

/-- With an index and an array argument that decode, the vertex-attribute
helper's outcome is what `InvokeGL` does on the array's length and data. -/
theorem VertexAttribHelper.Process_of_index_and_array {α : Type} (view : V8Value → ArrayValue α)
    (gl_callback : Nat → List α → GLCall) (required_array_length : Nat)
    (args : Arguments) (index : Int) (v : List α)
    (hidx : (args 0).FromV8_int32 = some index)
    (harr : view (args 1) = ArrayValue.array (some v)
      ∨ view (args 1) = ArrayValue.typedArray (some v)) :
    VertexAttribHelper.Process view gl_callback required_array_length args
      = ⟨VertexAttribHelper.InvokeGL gl_callback required_array_length index
          (v.length % 4294967296) v, Result.U⟩ := by
  unfold VertexAttribHelper.Process UVAHelper.Process VertexAttribHelper.ProcessArgs
  rcases harr with h | h <;> simp [hidx, h]

/-- The contract of `VertexAttribHelper` for any required length. -/
theorem VertexAttribHelper.length_contract {α : Type} (view : V8Value → ArrayValue α)
    (gl_callback : Nat → List α → GLCall) (required_array_length : Nat)
    (args : Arguments) (index : Int) (v : List α)
    (hidx : (args 0).FromV8_int32 = some index)
    (harr : view (args 1) = ArrayValue.array (some v)
      ∨ view (args 1) = ArrayValue.typedArray (some v))
    (hlen : v.length < 4294967296) :
    ((VertexAttribHelper.Process view gl_callback required_array_length args).calls ≠ []
        ↔ required_array_length ≤ v.length) ∧
    (required_array_length ≤ v.length →
      VertexAttribHelper.Process view gl_callback required_array_length args
        = ⟨[Effect.gl (gl_callback (toU32 index) v)], Result.U⟩) ∧
    (v.length < required_array_length →
      VertexAttribHelper.Process view gl_callback required_array_length args
        = ⟨[Effect.set_gl_error GL_INVALID_VALUE], Result.U⟩) := by
  rw [VertexAttribHelper.Process_of_index_and_array view gl_callback required_array_length args
    index v hidx harr, Nat.mod_eq_of_lt hlen]
  unfold VertexAttribHelper.InvokeGL
  by_cases hc : v.length < required_array_length
  · rw [if_pos hc]
    exact ⟨⟨fun h => absurd rfl h, fun h => absurd hc (not_lt.2 h)⟩,
      fun h => absurd hc (not_lt.2 h), fun _ => rfl⟩
  · rw [if_neg hc]
    exact ⟨⟨fun _ => not_lt.1 hc, fun _ => by simp [Outcome.calls, nativeCalls]⟩,
      fun _ => rfl, fun h => absurd h hc⟩

/-- C17, refuted as stated. `vertexAttrib1fv(0, [a, b])` has an array of length
2, not 1, and the native `glVertexAttrib1fv` call is issued all the same, with
no error posted. -/
theorem vertexAttrib1fv_accepts_longer_array :
    Callback_vertexAttrib1fv (mkArgs [int32Arg 0,
        { floats := ArrayValue.array (some [⟨1⟩, ⟨2⟩]) }])
      = ⟨[Effect.gl (GLCall.glVertexAttrib1fv 0 [⟨1⟩, ⟨2⟩])], Result.U⟩
    ∧ (Callback_vertexAttrib1fv (mkArgs [int32Arg 0,
        { floats := ArrayValue.array (some [⟨1⟩, ⟨2⟩]) }])).calls ≠ []
    ∧ (Callback_vertexAttrib1fv (mkArgs [int32Arg 0,
        { floats := ArrayValue.array (some [⟨1⟩, ⟨2⟩]) }])).errors = [] := by
  decide

/-- C17, amended. For each `vertexAttribNfv` entry point (N in 1, 2, 3, 4), an
index that decodes and an array argument that decodes to `v` (fewer than 2^32
elements): the native call is issued iff `|v| ≥ N`; it then is the only effect
and receives the index and the array data; for every shorter array the only
effect is the post of INVALID_VALUE. -/
theorem vertexAttribfv_native_call_iff_long_enough (e : VertexAttribEntry)
    (he : e ∈ vertexAttribfv_entry_points) (args : Arguments) (index : Int)
    (v : List GLfloat)
    (hidx : (args 0).FromV8_int32 = some index)
    (harr : (args 1).floats = ArrayValue.array (some v)
      ∨ (args 1).floats = ArrayValue.typedArray (some v))
    (hlen : v.length < 4294967296) :
    (e.N = 1 ∨ e.N = 2 ∨ e.N = 3 ∨ e.N = 4) ∧
    ((e.Callback args).calls ≠ [] ↔ e.N ≤ v.length) ∧
    (e.N ≤ v.length →
      e.Callback args = ⟨[Effect.gl (e.native (toU32 index) v)], Result.U⟩) ∧
    (v.length < e.N →
      e.Callback args = ⟨[Effect.set_gl_error GL_INVALID_VALUE], Result.U⟩) := by
  simp only [vertexAttribfv_entry_points, List.mem_cons, List.mem_singleton,
    List.not_mem_nil, or_false] at he
  rcases he with rfl | rfl | rfl | rfl
  · exact ⟨Or.inl rfl,
      VertexAttribHelper.length_contract V8Value.floats _ _ args index v hidx harr hlen⟩
  · exact ⟨Or.inr (Or.inl rfl),
      VertexAttribHelper.length_contract V8Value.floats _ _ args index v hidx harr hlen⟩
  · exact ⟨Or.inr (Or.inr (Or.inl rfl)),
      VertexAttribHelper.length_contract V8Value.floats _ _ args index v hidx harr hlen⟩
  · exact ⟨Or.inr (Or.inr (Or.inr rfl)),
      VertexAttribHelper.length_contract V8Value.floats _ _ args index v hidx harr hlen⟩

/-- Instance of amended C17: `vertexAttrib3fv(2, [a, b])` is too short and is
rejected with INVALID_VALUE. -/
theorem vertexAttribfv_native_call_iff_long_enough_witness :
    Callback_vertexAttrib3fv (mkArgs [int32Arg 2,
        { floats := ArrayValue.array (some [⟨1⟩, ⟨2⟩]) }])
      = ⟨[Effect.set_gl_error GL_INVALID_VALUE], Result.U⟩ :=
  (vertexAttribfv_native_call_iff_long_enough
    ⟨3, GLCall.glVertexAttrib3fv, Callback_vertexAttrib3fv⟩
    (List.mem_cons_of_mem _ (List.mem_cons_of_mem _ (List.mem_cons_self _ _)))
    (mkArgs [int32Arg 2, { floats := ArrayValue.array (some [⟨1⟩, ⟨2⟩]) }])
    2 [⟨1⟩, ⟨2⟩] rfl (Or.inl rfl) (by decide)).2.2.2 (by decide)

/-! ## C18 -/

/-- The labels of the switch of `getParameter`, grouped by branch. -/
theorem getParameter_handled_iff (pname : Nat) :
    pname ∈ getParameter_handled_pnames ↔
      ((pname ∈ getParameter_enum_pnames)
        ∨ (pname ∈ getParameter_float2_pnames)
        ∨ (pname ∈ getParameter_float4_pnames)
        ∨ (pname = GL_MAX_VIEWPORT_DIMS)
        ∨ (pname ∈ getParameter_int4_pnames)
        ∨ (pname ∈ getParameter_int_pnames)
        ∨ (pname = GL_COLOR_WRITEMASK)
        ∨ (pname ∈ getParameter_boolean_pnames)
        ∨ (pname ∈ getParameter_float_pnames)
        ∨ (pname = GL_ARRAY_BUFFER_BINDING ∨ pname = GL_ELEMENT_ARRAY_BUFFER_BINDING)
        ∨ (pname = GL_COMPRESSED_TEXTURE_FORMATS)
        ∨ (pname = GL_CURRENT_PROGRAM)
        ∨ (pname = GL_FRAMEBUFFER_BINDING ∨ pname = GL_RENDERBUFFER_BINDING)
        ∨ (pname = GL_RENDERER)
        ∨ (pname = GL_SHADING_LANGUAGE_VERSION)
        ∨ (pname = GL_TEXTURE_BINDING_2D ∨ pname = GL_TEXTURE_BINDING_CUBE_MAP)
        ∨ (pname = GL_VENDOR)
        ∨ (pname = GL_VERSION)) := by
  simp only [getParameter_handled_pnames, List.mem_append, List.mem_cons,
    List.mem_singleton, List.not_mem_nil, or_false, or_assoc]

/-- C18. For every pname that decodes: if it is not one of the labels of the
switch of `getParameter`, the only effect is the post of INVALID_ENUM, the
result is undefined and no native getter call is issued; if it is one of the
labels, no error is posted. -/
theorem getParameter_unknown_pname_rejected (this : WebGLRenderingContext)
    (drv : Driver) (args : Arguments) (pname : Nat)
    (h0 : (args 0).FromV8_uint32 = some pname) :
    (pname ∉ getParameter_handled_pnames →
      Callback_getParameter this drv args
          = ⟨[Effect.set_gl_error GL_INVALID_ENUM], Result.U⟩
        ∧ (Callback_getParameter this drv args).calls = []) ∧
    (pname ∈ getParameter_handled_pnames →
      (Callback_getParameter this drv args).errors = []) := by
  rw [getParameter_handled_iff]
  unfold Callback_getParameter
  simp only [h0]
  by_cases c1 : pname ∈ getParameter_enum_pnames
  · rw [if_pos c1]
    exact ⟨fun hn => absurd (Or.inl c1) hn, fun _ => rfl⟩
  rw [if_neg c1]
  by_cases c2 : pname ∈ getParameter_float2_pnames
  · rw [if_pos c2]
    exact ⟨fun hn => absurd (Or.inr (Or.inl c2)) hn, fun _ => rfl⟩
  rw [if_neg c2]
  by_cases c3 : pname ∈ getParameter_float4_pnames
  · rw [if_pos c3]
    exact ⟨fun hn => absurd (Or.inr (Or.inr (Or.inl c3))) hn, fun _ => rfl⟩
  rw [if_neg c3]
  by_cases c4 : pname = GL_MAX_VIEWPORT_DIMS
  · rw [if_pos c4]
    exact ⟨fun hn => absurd (Or.inr (Or.inr (Or.inr (Or.inl c4)))) hn, fun _ => rfl⟩
  rw [if_neg c4]
  by_cases c5 : pname ∈ getParameter_int4_pnames
  · rw [if_pos c5]
    exact ⟨fun hn => absurd (Or.inr (Or.inr (Or.inr (Or.inr (Or.inl c5))))) hn, fun _ => rfl⟩
  rw [if_neg c5]
  by_cases c6 : pname ∈ getParameter_int_pnames
  · rw [if_pos c6]
    exact ⟨fun hn => absurd (Or.inr (Or.inr (Or.inr (Or.inr (Or.inr (Or.inl c6)))))) hn, fun _ => rfl⟩
  rw [if_neg c6]
  by_cases c7 : pname = GL_COLOR_WRITEMASK
  · rw [if_pos c7]
    exact ⟨fun hn => absurd (Or.inr (Or.inr (Or.inr (Or.inr (Or.inr (Or.inr (Or.inl c7))))))) hn, fun _ => rfl⟩
  rw [if_neg c7]
  by_cases c8 : pname ∈ getParameter_boolean_pnames
  · rw [if_pos c8]
    exact ⟨fun hn => absurd (Or.inr (Or.inr (Or.inr (Or.inr (Or.inr (Or.inr (Or.inr (Or.inl c8)))))))) hn, fun _ => rfl⟩
  rw [if_neg c8]
  by_cases c9 : pname ∈ getParameter_float_pnames
  · rw [if_pos c9]
    exact ⟨fun hn => absurd (Or.inr (Or.inr (Or.inr (Or.inr (Or.inr (Or.inr (Or.inr (Or.inr (Or.inl c9))))))))) hn, fun _ => rfl⟩
  rw [if_neg c9]
  by_cases c10 : pname = GL_ARRAY_BUFFER_BINDING ∨ pname = GL_ELEMENT_ARRAY_BUFFER_BINDING
  · rw [if_pos c10]
    exact ⟨fun hn => absurd (Or.inr (Or.inr (Or.inr (Or.inr (Or.inr (Or.inr (Or.inr (Or.inr (Or.inr (Or.inl c10)))))))))) hn, fun _ => rfl⟩
  rw [if_neg c10]
  by_cases c11 : pname = GL_COMPRESSED_TEXTURE_FORMATS
  · rw [if_pos c11]
    exact ⟨fun hn => absurd (Or.inr (Or.inr (Or.inr (Or.inr (Or.inr (Or.inr (Or.inr (Or.inr (Or.inr (Or.inr (Or.inl c11))))))))))) hn, fun _ => rfl⟩
  rw [if_neg c11]
  by_cases c12 : pname = GL_CURRENT_PROGRAM
  · rw [if_pos c12]
    exact ⟨fun hn => absurd (Or.inr (Or.inr (Or.inr (Or.inr (Or.inr (Or.inr (Or.inr (Or.inr (Or.inr (Or.inr (Or.inr (Or.inl c12)))))))))))) hn, fun _ => rfl⟩
  rw [if_neg c12]
  by_cases c13 : pname = GL_FRAMEBUFFER_BINDING ∨ pname = GL_RENDERBUFFER_BINDING
  · rw [if_pos c13]
    exact ⟨fun hn => absurd (Or.inr (Or.inr (Or.inr (Or.inr (Or.inr (Or.inr (Or.inr (Or.inr (Or.inr (Or.inr (Or.inr (Or.inr (Or.inl c13))))))))))))) hn, fun _ => rfl⟩
  rw [if_neg c13]
  by_cases c14 : pname = GL_RENDERER
  · rw [if_pos c14]
    exact ⟨fun hn => absurd (Or.inr (Or.inr (Or.inr (Or.inr (Or.inr (Or.inr (Or.inr (Or.inr (Or.inr (Or.inr (Or.inr (Or.inr (Or.inr (Or.inl c14)))))))))))))) hn, fun _ => rfl⟩
  rw [if_neg c14]
  by_cases c15 : pname = GL_SHADING_LANGUAGE_VERSION
  · rw [if_pos c15]
    exact ⟨fun hn => absurd (Or.inr (Or.inr (Or.inr (Or.inr (Or.inr (Or.inr (Or.inr (Or.inr (Or.inr (Or.inr (Or.inr (Or.inr (Or.inr (Or.inr (Or.inl c15))))))))))))))) hn, fun _ => rfl⟩
  rw [if_neg c15]
  by_cases c16 : pname = GL_TEXTURE_BINDING_2D ∨ pname = GL_TEXTURE_BINDING_CUBE_MAP
  · rw [if_pos c16]
    exact ⟨fun hn => absurd (Or.inr (Or.inr (Or.inr (Or.inr (Or.inr (Or.inr (Or.inr (Or.inr (Or.inr (Or.inr (Or.inr (Or.inr (Or.inr (Or.inr (Or.inr (Or.inl c16)))))))))))))))) hn, fun _ => rfl⟩
  rw [if_neg c16]
  by_cases c17 : pname = GL_VENDOR
  · rw [if_pos c17]
    exact ⟨fun hn => absurd (Or.inr (Or.inr (Or.inr (Or.inr (Or.inr (Or.inr (Or.inr (Or.inr (Or.inr (Or.inr (Or.inr (Or.inr (Or.inr (Or.inr (Or.inr (Or.inr (Or.inl c17))))))))))))))))) hn, fun _ => rfl⟩
  rw [if_neg c17]
  by_cases c18 : pname = GL_VERSION
  · rw [if_pos c18]
    exact ⟨fun hn => absurd (Or.inr (Or.inr (Or.inr (Or.inr (Or.inr (Or.inr (Or.inr (Or.inr (Or.inr (Or.inr (Or.inr (Or.inr (Or.inr (Or.inr (Or.inr (Or.inr (Or.inr c18))))))))))))))))) hn, fun _ => rfl⟩
  rw [if_neg c18]
  refine ⟨fun _ => ⟨rfl, rfl⟩, fun hy => ?_⟩
  rcases hy with h | h | h | h | h | h | h | h | h | h | h | h | h | h | h | h | h | h
  · exact absurd h c1
  · exact absurd h c2
  · exact absurd h c3
  · exact absurd h c4
  · exact absurd h c5
  · exact absurd h c6
  · exact absurd h c7
  · exact absurd h c8
  · exact absurd h c9
  · exact absurd h c10
  · exact absurd h c11
  · exact absurd h c12
  · exact absurd h c13
  · exact absurd h c14
  · exact absurd h c15
  · exact absurd h c16
  · exact absurd h c17
  · exact absurd h c18

/-- Instance of C18: `getParameter(0x1234)` posts INVALID_ENUM and returns
undefined. -/
theorem getParameter_unknown_pname_rejected_witness :
    Callback_getParameter (emptyContext 1) silentDriver (mkArgs [uint32Arg 0x1234])
      = ⟨[Effect.set_gl_error GL_INVALID_ENUM], Result.U⟩ :=
  ((getParameter_unknown_pname_rejected (emptyContext 1) silentDriver
    (mkArgs [uint32Arg 0x1234]) 0x1234 rfl).1 (by decide)).1

/-! ## C19 -/

/-- The binding queries of `getParameter` other than RENDERBUFFER_BINDING return
the wrapper of the matching variant registered under the id the driver reports,
or null: a Buffer for the two buffer bindings, a Program for CURRENT_PROGRAM, a
Framebuffer for FRAMEBUFFER_BINDING and a Texture for the two texture bindings. -/
theorem getParameter_binding_queries (this : WebGLRenderingContext) (drv : Driver) :
    Callback_getParameter this drv (mkArgs [uint32Arg GL_ARRAY_BUFFER_BINDING])
      = ⟨[], ToV8OrNull Wrapper.buffer
          (this.IdToBuffer (drv.GetIntegerv GL_ARRAY_BUFFER_BINDING 0))⟩
    ∧ Callback_getParameter this drv (mkArgs [uint32Arg GL_ELEMENT_ARRAY_BUFFER_BINDING])
      = ⟨[], ToV8OrNull Wrapper.buffer
          (this.IdToBuffer (drv.GetIntegerv GL_ELEMENT_ARRAY_BUFFER_BINDING 0))⟩
    ∧ Callback_getParameter this drv (mkArgs [uint32Arg GL_CURRENT_PROGRAM])
      = ⟨[], ToV8OrNull Wrapper.program
          (this.IdToProgram (drv.GetIntegerv GL_CURRENT_PROGRAM 0))⟩
    ∧ Callback_getParameter this drv (mkArgs [uint32Arg GL_FRAMEBUFFER_BINDING])
      = ⟨[], ToV8OrNull Wrapper.framebuffer
          (this.IdToFramebuffer (drv.GetIntegerv GL_FRAMEBUFFER_BINDING 0))⟩
    ∧ Callback_getParameter this drv (mkArgs [uint32Arg GL_TEXTURE_BINDING_2D])
      = ⟨[], ToV8OrNull Wrapper.texture
          (this.IdToTexture (drv.GetIntegerv GL_TEXTURE_BINDING_2D 0))⟩
    ∧ Callback_getParameter this drv (mkArgs [uint32Arg GL_TEXTURE_BINDING_CUBE_MAP])
      = ⟨[], ToV8OrNull Wrapper.texture
          (this.IdToTexture (drv.GetIntegerv GL_TEXTURE_BINDING_CUBE_MAP 0))⟩ :=
  ⟨rfl, rfl, rfl, rfl, rfl, rfl⟩

/-- C19, evaluated where the code departs from it. RENDERBUFFER_BINDING shares the
branch of FRAMEBUFFER_BINDING, so the id the driver reports is looked up with
`IdToFramebuffer`: the result is never a Renderbuffer wrapper. In a context
whose only registered wrapper is the renderbuffer with id 5 and with a driver
reporting 5 as the renderbuffer binding, `getParameter(RENDERBUFFER_BINDING)`
returns null although the renderbuffer registry holds that renderbuffer. -/
theorem getParameter_renderbuffer_binding_uses_framebuffer_registry :
    (∀ (this : WebGLRenderingContext) (drv : Driver),
      Callback_getParameter this drv (mkArgs [uint32Arg GL_RENDERBUFFER_BINDING])
        = ⟨[], ToV8OrNull Wrapper.framebuffer
            (this.IdToFramebuffer (drv.GetIntegerv GL_RENDERBUFFER_BINDING 0))⟩)
    ∧ renderbufferContext.IdToRenderbuffer
        (renderbufferBindingDriver.GetIntegerv GL_RENDERBUFFER_BINDING 0)
      = some ⟨⟨5, 1, false⟩⟩
    ∧ Callback_getParameter renderbufferContext renderbufferBindingDriver
        (mkArgs [uint32Arg GL_RENDERBUFFER_BINDING])
      = ⟨[], Result.null⟩ :=
  ⟨fun _ _ => rfl, by decide, by decide⟩

/-! ## C20 -/

/-- The handler `getProgramParameter` on a valid program and a pname that
decodes. -/
theorem Callback_getProgramParameter_of_valid (this : WebGLRenderingContext)
    (drv : Driver) (args : Arguments) (program : WebGLProgram) (pname : Nat)
    (h0 : (args 0).NativeFromV8_WebGLProgram = some (some program))
    (hctx : program.context = this.id) (hdel : program.deleted = false)
    (h1 : (args 1).FromV8_uint32 = some pname) :
    Callback_getProgramParameter this drv args =
      if pname = GL_DELETE_STATUS ∨ pname = GL_VALIDATE_STATUS ∨ pname = GL_LINK_STATUS then
        ⟨[Effect.gl (GLCall.glGetProgramiv program.webgl_id pname)],
          Result.boolean (drv.glGetProgramiv program.webgl_id pname != 0)⟩
      else if pname = GL_ATTACHED_SHADERS ∨ pname = GL_ACTIVE_ATTRIBUTES
          ∨ pname = GL_ACTIVE_UNIFORMS then
        ⟨[Effect.gl (GLCall.glGetProgramiv program.webgl_id pname)],
          Result.int32 (drv.glGetProgramiv program.webgl_id pname)⟩
      else
        ⟨[Effect.gl (GLCall.glGetProgramiv program.webgl_id pname),
            Effect.set_gl_error GL_INVALID_ENUM], Result.null⟩ := by
  unfold Callback_getProgramParameter
  rw [withValidObject_of_valid this _ _ _ _ program h0 hctx hdel]
  simp only [h1, List.nil_append, List.singleton_append]

/-- C20, evaluated where the code departs from it. `getProgramParameter(program,
0x1234)` on a valid program and `getRenderbufferParameter(RENDERBUFFER, 0x1234)`
both post INVALID_ENUM and return null, but each has first issued its driver
query with the rejected pname, so a native call is made. -/
theorem parameter_getters_query_driver_before_pname_check :
    Callback_getProgramParameter (emptyContext 1) silentDriver
        (mkArgs [programArg ⟨⟨3, 1, false⟩⟩, uint32Arg 0x1234])
      = ⟨[Effect.gl (GLCall.glGetProgramiv 3 0x1234),
          Effect.set_gl_error GL_INVALID_ENUM], Result.null⟩
    ∧ (Callback_getProgramParameter (emptyContext 1) silentDriver
        (mkArgs [programArg ⟨⟨3, 1, false⟩⟩, uint32Arg 0x1234])).calls
      = [GLCall.glGetProgramiv 3 0x1234]
    ∧ Callback_getRenderbufferParameter silentDriver
        (mkArgs [uint32Arg GL_RENDERBUFFER, uint32Arg 0x1234])
      = ⟨[Effect.gl (GLCall.glGetRenderbufferParameteriv GL_RENDERBUFFER 0x1234),
          Effect.set_gl_error GL_INVALID_ENUM], Result.null⟩
    ∧ (Callback_getRenderbufferParameter silentDriver
        (mkArgs [uint32Arg GL_RENDERBUFFER, uint32Arg 0x1234])).calls
      = [GLCall.glGetRenderbufferParameteriv GL_RENDERBUFFER 0x1234] := by
  decide

/-- The two getters on a rejected pname, in general: for every non-null valid
program and every pname outside DELETE_STATUS, VALIDATE_STATUS, LINK_STATUS,
ATTACHED_SHADERS, ACTIVE_ATTRIBUTES, ACTIVE_UNIFORMS, `getProgramParameter`
issues `glGetProgramiv(program, pname)`, then posts INVALID_ENUM and returns
null; `getRenderbufferParameter(RENDERBUFFER, pname)` issues
`glGetRenderbufferParameteriv(RENDERBUFFER, pname)`, then posts INVALID_ENUM and
returns null, for every pname outside its nine accepted names. -/
theorem parameter_getters_reject_unknown_pname_after_query :
    (∀ (this : WebGLRenderingContext) (drv : Driver) (args : Arguments)
        (program : WebGLProgram) (pname : Nat),
      (args 0).NativeFromV8_WebGLProgram = some (some program) →
      program.context = this.id → program.deleted = false →
      (args 1).FromV8_uint32 = some pname →
      ¬ (pname = GL_DELETE_STATUS ∨ pname = GL_VALIDATE_STATUS ∨ pname = GL_LINK_STATUS
        ∨ pname = GL_ATTACHED_SHADERS ∨ pname = GL_ACTIVE_ATTRIBUTES
        ∨ pname = GL_ACTIVE_UNIFORMS) →
      Callback_getProgramParameter this drv args
        = ⟨[Effect.gl (GLCall.glGetProgramiv program.webgl_id pname),
            Effect.set_gl_error GL_INVALID_ENUM], Result.null⟩) ∧
    (∀ (drv : Driver) (args : Arguments) (pname : Nat),
      (args 0).FromV8_uint32 = some GL_RENDERBUFFER →
      (args 1).FromV8_uint32 = some pname →
      ¬ (pname = GL_RENDERBUFFER_INTERNAL_FORMAT ∨ pname = GL_RENDERBUFFER_WIDTH
        ∨ pname = GL_RENDERBUFFER_HEIGHT ∨ pname = GL_RENDERBUFFER_RED_SIZE
        ∨ pname = GL_RENDERBUFFER_GREEN_SIZE ∨ pname = GL_RENDERBUFFER_BLUE_SIZE
        ∨ pname = GL_RENDERBUFFER_ALPHA_SIZE ∨ pname = GL_RENDERBUFFER_DEPTH_SIZE
        ∨ pname = GL_RENDERBUFFER_STENCIL_SIZE) →
      Callback_getRenderbufferParameter drv args
        = ⟨[Effect.gl (GLCall.glGetRenderbufferParameteriv GL_RENDERBUFFER pname),
            Effect.set_gl_error GL_INVALID_ENUM], Result.null⟩) := by
  refine ⟨fun this drv args program pname h0 hctx hdel h1 hn => ?_,
    fun drv args pname h0 h1 hn => ?_⟩
  · rw [Callback_getProgramParameter_of_valid this drv args program pname h0 hctx hdel h1,
      if_neg (fun h => hn (by tauto)), if_neg (fun h => hn (by tauto))]
  · unfold Callback_getRenderbufferParameter
    simp only [h0, h1, ne_eq, not_true_eq_false, if_false, List.singleton_append]
    rw [if_neg (fun h => hn (Or.inl h)), if_neg (fun h => hn (Or.inr h))]

/-! ## getUniform: shared lemmas -/

/-- The table of `UniformTypeToBaseLength`, entry by entry. -/
theorem UniformTypeToBaseLength_entries :
    UniformTypeToBaseLength GL_BOOL = some (GL_BOOL, 1)
      ∧ UniformTypeToBaseLength GL_BOOL_VEC2 = some (GL_BOOL, 2)
      ∧ UniformTypeToBaseLength GL_BOOL_VEC3 = some (GL_BOOL, 3)
      ∧ UniformTypeToBaseLength GL_BOOL_VEC4 = some (GL_BOOL, 4)
      ∧ UniformTypeToBaseLength GL_INT = some (GL_INT, 1)
      ∧ UniformTypeToBaseLength GL_INT_VEC2 = some (GL_INT, 2)
      ∧ UniformTypeToBaseLength GL_INT_VEC3 = some (GL_INT, 3)
      ∧ UniformTypeToBaseLength GL_INT_VEC4 = some (GL_INT, 4)
      ∧ UniformTypeToBaseLength GL_FLOAT = some (GL_FLOAT, 1)
      ∧ UniformTypeToBaseLength GL_FLOAT_VEC2 = some (GL_FLOAT, 2)
      ∧ UniformTypeToBaseLength GL_FLOAT_VEC3 = some (GL_FLOAT, 3)
      ∧ UniformTypeToBaseLength GL_FLOAT_VEC4 = some (GL_FLOAT, 4)
      ∧ UniformTypeToBaseLength GL_FLOAT_MAT2 = some (GL_FLOAT, 4)
      ∧ UniformTypeToBaseLength GL_FLOAT_MAT3 = some (GL_FLOAT, 9)
      ∧ UniformTypeToBaseLength GL_FLOAT_MAT4 = some (GL_FLOAT, 16)
      ∧ UniformTypeToBaseLength GL_SAMPLER_2D = some (GL_INT, 1)
      ∧ UniformTypeToBaseLength GL_SAMPLER_CUBE = some (GL_INT, 1) := by
  decide

/-- The switch of `UniformTypeToBaseLength`, case by case. -/
theorem UniformTypeToBaseLength_cases (uniform_type : Nat) :
    (uniform_type = GL_BOOL ∧ UniformTypeToBaseLength uniform_type = some (GL_BOOL, 1))
    ∨ (uniform_type = GL_BOOL_VEC2 ∧ UniformTypeToBaseLength uniform_type = some (GL_BOOL, 2))
    ∨ (uniform_type = GL_BOOL_VEC3 ∧ UniformTypeToBaseLength uniform_type = some (GL_BOOL, 3))
    ∨ (uniform_type = GL_BOOL_VEC4 ∧ UniformTypeToBaseLength uniform_type = some (GL_BOOL, 4))
    ∨ (uniform_type = GL_INT ∧ UniformTypeToBaseLength uniform_type = some (GL_INT, 1))
    ∨ (uniform_type = GL_INT_VEC2 ∧ UniformTypeToBaseLength uniform_type = some (GL_INT, 2))
    ∨ (uniform_type = GL_INT_VEC3 ∧ UniformTypeToBaseLength uniform_type = some (GL_INT, 3))
    ∨ (uniform_type = GL_INT_VEC4 ∧ UniformTypeToBaseLength uniform_type = some (GL_INT, 4))
    ∨ (uniform_type = GL_FLOAT ∧ UniformTypeToBaseLength uniform_type = some (GL_FLOAT, 1))
    ∨ (uniform_type = GL_FLOAT_VEC2 ∧ UniformTypeToBaseLength uniform_type = some (GL_FLOAT, 2))
    ∨ (uniform_type = GL_FLOAT_VEC3 ∧ UniformTypeToBaseLength uniform_type = some (GL_FLOAT, 3))
    ∨ (uniform_type = GL_FLOAT_VEC4 ∧ UniformTypeToBaseLength uniform_type = some (GL_FLOAT, 4))
    ∨ (uniform_type = GL_FLOAT_MAT2 ∧ UniformTypeToBaseLength uniform_type = some (GL_FLOAT, 4))
    ∨ (uniform_type = GL_FLOAT_MAT3 ∧ UniformTypeToBaseLength uniform_type = some (GL_FLOAT, 9))
    ∨ (uniform_type = GL_FLOAT_MAT4 ∧ UniformTypeToBaseLength uniform_type = some (GL_FLOAT, 16))
    ∨ (uniform_type = GL_SAMPLER_2D ∧ UniformTypeToBaseLength uniform_type = some (GL_INT, 1))
    ∨ (uniform_type = GL_SAMPLER_CUBE ∧ UniformTypeToBaseLength uniform_type = some (GL_INT, 1))
    ∨ (uniform_type ∉ uniform_types ∧ UniformTypeToBaseLength uniform_type = none) := by
  unfold UniformTypeToBaseLength uniform_types
  by_cases h1 : uniform_type = GL_BOOL
  · subst h1; simp
  by_cases h2 : uniform_type = GL_BOOL_VEC2
  · subst h2; simp
  by_cases h3 : uniform_type = GL_BOOL_VEC3
  · subst h3; simp
  by_cases h4 : uniform_type = GL_BOOL_VEC4
  · subst h4; simp
  by_cases h5 : uniform_type = GL_INT
  · subst h5; simp
  by_cases h6 : uniform_type = GL_INT_VEC2
  · subst h6; simp
  by_cases h7 : uniform_type = GL_INT_VEC3
  · subst h7; simp
  by_cases h8 : uniform_type = GL_INT_VEC4
  · subst h8; simp
  by_cases h9 : uniform_type = GL_FLOAT
  · subst h9; simp
  by_cases h10 : uniform_type = GL_FLOAT_VEC2
  · subst h10; simp
  by_cases h11 : uniform_type = GL_FLOAT_VEC3
  · subst h11; simp
  by_cases h12 : uniform_type = GL_FLOAT_VEC4
  · subst h12; simp
  by_cases h13 : uniform_type = GL_FLOAT_MAT2
  · subst h13; simp
  by_cases h14 : uniform_type = GL_FLOAT_MAT3
  · subst h14; simp
  by_cases h15 : uniform_type = GL_FLOAT_MAT4
  · subst h15; simp
  by_cases h16 : uniform_type = GL_SAMPLER_2D
  · subst h16; simp
  by_cases h17 : uniform_type = GL_SAMPLER_CUBE
  · subst h17; simp
  simp [h1, h2, h3, h4, h5, h6, h7, h8, h9, h10, h11, h12, h13, h14, h15, h16, h17]

/-- A success of `UniformTypeToBaseLength` yields one of three base types, with
a count that fits the fixed array of that base type. -/
theorem UniformTypeToBaseLength_some_bounds (uniform_type base length : Nat)
    (h : UniformTypeToBaseLength uniform_type = some (base, length)) :
    (base = GL_FLOAT ∧ 1 ≤ length ∧ length ≤ 16)
    ∨ (base = GL_INT ∧ 1 ≤ length ∧ length ≤ 4)
    ∨ (base = GL_BOOL ∧ 1 ≤ length ∧ length ≤ 4) := by
  rcases UniformTypeToBaseLength_cases uniform_type with
    c | c | c | c | c | c | c | c | c | c | c | c | c | c | c | c | c | c
  all_goals
    obtain ⟨-, hc⟩ := c
    rw [hc] at h
    first
      | (cases h; decide)
      | exact absurd h (by simp)

/-- The switch of `getUniform` on base type FLOAT with a count that fits. -/
theorem getUniform_encode_float (drv : Driver) (program_id : Nat) (location_id : Int)
    (length : Nat) (acc : List Effect) (hl : length ≤ 16) :
    getUniform_encode drv program_id location_id GL_FLOAT length acc =
      if length = 1 then
        Step.done ⟨acc ++ [Effect.gl (GLCall.glGetUniformfv program_id location_id)],
          Result.number (drv.glGetUniformfv program_id location_id 0)⟩
      else
        Step.done ⟨acc ++ [Effect.gl (GLCall.glGetUniformfv program_id location_id)],
          Result.float32Array
            ((List.range length).map (drv.glGetUniformfv program_id location_id))⟩ := by
  unfold getUniform_encode value_prefix
  simp [hl]

/-- The switch of `getUniform` on base type INT with a count that fits. -/
theorem getUniform_encode_int (drv : Driver) (program_id : Nat) (location_id : Int)
    (length : Nat) (acc : List Effect) (hl : length ≤ 4) :
    getUniform_encode drv program_id location_id GL_INT length acc =
      if length = 1 then
        Step.done ⟨acc ++ [Effect.gl (GLCall.glGetUniformiv program_id location_id)],
          Result.int32 (drv.glGetUniformiv program_id location_id 0)⟩
      else
        Step.done ⟨acc ++ [Effect.gl (GLCall.glGetUniformiv program_id location_id)],
          Result.int32Array
            ((List.range length).map (drv.glGetUniformiv program_id location_id))⟩ := by
  unfold getUniform_encode value_prefix
  simp [hl]

/-- The switch of `getUniform` on base type BOOL with a count that fits. -/
theorem getUniform_encode_bool (drv : Driver) (program_id : Nat) (location_id : Int)
    (length : Nat) (acc : List Effect) (hl : length ≤ 4) :
    getUniform_encode drv program_id location_id GL_BOOL length acc =
      if length > 1 then
        Step.done ⟨acc ++ [Effect.gl (GLCall.glGetUniformiv program_id location_id)],
          Result.booleanArray (((List.range length).map
            (drv.glGetUniformiv program_id location_id)).map (fun v => v != 0))⟩
      else
        Step.done ⟨acc ++ [Effect.gl (GLCall.glGetUniformiv program_id location_id)],
          Result.boolean (drv.glGetUniformiv program_id location_id 0 != 0)⟩ := by
  unfold getUniform_encode value_prefix
  simp [hl]

/-- After a success of `UniformTypeToBaseLength` the switch of `getUniform`
returns: a scalar for count 1, an array of exactly `length` elements otherwise. -/
theorem getUniform_encode_of_table (drv : Driver) (program_id : Nat) (location_id : Int)
    (acc : List Effect) (uniform_type base length : Nat)
    (h : UniformTypeToBaseLength uniform_type = some (base, length)) :
    ∃ o : Outcome, getUniform_encode drv program_id location_id base length acc = Step.done o
      ∧ (length = 1 → o.result.isScalar = true)
      ∧ (length ≠ 1 → o.result.elementCount = some length) := by
  rcases UniformTypeToBaseLength_some_bounds uniform_type base length h with
    ⟨rfl, h1, h2⟩ | ⟨rfl, h1, h2⟩ | ⟨rfl, h1, h2⟩
  · rw [getUniform_encode_float drv program_id location_id length acc h2]
    by_cases hl : length = 1
    · rw [if_pos hl]
      exact ⟨_, rfl, fun _ => rfl, fun hn => absurd hl hn⟩
    · rw [if_neg hl]
      exact ⟨_, rfl, fun h1 => absurd h1 hl, fun _ => by simp [Result.elementCount]⟩
  · rw [getUniform_encode_int drv program_id location_id length acc h2]
    by_cases hl : length = 1
    · rw [if_pos hl]
      exact ⟨_, rfl, fun _ => rfl, fun hn => absurd hl hn⟩
    · rw [if_neg hl]
      exact ⟨_, rfl, fun h1 => absurd h1 hl, fun _ => by simp [Result.elementCount]⟩
  · rw [getUniform_encode_bool drv program_id location_id length acc h2]
    by_cases hl : length > 1
    · rw [if_pos hl]
      exact ⟨_, rfl, fun h1 => by omega, fun _ => by simp [Result.elementCount]⟩
    · rw [if_neg hl]
      exact ⟨_, rfl, fun _ => rfl, fun hn => by omega⟩

/-! ## getUniform: the search for the location -/

/-- The inner loop of `getUniform` over indices none of which is reported at
`location_id`: the loop ends without returning. -/
theorem getUniform_elements_of_no_match (drv : Driver) (program_id : Nat)
    (location_id : Int) (uniform_name : List Char) (uniform_size : Int) (uniform_type : Nat)
    (indices : List Nat) :
    ∀ acc : List Effect,
      (∀ j ∈ indices, drv.glGetUniformLocation program_id
        (c_str_of_string (getUniform_element_name uniform_name uniform_size j))
          ≠ location_id) →
      ∃ acc2 : List Effect,
        getUniform_elements drv program_id location_id uniform_name uniform_size
          uniform_type indices acc = Step.next acc2 := by
  induction indices with
  | nil =>
    intro acc _
    exact ⟨acc, rfl⟩
  | cons j rest ih =>
    intro acc h
    rw [getUniform_elements]
    rw [if_neg (h j (List.mem_cons_self _ _))]
    exact ih _ (fun k hk => h k (List.mem_cons_of_mem _ hk))

/-- The inner loop of `getUniform` over the indices `s .. s + n - 1` when
`index` is the first of them reported at `location_id` and the uniform's type is
in the table: the loop returns what the switch over the base type returns. -/
theorem getUniform_elements_of_first_match (drv : Driver) (program_id : Nat)
    (location_id : Int) (uniform_name : List Char) (uniform_size : Int)
    (uniform_type base length index : Nat)
    (htable : UniformTypeToBaseLength uniform_type = some (base, length))
    (hmatch : drv.glGetUniformLocation program_id
      (c_str_of_string (getUniform_element_name uniform_name uniform_size index))
        = location_id) (n : Nat) :
    ∀ (s : Nat) (acc : List Effect), s ≤ index → index < s + n →
      (∀ j : Nat, s ≤ j → j < index → drv.glGetUniformLocation program_id
        (c_str_of_string (getUniform_element_name uniform_name uniform_size j))
          ≠ location_id) →
      ∃ (acc2 : List Effect) (o : Outcome),
        getUniform_elements drv program_id location_id uniform_name uniform_size
          uniform_type (List.range' s n) acc = Step.done o
        ∧ getUniform_encode drv program_id location_id base length acc2 = Step.done o
        ∧ (length = 1 → o.result.isScalar = true)
        ∧ (length ≠ 1 → o.result.elementCount = some length) := by
  induction n with
  | zero =>
    intro s acc hs hlt _
    omega
  | succ n ih =>
    intro s acc hs hlt hfirst
    rw [List.range'_succ, getUniform_elements]
    by_cases he : s = index
    · subst he
      rw [if_pos hmatch]
      simp only [htable]
      obtain ⟨o, ho, h1, h2⟩ := getUniform_encode_of_table drv program_id location_id
        (acc ++ [Effect.gl (GLCall.glGetUniformLocation program_id
          (c_str_of_string (getUniform_element_name uniform_name uniform_size s)))])
        uniform_type base length htable
      rw [ho]
      exact ⟨_, o, rfl, ho, h1, h2⟩
    · rw [if_neg (hfirst s (le_refl s) (by omega))]
      exact ih (s + 1) _ (by omega) (by omega) (fun j hj hlt2 => hfirst j (by omega) hlt2)

/-- The outer loop of `getUniform` over the uniforms `s .. s + n - 1` when
element `index` of uniform `i` is the first lookup reported at `location_id`, no
earlier iteration reads outside the name buffer and the type of uniform `i` is
in the table: the loop returns what the switch over the base type returns. -/
theorem getUniform_uniforms_of_first_match (drv : Driver) (program_id : Nat)
    (location_id : Int) (max_name_length : Int) (i index base length : Nat)
    (hindex : index < (drv.glGetActiveUniform program_id i max_name_length).size.toNat)
    (hnofault : ∀ k : Nat, k < i →
      getUniform_uniform_name drv program_id max_name_length k ≠ none)
    (hfirst : ∀ k j : Nat,
      (k < i ∧ j < (drv.glGetActiveUniform program_id k max_name_length).size.toNat)
        ∨ (k = i ∧ j < index) →
      getUniform_element_location drv program_id max_name_length k j ≠ some location_id)
    (hmatch : getUniform_element_location drv program_id max_name_length i index
      = some location_id)
    (htable : UniformTypeToBaseLength
      (drv.glGetActiveUniform program_id i max_name_length).type = some (base, length))
    (n : Nat) :
    ∀ (s : Nat) (acc : List Effect), s ≤ i → i < s + n →
      ∃ (acc2 : List Effect) (o : Outcome),
        getUniform_uniforms drv program_id location_id max_name_length (List.range' s n)
          (getUniform_name_vec drv program_id max_name_length s) acc = Step.done o
        ∧ getUniform_encode drv program_id location_id base length acc2 = Step.done o
        ∧ (length = 1 → o.result.isScalar = true)
        ∧ (length ≠ 1 → o.result.elementCount = some length) := by
  induction n with
  | zero =>
    intro s acc hs hlt
    omega
  | succ n ih =>
    intro s acc hs hlt
    rw [List.range'_succ, getUniform_uniforms]
    have hvec : name_vec_store (getUniform_name_vec drv program_id max_name_length s)
        (drv.glGetActiveUniform program_id s max_name_length).name_vec
        = getUniform_name_vec drv program_id max_name_length (s + 1) := rfl
    rw [hvec]
    by_cases he : s = i
    · subst he
      cases hname : std_string_of_buffer
          (getUniform_name_vec drv program_id max_name_length (s + 1))
          (drv.glGetActiveUniform program_id s max_name_length).name_length with
      | none =>
        simp [getUniform_element_location, getUniform_uniform_name, hname] at hmatch
      | some uniform_name =>
        simp only []
        have hm : drv.glGetUniformLocation program_id
            (c_str_of_string (getUniform_element_name
              (getUniform_strip uniform_name
                (drv.glGetActiveUniform program_id s max_name_length).size)
              (drv.glGetActiveUniform program_id s max_name_length).size index))
            = location_id := by
          simpa [getUniform_element_location, getUniform_uniform_name, hname] using hmatch
        have hf : ∀ j : Nat, 0 ≤ j → j < index → drv.glGetUniformLocation program_id
            (c_str_of_string (getUniform_element_name
              (getUniform_strip uniform_name
                (drv.glGetActiveUniform program_id s max_name_length).size)
              (drv.glGetActiveUniform program_id s max_name_length).size j))
            ≠ location_id := by
          intro j _ hj
          have := hfirst s j (Or.inr ⟨rfl, hj⟩)
          simpa [getUniform_element_location, getUniform_uniform_name, hname] using this
        obtain ⟨acc2, o, ho, henc, h1, h2⟩ :=
          getUniform_elements_of_first_match drv program_id location_id
            (getUniform_strip uniform_name
              (drv.glGetActiveUniform program_id s max_name_length).size)
            (drv.glGetActiveUniform program_id s max_name_length).size
            (drv.glGetActiveUniform program_id s max_name_length).type base length index
            htable hm (drv.glGetActiveUniform program_id s max_name_length).size.toNat
            0 (acc ++ [Effect.gl (GLCall.glGetActiveUniform program_id s max_name_length)])
            (Nat.zero_le _) (by omega) hf
        rw [List.range_eq_range', ho]
        exact ⟨acc2, o, rfl, henc, h1, h2⟩
    · have hlt2 : s < i := by omega
      cases hname : std_string_of_buffer
          (getUniform_name_vec drv program_id max_name_length (s + 1))
          (drv.glGetActiveUniform program_id s max_name_length).name_length with
      | none =>
        exact absurd (by simp [getUniform_uniform_name, hname]) (hnofault s hlt2)
      | some uniform_name =>
        simp only []
        have hf : ∀ j ∈ List.range
            (drv.glGetActiveUniform program_id s max_name_length).size.toNat,
            drv.glGetUniformLocation program_id
              (c_str_of_string (getUniform_element_name
                (getUniform_strip uniform_name
                  (drv.glGetActiveUniform program_id s max_name_length).size)
                (drv.glGetActiveUniform program_id s max_name_length).size j))
              ≠ location_id := by
          intro j hj
          have := hfirst s j (Or.inl ⟨hlt2, List.mem_range.1 hj⟩)
          simpa [getUniform_element_location, getUniform_uniform_name, hname] using this
        obtain ⟨acc2, ho⟩ := getUniform_elements_of_no_match drv program_id location_id
          (getUniform_strip uniform_name
            (drv.glGetActiveUniform program_id s max_name_length).size)
          (drv.glGetActiveUniform program_id s max_name_length).size
          (drv.glGetActiveUniform program_id s max_name_length).type
          (List.range (drv.glGetActiveUniform program_id s max_name_length).size.toNat)
          (acc ++ [Effect.gl (GLCall.glGetActiveUniform program_id s max_name_length)]) hf
        rw [ho]
        exact ih (s + 1) acc2 (by omega) (by omega)

/-- The handler `getUniform` on a valid program and a location of that program,
when element `index` of active uniform `i` is the first lookup the driver
reports at the location and the type of that uniform is in the table: the
handler returns, and what it returns is what the switch over the base type
returns, a scalar for count 1 and an array of exactly `length` elements
otherwise. -/
theorem Callback_getUniform_of_first_match (this : WebGLRenderingContext) (drv : Driver)
    (args : Arguments) (program : WebGLProgram) (location : ProgramUniformLocation)
    (max_name_length : Int) (i index base length : Nat)
    (h0 : (args 0).NativeFromV8_WebGLProgram = some (some program))
    (hctx : program.context = this.id) (hdel : program.deleted = false)
    (h1 : (args 1).NativeFromV8_WebGLUniformLocation = some (some location))
    (hlp : location.program_id = program.webgl_id)
    (hmax : drv.glGetProgramiv program.webgl_id GL_ACTIVE_UNIFORM_MAX_LENGTH
      = max_name_length)
    (hi : i < (drv.glGetProgramiv program.webgl_id GL_ACTIVE_UNIFORMS).toNat)
    (hindex : index
      < (drv.glGetActiveUniform program.webgl_id i max_name_length).size.toNat)
    (hnofault : ∀ k : Nat, k < i →
      getUniform_uniform_name drv program.webgl_id max_name_length k ≠ none)
    (hfirst : ∀ k j : Nat,
      (k < i ∧ j < (drv.glGetActiveUniform program.webgl_id k max_name_length).size.toNat)
        ∨ (k = i ∧ j < index) →
      getUniform_element_location drv program.webgl_id max_name_length k j
        ≠ some (toI32 location.webgl_id))
    (hmatch : getUniform_element_location drv program.webgl_id max_name_length i index
      = some (toI32 location.webgl_id))
    (htable : UniformTypeToBaseLength
      (drv.glGetActiveUniform program.webgl_id i max_name_length).type
        = some (base, length)) :
    ∃ (acc : List Effect) (o : Outcome),
      Callback_getUniform this drv args = some o
      ∧ getUniform_encode drv program.webgl_id (toI32 location.webgl_id) base length acc
          = Step.done o
      ∧ (length = 1 → o.result.isScalar = true)
      ∧ (length ≠ 1 → o.result.elementCount = some length) := by
  obtain ⟨acc2, o, ho, henc, hs1, hs2⟩ :=
    getUniform_uniforms_of_first_match drv program.webgl_id (toI32 location.webgl_id)
      max_name_length i index base length hindex hnofault hfirst hmatch htable
      (drv.glGetProgramiv program.webgl_id GL_ACTIVE_UNIFORMS).toNat 0
      ([] ++ [] ++ [] ++
        [Effect.gl (GLCall.glGetProgramiv program.webgl_id GL_ACTIVE_UNIFORMS),
         Effect.gl (GLCall.glGetProgramiv program.webgl_id GL_ACTIVE_UNIFORM_MAX_LENGTH)])
      (Nat.zero_le _) (by omega)
  refine ⟨acc2, o, ?_, henc, hs1, hs2⟩
  unfold Callback_getUniform
  rw [withValidObject_of_valid this _ _ _ _ program h0 hctx hdel]
  simp only [h1, RequireObject, ValidateLocationProgram, hlp, if_true, hmax]
  rw [List.range_eq_range']
  have hvec : List.replicate max_name_length.toNat NUL
      = getUniform_name_vec drv program.webgl_id max_name_length 0 := rfl
  rw [hvec, ho]

/-! ## C21 -/

/-- C21. `UniformTypeToBaseLength` succeeds exactly on the 17 types BOOL,
BOOL_VEC2..4, INT, INT_VEC2..4, FLOAT, FLOAT_VEC2..4, FLOAT_MAT2..4, SAMPLER_2D,
SAMPLER_CUBE and fails on every other value; on success it yields (BOOL, k),
(INT, k), (FLOAT, k) for the k-component types, (FLOAT, 4), (FLOAT, 9),
(FLOAT, 16) for MAT2, MAT3, MAT4 and (INT, 1) for both sampler types; after a
success the switch of `getUniform` returns a scalar when the element count is 1
and otherwise an array of exactly that many elements; and the handler
`getUniform` itself, on a valid program and a location of that program that the
search matches (element `index` of active uniform `i` is the first lookup the
driver reports at the location, no earlier iteration reads outside the name
buffer) for a uniform whose type the table maps to (base, length), returns the
outcome of that switch: a scalar when length is 1 and otherwise an array of
exactly length elements. -/
theorem UniformTypeToBaseLength_table (drv : Driver) (program_id : Nat)
    (location_id : Int) (acc : List Effect) :
    (UniformTypeToBaseLength GL_BOOL = some (GL_BOOL, 1)
      ∧ UniformTypeToBaseLength GL_BOOL_VEC2 = some (GL_BOOL, 2)
      ∧ UniformTypeToBaseLength GL_BOOL_VEC3 = some (GL_BOOL, 3)
      ∧ UniformTypeToBaseLength GL_BOOL_VEC4 = some (GL_BOOL, 4)
      ∧ UniformTypeToBaseLength GL_INT = some (GL_INT, 1)
      ∧ UniformTypeToBaseLength GL_INT_VEC2 = some (GL_INT, 2)
      ∧ UniformTypeToBaseLength GL_INT_VEC3 = some (GL_INT, 3)
      ∧ UniformTypeToBaseLength GL_INT_VEC4 = some (GL_INT, 4)
      ∧ UniformTypeToBaseLength GL_FLOAT = some (GL_FLOAT, 1)
      ∧ UniformTypeToBaseLength GL_FLOAT_VEC2 = some (GL_FLOAT, 2)
      ∧ UniformTypeToBaseLength GL_FLOAT_VEC3 = some (GL_FLOAT, 3)
      ∧ UniformTypeToBaseLength GL_FLOAT_VEC4 = some (GL_FLOAT, 4)
      ∧ UniformTypeToBaseLength GL_FLOAT_MAT2 = some (GL_FLOAT, 4)
      ∧ UniformTypeToBaseLength GL_FLOAT_MAT3 = some (GL_FLOAT, 9)
      ∧ UniformTypeToBaseLength GL_FLOAT_MAT4 = some (GL_FLOAT, 16)
      ∧ UniformTypeToBaseLength GL_SAMPLER_2D = some (GL_INT, 1)
      ∧ UniformTypeToBaseLength GL_SAMPLER_CUBE = some (GL_INT, 1)) ∧
    uniform_types.length = 17 ∧
    (∀ uniform_type : Nat,
      (UniformTypeToBaseLength uniform_type).isSome = true ↔ uniform_type ∈ uniform_types) ∧
    (∀ uniform_type : Nat, uniform_type ∉ uniform_types →
      UniformTypeToBaseLength uniform_type = none) ∧
    (∀ uniform_type base length : Nat,
      UniformTypeToBaseLength uniform_type = some (base, length) →
      ∃ o : Outcome,
        getUniform_encode drv program_id location_id base length acc = Step.done o
          ∧ (length = 1 → o.result.isScalar = true)
          ∧ (length ≠ 1 → o.result.elementCount = some length)) ∧
    (∀ (this : WebGLRenderingContext) (args : Arguments) (program : WebGLProgram)
        (location : ProgramUniformLocation) (max_name_length : Int)
        (i index base length : Nat),
      (args 0).NativeFromV8_WebGLProgram = some (some program) →
      program.context = this.id → program.deleted = false →
      (args 1).NativeFromV8_WebGLUniformLocation = some (some location) →
      location.program_id = program.webgl_id →
      drv.glGetProgramiv program.webgl_id GL_ACTIVE_UNIFORM_MAX_LENGTH = max_name_length →
      i < (drv.glGetProgramiv program.webgl_id GL_ACTIVE_UNIFORMS).toNat →
      index < (drv.glGetActiveUniform program.webgl_id i max_name_length).size.toNat →
      (∀ k : Nat, k < i →
        getUniform_uniform_name drv program.webgl_id max_name_length k ≠ none) →
      (∀ k j : Nat,
        (k < i
            ∧ j < (drv.glGetActiveUniform program.webgl_id k max_name_length).size.toNat)
          ∨ (k = i ∧ j < index) →
        getUniform_element_location drv program.webgl_id max_name_length k j
          ≠ some (toI32 location.webgl_id)) →
      getUniform_element_location drv program.webgl_id max_name_length i index
        = some (toI32 location.webgl_id) →
      UniformTypeToBaseLength
        (drv.glGetActiveUniform program.webgl_id i max_name_length).type
          = some (base, length) →
      ∃ (looked : List Effect) (o : Outcome),
        Callback_getUniform this drv args = some o
          ∧ getUniform_encode drv program.webgl_id (toI32 location.webgl_id) base length
              looked = Step.done o
          ∧ (length = 1 → o.result.isScalar = true)
          ∧ (length ≠ 1 → o.result.elementCount = some length)) := by
  have hnone : ∀ uniform_type : Nat, uniform_type ∉ uniform_types →
      UniformTypeToBaseLength uniform_type = none := by
    intro uniform_type hn
    rcases UniformTypeToBaseLength_cases uniform_type with
      c | c | c | c | c | c | c | c | c | c | c | c | c | c | c | c | c | c
    all_goals first
      | exact c.2
      | (exfalso
         apply hn
         rw [c.1]
         decide)
  refine ⟨UniformTypeToBaseLength_entries, rfl, fun uniform_type => ⟨fun h => ?_, fun h => ?_⟩,
    hnone, fun uniform_type base length h =>
      getUniform_encode_of_table drv program_id location_id acc uniform_type base length h,
    fun this args program location max_name_length i index base length h0 hctx hdel h1 hlp
        hmax hi hindex hnofault hfirst hmatch htable =>
      Callback_getUniform_of_first_match this drv args program location max_name_length
        i index base length h0 hctx hdel h1 hlp hmax hi hindex hnofault hfirst hmatch
        htable⟩
  · by_contra hn
    rw [hnone uniform_type hn] at h
    exact absurd h (by simp)
  · rcases UniformTypeToBaseLength_cases uniform_type with
      c | c | c | c | c | c | c | c | c | c | c | c | c | c | c | c | c | c
    all_goals first
      | (rw [c.2]; rfl)
      | exact absurd h c.1

/-- Instance of C21: 0x1234 is not a uniform type and the table lookup fails;
on the program whose uniforms are the float `scale` (location 5) and the `vec4`
named `tint` (location 6), `getUniform` on the location of `tint` is matched at
the second uniform and returns the array of its four components. -/
theorem UniformTypeToBaseLength_table_witness :
    UniformTypeToBaseLength 0x1234 = none
    ∧ (∃ o : Outcome, getUniform_encode silentDriver 3 6 GL_FLOAT 4 [] = Step.done o
        ∧ (4 = 1 → o.result.isScalar = true)
        ∧ (4 ≠ 1 → o.result.elementCount = some 4))
    ∧ (∃ (looked : List Effect) (o : Outcome),
        Callback_getUniform (emptyContext 1) twoUniformDriver
            (mkArgs [programArg ⟨⟨3, 1, false⟩⟩,
              { NativeFromV8_WebGLUniformLocation := some (some ⟨⟨6⟩, 3⟩) }]) = some o
          ∧ getUniform_encode twoUniformDriver 3 (toI32 6) GL_FLOAT 4 looked = Step.done o
          ∧ (4 = 1 → o.result.isScalar = true)
          ∧ (4 ≠ 1 → o.result.elementCount = some 4))
    ∧ Callback_getUniform (emptyContext 1) twoUniformDriver
        (mkArgs [programArg ⟨⟨3, 1, false⟩⟩,
          { NativeFromV8_WebGLUniformLocation := some (some ⟨⟨6⟩, 3⟩) }])
      = some ⟨[Effect.gl (GLCall.glGetProgramiv 3 GL_ACTIVE_UNIFORMS),
          Effect.gl (GLCall.glGetProgramiv 3 GL_ACTIVE_UNIFORM_MAX_LENGTH),
          Effect.gl (GLCall.glGetActiveUniform 3 0 16),
          Effect.gl (GLCall.glGetUniformLocation 3 "scale"),
          Effect.gl (GLCall.glGetActiveUniform 3 1 16),
          Effect.gl (GLCall.glGetUniformLocation 3 "tint"),
          Effect.gl (GLCall.glGetUniformfv 3 6)],
          Result.float32Array [⟨1⟩, ⟨2⟩, ⟨3⟩, ⟨4⟩]⟩ :=
  ⟨(UniformTypeToBaseLength_table silentDriver 3 6 []).2.2.2.1 0x1234 (by decide),
   (UniformTypeToBaseLength_table silentDriver 3 6 []).2.2.2.2.1 GL_FLOAT_VEC4 GL_FLOAT 4 rfl,
   (UniformTypeToBaseLength_table twoUniformDriver 3 6 []).2.2.2.2.2 (emptyContext 1)
      (mkArgs [programArg ⟨⟨3, 1, false⟩⟩,
        { NativeFromV8_WebGLUniformLocation := some (some ⟨⟨6⟩, 3⟩) }])
      ⟨⟨3, 1, false⟩⟩ ⟨⟨6⟩, 3⟩ 16 1 0 GL_FLOAT 4 rfl rfl rfl rfl rfl rfl
      (by decide) (by decide)
      (fun k hk => by
        have hk0 : k = 0 := by omega
        subst hk0
        decide)
      (fun k j h => by
        have hkj : k = 0 ∧ j = 0 := by
          rcases h with ⟨h1, h2⟩ | ⟨_, h2⟩
          · have hk0 : k = 0 := by omega
            subst hk0
            have hj : j < 1 := h2
            omega
          · omega
        obtain ⟨hk0, hj0⟩ := hkj
        subst hk0
        subst hj0
        decide)
      (by decide) rfl,
   by decide⟩

/-! ## C26 -/

/-- C26. Whenever `UniformTypeToBaseLength` succeeds, the element count is at
least 1, the base type is one of FLOAT, INT, BOOL, the count is at most 4 for
INT and BOOL and at most 16 for FLOAT (the sizes of the fixed arrays `getUniform`
reads); hence the switch of `getUniform` over the base type neither reads
outside its array nor falls through: it returns. -/
theorem UniformTypeToBaseLength_fits_buffers (uniform_type base length : Nat)
    (h : UniformTypeToBaseLength uniform_type = some (base, length)) :
    1 ≤ length
    ∧ (base = GL_FLOAT ∨ base = GL_INT ∨ base = GL_BOOL)
    ∧ (base = GL_INT ∨ base = GL_BOOL → length ≤ 4)
    ∧ (base = GL_FLOAT → length ≤ 16)
    ∧ ∀ (drv : Driver) (program_id : Nat) (location_id : Int) (acc : List Effect),
        getUniform_encode drv program_id location_id base length acc ≠ Step.fault
        ∧ (∀ effects : List Effect,
            getUniform_encode drv program_id location_id base length acc ≠ Step.next effects)
        ∧ ∃ o : Outcome,
            getUniform_encode drv program_id location_id base length acc = Step.done o := by
  have hret : ∀ (drv : Driver) (program_id : Nat) (location_id : Int) (acc : List Effect),
      getUniform_encode drv program_id location_id base length acc ≠ Step.fault
      ∧ (∀ effects : List Effect,
          getUniform_encode drv program_id location_id base length acc ≠ Step.next effects)
      ∧ ∃ o : Outcome,
          getUniform_encode drv program_id location_id base length acc = Step.done o := by
    intro drv program_id location_id acc
    obtain ⟨o, ho, -⟩ :=
      getUniform_encode_of_table drv program_id location_id acc uniform_type base length h
    rw [ho]
    exact ⟨by simp, fun _ => by simp, o, rfl⟩
  rcases UniformTypeToBaseLength_some_bounds uniform_type base length h with
    ⟨rfl, h1, h2⟩ | ⟨rfl, h1, h2⟩ | ⟨rfl, h1, h2⟩
  · exact ⟨h1, Or.inl rfl, fun hb => by rcases hb with hb | hb <;> exact absurd hb (by decide),
      fun _ => h2, hret⟩
  · exact ⟨h1, Or.inr (Or.inl rfl), fun _ => h2, fun hb => absurd hb (by decide), hret⟩
  · exact ⟨h1, Or.inr (Or.inr rfl), fun _ => h2, fun hb => absurd hb (by decide), hret⟩

/-- Instance of C26: FLOAT_MAT4 yields 16 elements of base type FLOAT, which
fill the array of 16 floats exactly. -/
theorem UniformTypeToBaseLength_fits_buffers_witness :
    (GL_FLOAT = GL_FLOAT → 16 ≤ 16)
    ∧ getUniform_encode silentDriver 3 6 GL_FLOAT 16 [] ≠ Step.fault :=
  ⟨(UniformTypeToBaseLength_fits_buffers GL_FLOAT_MAT4 GL_FLOAT 16 rfl).2.2.2.1,
   ((UniformTypeToBaseLength_fits_buffers GL_FLOAT_MAT4 GL_FLOAT 16 rfl).2.2.2.2
      silentDriver 3 6 []).1⟩

/-! ## C22 -/

/-- C22. For `bindBuffer(target, buffer)` with a target that decodes: if the
target is neither ARRAY_BUFFER nor ELEMENT_ARRAY_BUFFER, the only effect is the
post of INVALID_ENUM and no native call is issued, whatever the second argument
is (it is left unconstrained); if the target is one of the two and the buffer is
null, the handler returns undefined, posts no error and issues
`glBindBuffer(target, 0)`. -/
theorem bindBuffer_target_checked_first (this : WebGLRenderingContext) (args : Arguments)
    (target : Nat) (h0 : (args 0).FromV8_uint32 = some target) :
    (¬ (target = GL_ARRAY_BUFFER ∨ target = GL_ELEMENT_ARRAY_BUFFER) →
      Callback_bindBuffer this args = ⟨[Effect.set_gl_error GL_INVALID_ENUM], Result.U⟩
        ∧ (Callback_bindBuffer this args).calls = []) ∧
    (target = GL_ARRAY_BUFFER ∨ target = GL_ELEMENT_ARRAY_BUFFER →
      (args 1).NativeFromV8_WebGLBuffer = some none →
      Callback_bindBuffer this args = ⟨[Effect.gl (GLCall.glBindBuffer target 0)], Result.U⟩
        ∧ (Callback_bindBuffer this args).errors = []) := by
  refine ⟨fun ht => ?_, fun ht h1 => ?_⟩
  · have key : Callback_bindBuffer this args
        = ⟨[Effect.set_gl_error GL_INVALID_ENUM], Result.U⟩ := by
      unfold Callback_bindBuffer
      simp only [h0]
      rw [if_neg ht]
    rw [key]
    exact ⟨rfl, rfl⟩
  · have key : Callback_bindBuffer this args
        = ⟨[Effect.gl (GLCall.glBindBuffer target 0)], Result.U⟩ := by
      unfold Callback_bindBuffer
      simp only [h0, h1]
      rw [if_pos ht]
      simp [ValidateObject]
    rw [key]
    exact ⟨rfl, rfl⟩

/-- The two scenarios of C22: `bindBuffer(ARRAY_BUFFER, null)` binds 0 without
an error, and `bindBuffer(0x1234, buf)` posts INVALID_ENUM. -/
theorem bindBuffer_target_checked_first_witness :
    Callback_bindBuffer (emptyContext 1)
        (mkArgs [uint32Arg GL_ARRAY_BUFFER, { NativeFromV8_WebGLBuffer := some none }])
      = ⟨[Effect.gl (GLCall.glBindBuffer GL_ARRAY_BUFFER 0)], Result.U⟩
    ∧ Callback_bindBuffer (emptyContext 1)
        (mkArgs [uint32Arg 0x1234,
          { NativeFromV8_WebGLBuffer := some (some ⟨⟨7, 1, false⟩⟩) }])
      = ⟨[Effect.set_gl_error GL_INVALID_ENUM], Result.U⟩ :=
  ⟨((bindBuffer_target_checked_first (emptyContext 1)
      (mkArgs [uint32Arg GL_ARRAY_BUFFER, { NativeFromV8_WebGLBuffer := some none }])
      GL_ARRAY_BUFFER rfl).2 (Or.inl rfl) rfl).1,
   ((bindBuffer_target_checked_first (emptyContext 1)
      (mkArgs [uint32Arg 0x1234,
        { NativeFromV8_WebGLBuffer := some (some ⟨⟨7, 1, false⟩⟩) }])
      0x1234 rfl).1 (by decide)).1⟩

/-! ## C23 -/

/-- C23. For every capability `cap` that decodes: if the capability validator
accepts it, `isEnabled(cap)` issues the native `glIsEnabled(cap)` call and
returns undefined, not the driver's boolean answer; if the validator rejects
it, `isEnabled` returns false and issues no native call (the validator has
posted INVALID_ENUM). -/
theorem isEnabled_returns_undefined (capabilities : List Nat) (args : Arguments)
    (cap : Nat) (h0 : (args 0).FromV8_uint32 = some cap) :
    ((ValidateCapability capabilities cap).2 = true →
      Callback_isEnabled capabilities args
        = ⟨[Effect.gl (GLCall.glIsEnabled cap)], Result.U⟩) ∧
    ((ValidateCapability capabilities cap).2 = false →
      Callback_isEnabled capabilities args
          = ⟨[Effect.set_gl_error GL_INVALID_ENUM], Result.boolean false⟩
        ∧ (Callback_isEnabled capabilities args).calls = []) := by
  unfold Callback_isEnabled
  simp only [h0]
  unfold ValidateCapability
  by_cases hc : cap ∈ capabilities
  · simp [hc]
  · simp [hc, Outcome.calls, nativeCalls]

/-- Instance of C23 with BLEND and DEPTH_TEST as the accepted capabilities:
`isEnabled(BLEND)` calls the driver and returns undefined, `isEnabled(0x1234)`
returns false. -/
theorem isEnabled_returns_undefined_witness :
    Callback_isEnabled [GL_BLEND, GL_DEPTH_TEST] (mkArgs [uint32Arg GL_BLEND])
      = ⟨[Effect.gl (GLCall.glIsEnabled GL_BLEND)], Result.U⟩
    ∧ Callback_isEnabled [GL_BLEND, GL_DEPTH_TEST] (mkArgs [uint32Arg 0x1234])
      = ⟨[Effect.set_gl_error GL_INVALID_ENUM], Result.boolean false⟩ :=
  ⟨(isEnabled_returns_undefined [GL_BLEND, GL_DEPTH_TEST] (mkArgs [uint32Arg GL_BLEND])
      GL_BLEND rfl).1 (by decide),
   ((isEnabled_returns_undefined [GL_BLEND, GL_DEPTH_TEST] (mkArgs [uint32Arg 0x1234])
      0x1234 rfl).2 (by decide)).1⟩

/-! ## C30 -/

/-- Below position 32 the bits of the 32-bit complement are the negated bits of
the three-bit mask. -/
theorem clear_complement_low_bits :
    ∀ i : Nat, i < 32 →
      (4294967295 - (GL_COLOR_BUFFER_BIT ||| GL_DEPTH_BUFFER_BIT ||| GL_STENCIL_BUFFER_BIT)).testBit i
        = !(GL_COLOR_BUFFER_BIT ||| GL_DEPTH_BUFFER_BIT ||| GL_STENCIL_BUFFER_BIT).testBit i := by
  decide

/-- The test `mask & ~(COLOR | DEPTH | STENCIL)` of `clear` vanishes exactly when
the 32-bit mask has no bit outside the three buffer bits. -/
theorem clear_test_eq_zero_iff (mask : Nat) (hm : mask < 4294967296) :
    mask &&& (4294967295
        - (GL_COLOR_BUFFER_BIT ||| GL_DEPTH_BUFFER_BIT ||| GL_STENCIL_BUFFER_BIT)) = 0
      ↔ ∀ i : Nat, mask.testBit i = true →
          (GL_COLOR_BUFFER_BIT ||| GL_DEPTH_BUFFER_BIT ||| GL_STENCIL_BUFFER_BIT).testBit i
            = true := by
  have hhigh : ∀ i : Nat, 32 ≤ i → mask.testBit i = false := by
    intro i hi
    apply Nat.testBit_lt_two_pow
    calc mask < 2 ^ 32 := by simpa using hm
      _ ≤ 2 ^ i := Nat.pow_le_pow_right (by decide) hi
  constructor
  · intro h i hi
    have hlt : i < 32 := by
      by_contra hge
      rw [hhigh i (by omega)] at hi
      exact absurd hi (by simp)
    have hbit := congrArg (fun n => n.testBit i) h
    simp only [Nat.testBit_and, Nat.zero_testBit, hi, Bool.true_and] at hbit
    rw [clear_complement_low_bits i hlt] at hbit
    cases hb : (GL_COLOR_BUFFER_BIT ||| GL_DEPTH_BUFFER_BIT
        ||| GL_STENCIL_BUFFER_BIT).testBit i with
    | true => rfl
    | false =>
      rw [hb] at hbit
      exact absurd hbit (by decide)
  · intro h
    apply Nat.eq_of_testBit_eq
    intro i
    rw [Nat.testBit_and, Nat.zero_testBit]
    by_cases hi : mask.testBit i = true
    · have hlt : i < 32 := by
        by_contra hge
        rw [hhigh i (by omega)] at hi
        exact absurd hi (by simp)
      rw [clear_complement_low_bits i hlt, h i hi]
      simp
    · simp [hi]

/-- C30. For every mask that decodes (a 32-bit unsigned value), `clear(mask)`
issues the native `glClear(mask)` iff the mask has no bit set outside
COLOR_BUFFER_BIT | DEPTH_BUFFER_BIT | STENCIL_BUFFER_BIT, the call then being the
only effect; otherwise the only effect is the post of INVALID_VALUE. -/
theorem clear_native_call_iff_mask_within_bits (args : Arguments) (mask : Nat)
    (h0 : (args 0).FromV8_uint32 = some mask) (hm : mask < 4294967296) :
    ((Callback_clear args).calls ≠ [] ↔
      ∀ i : Nat, mask.testBit i = true →
        (GL_COLOR_BUFFER_BIT ||| GL_DEPTH_BUFFER_BIT ||| GL_STENCIL_BUFFER_BIT).testBit i
          = true) ∧
    ((∀ i : Nat, mask.testBit i = true →
        (GL_COLOR_BUFFER_BIT ||| GL_DEPTH_BUFFER_BIT ||| GL_STENCIL_BUFFER_BIT).testBit i
          = true) →
      Callback_clear args = ⟨[Effect.gl (GLCall.glClear mask)], Result.U⟩) ∧
    (¬ (∀ i : Nat, mask.testBit i = true →
        (GL_COLOR_BUFFER_BIT ||| GL_DEPTH_BUFFER_BIT ||| GL_STENCIL_BUFFER_BIT).testBit i
          = true) →
      Callback_clear args = ⟨[Effect.set_gl_error GL_INVALID_VALUE], Result.U⟩) := by
  rw [← clear_test_eq_zero_iff mask hm]
  unfold Callback_clear
  simp only [h0]
  by_cases hz : mask &&& (4294967295
      - (GL_COLOR_BUFFER_BIT ||| GL_DEPTH_BUFFER_BIT ||| GL_STENCIL_BUFFER_BIT)) = 0
  · rw [if_neg (not_not.2 hz)]
    exact ⟨⟨fun _ => hz, fun _ => by simp [Outcome.calls, nativeCalls]⟩,
      fun _ => rfl, fun h => absurd hz h⟩
  · rw [if_pos hz]
    exact ⟨⟨fun h => absurd rfl h, fun h => absurd h hz⟩, fun h => absurd h hz, fun _ => rfl⟩

/-- Instances of C30: the mask 0 and the mask with all three bits are accepted,
the mask 1 is rejected. -/
theorem clear_native_call_iff_mask_within_bits_witness :
    Callback_clear (mkArgs [uint32Arg 0]) = ⟨[Effect.gl (GLCall.glClear 0)], Result.U⟩
    ∧ Callback_clear (mkArgs [uint32Arg 0x4500])
      = ⟨[Effect.gl (GLCall.glClear 0x4500)], Result.U⟩
    ∧ Callback_clear (mkArgs [uint32Arg 1])
      = ⟨[Effect.set_gl_error GL_INVALID_VALUE], Result.U⟩ :=
  ⟨(clear_native_call_iff_mask_within_bits (mkArgs [uint32Arg 0]) 0 rfl (by decide)).2.1
      (fun i hi => absurd hi (by simp)),
   (clear_native_call_iff_mask_within_bits (mkArgs [uint32Arg 0x4500]) 0x4500 rfl
      (by decide)).2.1 (fun _ hi => hi),
   (clear_native_call_iff_mask_within_bits (mkArgs [uint32Arg 1]) 1 rfl (by decide)).2.2
      (fun h => absurd (h 0 (by decide)) (by decide))⟩

/-! ## C24 -/

/-- With a non-null location, transpose false and an array argument that
decodes, the matrix helper's outcome is what `InvokeGL` does on the array's
length and data. -/
theorem UniformMatrixHelper.Process_of_matrix_array {α : Type}
    (view : V8Value → ArrayValue α) (gl_callback : Nat → Int → Nat → List α → GLCall)
    (min_size : Nat) (args : Arguments) (location : WebGLUniformLocation) (v : List α)
    (hloc : (args 0).UniformLocationFromV8 = some location)
    (htr : (args 1).FromV8_bool = some false)
    (harr : view (args 2) = ArrayValue.array (some v)
      ∨ view (args 2) = ArrayValue.typedArray (some v)) :
    UniformMatrixHelper.Process view gl_callback min_size args
      = ⟨UniformMatrixHelper.InvokeGL gl_callback min_size location.webgl_id
          (v.length % 4294967296) v, Result.U⟩ := by
  unfold UniformMatrixHelper.Process UVAHelper.Process UniformMatrixHelper.ProcessArgs
  rcases harr with h | h <;> simp [hloc, htr, h]

/-- What the matrix helper hands to the native function, whose parameters are
(location, count, transpose, data): 0 in the count position and the element
count, reduced to a `GLboolean`, in the transpose position; a length that is
too short or not a multiple is rejected with INVALID_VALUE. -/
theorem UniformMatrixHelper.swapped_arguments {α : Type}
    (view : V8Value → ArrayValue α) (gl_callback : Nat → Int → Nat → List α → GLCall)
    (min_size : Nat) (args : Arguments) (location : WebGLUniformLocation) (v : List α)
    (hloc : (args 0).UniformLocationFromV8 = some location)
    (htr : (args 1).FromV8_bool = some false)
    (harr : view (args 2) = ArrayValue.array (some v)
      ∨ view (args 2) = ArrayValue.typedArray (some v))
    (hlen : v.length < 4294967296) :
    (min_size ≤ v.length ∧ v.length % min_size = 0 →
      UniformMatrixHelper.Process view gl_callback min_size args
        = ⟨[Effect.gl (gl_callback location.webgl_id 0
            ((v.length / min_size) % 256) v)], Result.U⟩) ∧
    (¬ (min_size ≤ v.length ∧ v.length % min_size = 0) →
      UniformMatrixHelper.Process view gl_callback min_size args
        = ⟨[Effect.set_gl_error GL_INVALID_VALUE], Result.U⟩) := by
  rw [UniformMatrixHelper.Process_of_matrix_array view gl_callback min_size args location v
    hloc htr harr, Nat.mod_eq_of_lt hlen]
  unfold UniformMatrixHelper.InvokeGL
  refine ⟨fun hc => ?_, fun hc => ?_⟩
  · have hn : ¬ (v.length < min_size ∨ v.length % min_size ≠ 0) := by omega
    rw [if_neg hn]
    rfl
  · have hp : v.length < min_size ∨ v.length % min_size ≠ 0 := by omega
    rw [if_pos hp]

/-- C24, evaluated where the code departs from it. `uniformMatrix2fv(loc 5,
false, [a, b, c, d])` has L = 4 = N*N, so the count should be 1 and the
transpose false; the native function, whose parameters are (location, count,
transpose, data), receives 0 in the count position and 1 in the transpose
position. -/
theorem uniformMatrix2fv_swaps_count_and_transpose :
    Callback_uniformMatrix2fv (mkArgs [{ UniformLocationFromV8 := some ⟨5⟩ },
        boolArg false, { floats := ArrayValue.array (some [⟨1⟩, ⟨2⟩, ⟨3⟩, ⟨4⟩]) }])
      = ⟨[Effect.gl (GLCall.glUniformMatrix2fv 5 0 1 [⟨1⟩, ⟨2⟩, ⟨3⟩, ⟨4⟩])], Result.U⟩
    ∧ Callback_uniformMatrix2fv (mkArgs [{ UniformLocationFromV8 := some ⟨5⟩ },
        boolArg false, { floats := ArrayValue.array (some [⟨1⟩, ⟨2⟩, ⟨3⟩, ⟨4⟩]) }])
      ≠ ⟨[Effect.gl (GLCall.glUniformMatrix2fv 5 1 0 [⟨1⟩, ⟨2⟩, ⟨3⟩, ⟨4⟩])], Result.U⟩ := by
  decide

/-! ## C25 -/

/-- C25, evaluated where the code departs from it. The driver reports the array
uniform `ab` with size 2, `name_length = 2` and `max_name_length = 16`, so
`max_name_length ≥ 1` and `0 ≤ name_length < max_name_length`. The repair
condition holds through `name_length < 3`, and the first store goes to index
`name_length - 3 = -1`, outside the buffer: the handler accesses memory outside
the name buffer. -/
theorem getActiveUniform_short_name_writes_before_buffer :
    getActiveUniform_repair_condition (name_vec_after 16 ("ab".toList ++ [NUL])) 2 2
      = some true
    ∧ name_vec_set (name_vec_after 16 ("ab".toList ++ [NUL])) (2 - 3) '[' = none
    ∧ Callback_getActiveUniform (emptyContext 1) shortNameDriver
        (mkArgs [programArg ⟨⟨3, 1, false⟩⟩, uint32Arg 0]) = none := by
  decide

/-! ## C27 -/

/-- C27, evaluated where the code departs from it. With width = height = 65536
and pack alignment 4 the row stride is 262144 bytes (the least multiple of 4
that is at least 4 * 65536) and 65536 * 262144 = 2^34 bytes are needed; the
32-bit product wraps around to 0, so `readPixels` accepts an empty `Uint8Array`
and issues the native `glReadPixels` call. -/
theorem readPixels_length_required_wraps_around :
    readPixels_row_bytes 65536 4 = 262144
    ∧ readPixels_length_required 65536 65536 4 = 0
    ∧ Callback_readPixels 4 (mkArgs [int32Arg 0, int32Arg 0, int32Arg 65536, int32Arg 65536,
        uint32Arg GL_RGBA, uint32Arg GL_UNSIGNED_BYTE,
        { NativeFromV8_Uint8Array := some (some ⟨0, 7⟩) }])
      = ⟨[Effect.gl (GLCall.glReadPixels 0 0 65536 65536 GL_RGBA GL_UNSIGNED_BYTE 7)],
          Result.U⟩
    ∧ ¬ ((65536 : Int) * 262144 ≤ ((0 : Nat) : Int)) := by
  decide

/-! ## C28 -/

/-- Every effect list of the `pixelStorei` handler is empty, a single error post,
or a single `glPixelStorei` call on one of the two alignments with a parameter
in 1, 2, 4, 8. -/
theorem Callback_pixelStorei_effects (args : Arguments) :
    (Callback_pixelStorei args).effects = []
    ∨ (∃ error : Nat, (Callback_pixelStorei args).effects = [Effect.set_gl_error error])
    ∨ ∃ (pname : Nat) (param : Int),
        (Callback_pixelStorei args).effects = [Effect.gl (GLCall.glPixelStorei pname param)]
          ∧ (pname = GL_PACK_ALIGNMENT ∨ pname = GL_UNPACK_ALIGNMENT)
          ∧ (param = 1 ∨ param = 2 ∨ param = 4 ∨ param = 8) := by
  unfold Callback_pixelStorei
  cases h0 : (args 0).FromV8_uint32 with
  | none => exact Or.inl rfl
  | some pname =>
    cases h1 : (args 1).FromV8_int32 with
    | none => exact Or.inl rfl
    | some param =>
      simp only []
      by_cases hw : pname = GL_UNPACK_FLIP_Y_WEBGL ∨ pname = GL_UNPACK_PREMULTIPLY_ALPHA_WEBGL
          ∨ pname = GL_UNPACK_COLORSPACE_CONVERSION_WEBGL
      · rw [if_pos hw]
        exact Or.inl rfl
      · rw [if_neg hw]
        by_cases hp : pname = GL_PACK_ALIGNMENT ∨ pname = GL_UNPACK_ALIGNMENT
        · rw [if_pos hp]
          by_cases hv : param = 1 ∨ param = 2 ∨ param = 4 ∨ param = 8
          · rw [if_pos hv]
            exact Or.inr (Or.inr ⟨pname, param, rfl, hp, hv⟩)
          · rw [if_neg hv]
            exact Or.inr (Or.inl ⟨_, rfl⟩)
        · rw [if_neg hp]
          exact Or.inr (Or.inl ⟨_, rfl⟩)

/-- One `pixelStorei` invocation keeps both alignments in 1, 2, 4, 8. -/
theorem PixelStore.after_pixelStorei_valid (s : PixelStore) (args : Arguments)
    (hp : s.PACK_ALIGNMENT = 1 ∨ s.PACK_ALIGNMENT = 2 ∨ s.PACK_ALIGNMENT = 4
      ∨ s.PACK_ALIGNMENT = 8)
    (hu : s.UNPACK_ALIGNMENT = 1 ∨ s.UNPACK_ALIGNMENT = 2 ∨ s.UNPACK_ALIGNMENT = 4
      ∨ s.UNPACK_ALIGNMENT = 8) :
    ((s.after (Callback_pixelStorei args).effects).PACK_ALIGNMENT = 1
      ∨ (s.after (Callback_pixelStorei args).effects).PACK_ALIGNMENT = 2
      ∨ (s.after (Callback_pixelStorei args).effects).PACK_ALIGNMENT = 4
      ∨ (s.after (Callback_pixelStorei args).effects).PACK_ALIGNMENT = 8)
    ∧ ((s.after (Callback_pixelStorei args).effects).UNPACK_ALIGNMENT = 1
      ∨ (s.after (Callback_pixelStorei args).effects).UNPACK_ALIGNMENT = 2
      ∨ (s.after (Callback_pixelStorei args).effects).UNPACK_ALIGNMENT = 4
      ∨ (s.after (Callback_pixelStorei args).effects).UNPACK_ALIGNMENT = 8) := by
  rcases Callback_pixelStorei_effects args with h | ⟨error, h⟩ | ⟨pname, param, h, hn, hv⟩
  · rw [h]
    exact ⟨hp, hu⟩
  · rw [h]
    exact ⟨hp, hu⟩
  · rw [h]
    rcases hn with rfl | rfl
    · exact ⟨hv, hu⟩
    · exact ⟨hp, hv⟩

/-- The invariant along a sequence of `pixelStorei` invocations, from any state
that satisfies it. -/
theorem pixelStorei_run_valid (calls : List Arguments) :
    ∀ s : PixelStore,
      (s.PACK_ALIGNMENT = 1 ∨ s.PACK_ALIGNMENT = 2 ∨ s.PACK_ALIGNMENT = 4
        ∨ s.PACK_ALIGNMENT = 8) →
      (s.UNPACK_ALIGNMENT = 1 ∨ s.UNPACK_ALIGNMENT = 2 ∨ s.UNPACK_ALIGNMENT = 4
        ∨ s.UNPACK_ALIGNMENT = 8) →
      ((pixelStorei_run s calls).PACK_ALIGNMENT = 1
        ∨ (pixelStorei_run s calls).PACK_ALIGNMENT = 2
        ∨ (pixelStorei_run s calls).PACK_ALIGNMENT = 4
        ∨ (pixelStorei_run s calls).PACK_ALIGNMENT = 8)
      ∧ ((pixelStorei_run s calls).UNPACK_ALIGNMENT = 1
        ∨ (pixelStorei_run s calls).UNPACK_ALIGNMENT = 2
        ∨ (pixelStorei_run s calls).UNPACK_ALIGNMENT = 4
        ∨ (pixelStorei_run s calls).UNPACK_ALIGNMENT = 8) := by
  induction calls with
  | nil =>
    intro s hp hu
    exact ⟨hp, hu⟩
  | cons args rest ih =>
    intro s hp hu
    obtain ⟨hp2, hu2⟩ := PixelStore.after_pixelStorei_valid s args hp hu
    exact ih _ hp2 hu2

/-- C28. Taking the driver's alignments as state that starts at 4 and changes
only through the native `glPixelStorei` call: after any finite sequence of
`pixelStorei` handler invocations with arbitrary arguments, PACK_ALIGNMENT is in
1, 2, 4, 8 and so is UNPACK_ALIGNMENT; consequently the modulus `readPixels`
takes by the alignment (converted to unsigned) is never 0. -/
theorem pixelStorei_keeps_alignments_valid (calls : List Arguments) :
    ((pixelStorei_run PixelStore.start calls).PACK_ALIGNMENT = 1
      ∨ (pixelStorei_run PixelStore.start calls).PACK_ALIGNMENT = 2
      ∨ (pixelStorei_run PixelStore.start calls).PACK_ALIGNMENT = 4
      ∨ (pixelStorei_run PixelStore.start calls).PACK_ALIGNMENT = 8)
    ∧ ((pixelStorei_run PixelStore.start calls).UNPACK_ALIGNMENT = 1
      ∨ (pixelStorei_run PixelStore.start calls).UNPACK_ALIGNMENT = 2
      ∨ (pixelStorei_run PixelStore.start calls).UNPACK_ALIGNMENT = 4
      ∨ (pixelStorei_run PixelStore.start calls).UNPACK_ALIGNMENT = 8)
    ∧ toU32 (pixelStorei_run PixelStore.start calls).PACK_ALIGNMENT ≠ 0 := by
  obtain ⟨hp, hu⟩ := pixelStorei_run_valid calls PixelStore.start
    (Or.inr (Or.inr (Or.inl rfl))) (Or.inr (Or.inr (Or.inl rfl)))
  refine ⟨hp, hu, ?_⟩
  rcases hp with h | h | h | h <;> rw [h] <;> decide

/-! ## C29 -/

/-- The name looked up for an element, in general: for element 0, and for a
uniform of size at most 1, the name unchanged; for element `index ≥ 1` of a
uniform of size above 1, the text `"[index]"` followed by what is left of the
name after dropping as many characters as that text has. -/
theorem getUniform_element_name_cases (uniform_name : List Char) (uniform_size : Int)
    (index : Nat) :
    (index = 0 → getUniform_element_name uniform_name uniform_size index = uniform_name)
    ∧ (uniform_size ≤ 1 →
        getUniform_element_name uniform_name uniform_size index = uniform_name)
    ∧ (1 < uniform_size → 1 ≤ index →
        getUniform_element_name uniform_name uniform_size index
          = ("[".toList ++ (Nat.repr index).toList ++ "]".toList)
            ++ uniform_name.drop
                ("[".toList ++ (Nat.repr index).toList ++ "]".toList).length) := by
  unfold getUniform_element_name stringstream_str
  refine ⟨fun h => ?_, fun h => ?_, fun h1 h2 => ?_⟩
  · rw [if_neg (by omega)]
  · rw [if_neg (by omega)]
  · rw [if_pos ⟨by omega, h2⟩]

/-- C29, evaluated where the code departs from it. For the array uniform
`colors` of size 4 (driver name `"colors[0]"`, stripped to `"colors"`), the name
looked up for element 1 is `"[1]ors"`, not `"colors[1]"`: the string stream is
constructed from the name and then written from its start. As a result
`getUniform` on the location of `colors[1]` (id 7) looks up `colors`, `[1]ors`,
`[2]ors`, `[3]ors`, finds no match, posts INVALID_VALUE and returns null. -/
theorem getUniform_element_name_overwrites_name_head :
    getUniform_strip "colors[0]".toList 4 = "colors".toList
    ∧ getUniform_element_name "colors".toList 4 0 = "colors".toList
    ∧ getUniform_element_name "colors".toList 4 1 = "[1]ors".toList
    ∧ getUniform_element_name "colors".toList 4 1 ≠ "colors[1]".toList
    ∧ Callback_getUniform (emptyContext 1) colorsArrayDriver
        (mkArgs [programArg ⟨⟨3, 1, false⟩⟩,
          { NativeFromV8_WebGLUniformLocation := some (some ⟨⟨7⟩, 3⟩) }])
      = some ⟨[Effect.gl (GLCall.glGetProgramiv 3 GL_ACTIVE_UNIFORMS),
          Effect.gl (GLCall.glGetProgramiv 3 GL_ACTIVE_UNIFORM_MAX_LENGTH),
          Effect.gl (GLCall.glGetActiveUniform 3 0 16),
          Effect.gl (GLCall.glGetUniformLocation 3 "colors"),
          Effect.gl (GLCall.glGetUniformLocation 3 "[1]ors"),
          Effect.gl (GLCall.glGetUniformLocation 3 "[2]ors"),
          Effect.gl (GLCall.glGetUniformLocation 3 "[3]ors"),
          Effect.set_gl_error GL_INVALID_VALUE], Result.null⟩ := by
  decide

end v8_webgl
